import Mathlib

/-!
# The T-encoding interpreter of `src/arm/isa-thumb.c`

A shallow embedding of the Thumb step function, of its 1024-entry dispatch
table and of every instruction handler of `isa-thumb.c`, followed by theorems
about them.

Conventions of the embedding.

* A 32-bit register value (`int32_t` in the source) is the natural number
  below `2^32` with the same bit pattern; arithmetic wraps explicitly.
* The status flags are single bits and are modelled as `Bool`; an integer
  stored into a flag goes through `bitfield1`.
* The emulated memory is an abstract state `M` driven through the
  function-pointer interface `ARMMemory M`.
* What `isa-thumb.c` takes from headers that are not part of the sources at
  hand (`isa-inlines.h`, `arm.h`) is either a field of `Env` (a parameter of
  every handler) or a definition whose comment starts `Modelled from the spec:`.
-/

namespace Thumb

/-! ## Machine words -/

/-- Truncation of a natural number to a 32-bit word. -/
def u32 (x : Nat) : Nat := x % 4294967296

/-- 32-bit wrapping addition. -/
def add32 (a b : Nat) : Nat := (a + b) % 4294967296

/-- 32-bit wrapping subtraction. -/
def sub32 (a b : Nat) : Nat := (a + (4294967296 - b % 4294967296)) % 4294967296

/-- Bitwise complement of a 32-bit word. -/
def not32 (a : Nat) : Nat := 4294967295 - a % 4294967296

/-- The signed (`int32_t`) reading of a 32-bit word. -/
def toInt32 (x : Nat) : Int :=
  if x % 4294967296 < 2147483648 then ((x % 4294967296 : Nat) : Int)
  else ((x % 4294967296 : Nat) : Int) - 4294967296

/-- The 32-bit word holding an integer, two's complement. -/
def wrap32 (z : Int) : Nat := (z % 4294967296).toNat

/-- The C expression `x >> k` on an `int32_t` (sign-filling right shift). -/
def asr32 (x k : Nat) : Nat := wrap32 (toInt32 x >>> k)

/-- Conversion to `int8_t`: the low eight bits, read as a signed number. -/
def int8 (x : Nat) : Int :=
  if x % 256 < 128 then ((x % 256 : Nat) : Int) else ((x % 256 : Nat) : Int) - 256

/-- Conversion to `int16_t`: the low sixteen bits, read as a signed number. -/
def int16 (x : Nat) : Int :=
  if x % 65536 < 32768 then ((x % 65536 : Nat) : Int) else ((x % 65536 : Nat) : Int) - 65536

/-- Bit `k` of a word, as 0 or 1. -/
def bit (x k : Nat) : Nat := (x / 2 ^ k) % 2

/-- The C operator `!`. -/
def lnot (x : Nat) : Nat := if x = 0 then 1 else 0

/-! ## Data model -/

/-- Modelled from the spec: the register indices of `arm.h` (index 13 is the
stack pointer, 14 the link register, 15 the program counter). -/
def ARM_SP : Nat := 13

/-- Modelled from the spec: index 14 is the link register. -/
def ARM_LR : Nat := 14

/-- Modelled from the spec: index 15 is the program counter. -/
def ARM_PC : Nat := 15

/-- Modelled from the spec: the width in bytes of a T encoding (16 bits),
the constant `WORD_SIZE_THUMB` of `arm.h`. -/
def WORD_SIZE_THUMB : Nat := 2

/-- Modelled from the spec: `executionMode ∈ {A, T}`, the enumeration of `arm.h`. -/
inductive ExecutionMode where
  | MODE_ARM
  | MODE_THUMB
deriving DecidableEq, Repr

/-- Modelled from the spec: the status word of `arm.h`, of which the handlers
touch the fields `n`, `z`, `c`, `v`, each a single bit. -/
structure PSR where
  n : Bool
  z : Bool
  c : Bool
  v : Bool
deriving DecidableEq, Repr

/-- Modelled from the spec: the flags are single-bit fields, so a C assignment
of an integer to one of them keeps the integer modulo 2 (its bit 0). -/
def bitfield1 (x : Nat) : Bool := decide (x % 2 = 1)

/-- Modelled from the spec: the CPU record of `arm.h`: register file, status
word, cycle counter, execution mode and the state of the memory behind the
`memory` handle. The cycle counter is an unbounded integer. -/
structure ARMCore (M : Type) where
  gprs : Nat → Nat
  cpsr : PSR
  cycles : Int
  executionMode : ExecutionMode
  memory : M

/-- Modelled from the spec: the memory interface of `arm.h`, a record of
function pointers and fast-fetch fields, over an abstract memory state `M`.
A load returns the loaded value and the memory state after the access;
`activeRegion m k` is halfword `k` of the active region. -/
structure ARMMemory (M : Type) where
  load32 : M → Nat → Nat × M
  load16 : M → Nat → Nat × M
  load8 : M → Nat → Nat × M
  loadU16 : M → Nat → Nat × M
  loadU8 : M → Nat → Nat × M
  store32 : M → Nat → Nat → M
  store16 : M → Nat → Nat → M
  store8 : M → Nat → Nat → M
  activeRegion : M → Nat → Nat
  activeMask : M → Nat
  activePrefetchCycles16 : M → Int

/-- What the handlers use and `isa-thumb.c` does not define: the memory
interface, the body `ARM_STUB` of the unimplemented handlers, the two
PC-write rituals, `_ARMSetMode` and the board hook `swi16`. They are
parameters of the embedding. -/
structure Env (M : Type) where
  memory : ARMMemory M
  ARM_STUB : ARMCore M → Nat → ARMCore M
  THUMB_WRITE_PC : ARMCore M → ARMCore M
  ARM_WRITE_PC : ARMCore M → ARMCore M
  _ARMSetMode : ARMCore M → Nat → ARMCore M
  swi16 : ARMCore M → Nat → ARMCore M

variable {M : Type}

/-- The assignment `cpu->gprs[i] = v`. -/
def setReg (cpu : ARMCore M) (i v : Nat) : ARMCore M :=
  { cpu with gprs := fun j => if j = i then v else cpu.gprs j }

/-- The assignment `cpu->cpsr.c = x`. -/
def setC (cpu : ARMCore M) (x : Nat) : ARMCore M :=
  { cpu with cpsr := { cpu.cpsr with c := bitfield1 x } }

/-! ## Flag primitives -/

/-- Modelled from the spec: `ARM_SIGN` of `isa-inlines.h`, bit 31 of a word. -/
def ARM_SIGN (I : Nat) : Nat := bit I 31

/-- Modelled from the spec: `ARM_CARRY_FROM` of `isa-inlines.h`, the carry out
of the unsigned 32-bit sum, `((m as u64) + (n as u64)) >> 32`. -/
def ARM_CARRY_FROM (m n _d : Nat) : Nat := (u32 m + u32 n) / 4294967296

/-- Modelled from the spec: `ARM_BORROW_FROM` of `isa-inlines.h`, the
no-borrow bit `(m as u32) ≥ (n as u32)`. -/
def ARM_BORROW_FROM (m n _d : Nat) : Nat := if u32 n ≤ u32 m then 1 else 0

/-- Modelled from the spec: `ARM_V_ADDITION` of `isa-inlines.h`,
`bit31(m) = bit31(n) ∧ bit31(d) ≠ bit31(m)`. -/
def ARM_V_ADDITION (m n d : Nat) : Nat :=
  if bit m 31 = bit n 31 ∧ bit d 31 ≠ bit m 31 then 1 else 0

/-- Modelled from the spec: `ARM_V_SUBTRACTION` of `isa-inlines.h`,
`bit31(m) ≠ bit31(n) ∧ bit31(d) ≠ bit31(m)`. -/
def ARM_V_SUBTRACTION (m n d : Nat) : Nat :=
  if bit m 31 ≠ bit n 31 ∧ bit d 31 ≠ bit m 31 then 1 else 0

/-- The macro `THUMB_ADDITION_S(M, N, D)`. -/
def THUMB_ADDITION_S (cpu : ARMCore M) (m n d : Nat) : ARMCore M :=
  { cpu with cpsr :=
      { n := bitfield1 (ARM_SIGN d)
        z := bitfield1 (lnot d)
        c := bitfield1 (ARM_CARRY_FROM m n d)
        v := bitfield1 (ARM_V_ADDITION m n d) } }

/-- The macro `THUMB_SUBTRACTION_S(M, N, D)`. -/
def THUMB_SUBTRACTION_S (cpu : ARMCore M) (m n d : Nat) : ARMCore M :=
  { cpu with cpsr :=
      { n := bitfield1 (ARM_SIGN d)
        z := bitfield1 (lnot d)
        c := bitfield1 (ARM_BORROW_FROM m n d)
        v := bitfield1 (ARM_V_SUBTRACTION m n d) } }

/-- The macro `THUMB_NEUTRAL_S(M, N, D)`: only `n` and `z` are assigned. -/
def THUMB_NEUTRAL_S (cpu : ARMCore M) (d : Nat) : ARMCore M :=
  { cpu with cpsr :=
      { cpu.cpsr with n := bitfield1 (ARM_SIGN d), z := bitfield1 (lnot d) } }

/-- The macro `THUMB_ADDITION(D, M, N)` with `D = cpu->gprs[rd]`: the operands
are copied to the locals `n` and `m`, then `D = M + N` is assigned, then the
flags are computed from the locals and from `D` read back. -/
def THUMB_ADDITION (cpu : ARMCore M) (rd : Nat) (valM valN : Nat) : ARMCore M :=
  let n := valN
  let m := valM
  let cpu := setReg cpu rd (add32 valM valN)
  THUMB_ADDITION_S cpu m n (cpu.gprs rd)

/-- The macro `THUMB_SUBTRACTION(D, M, N)` with `D = cpu->gprs[rd]`. -/
def THUMB_SUBTRACTION (cpu : ARMCore M) (rd : Nat) (valM valN : Nat) : ARMCore M :=
  let n := valN
  let m := valM
  let cpu := setReg cpu rd (sub32 valM valN)
  THUMB_SUBTRACTION_S cpu m n (cpu.gprs rd)

/-- The macro `DEFINE_INSTRUCTION_THUMB(NAME, BODY)`: the body, then
`cpu->cycles += 1 + cpu->memory->activePrefetchCycles16`. -/
def DEFINE_INSTRUCTION_THUMB (env : Env M) (BODY : ARMCore M → Nat → ARMCore M)
    (cpu : ARMCore M) (opcode : Nat) : ARMCore M :=
  let cpu := BODY cpu opcode
  { cpu with cycles := cpu.cycles + (1 + env.memory.activePrefetchCycles16 cpu.memory) }

/-! ## Shifts by an immediate and immediate-offset transfers -/

/-- The macro `DEFINE_IMMEDIATE_5_INSTRUCTION_EX_THUMB(NAME, IMMEDIATE, BODY)`. -/
def DEFINE_IMMEDIATE_5_INSTRUCTION_EX_THUMB (env : Env M) (IMMEDIATE : Nat)
    (BODY : Nat → Nat → Nat → ARMCore M → ARMCore M) : ARMCore M → Nat → ARMCore M :=
  DEFINE_INSTRUCTION_THUMB env fun cpu opcode =>
    let immediate := IMMEDIATE
    let rd := opcode &&& 0x0007
    let rm := (opcode >>> 3) &&& 0x0007
    BODY immediate rd rm cpu

/-- The handlers `_ThumbInstructionLSL1_00` .. `_ThumbInstructionLSL1_1F`. -/
def _ThumbInstructionLSL1_ (env : Env M) (IMMEDIATE : Nat) : ARMCore M → Nat → ARMCore M :=
  DEFINE_IMMEDIATE_5_INSTRUCTION_EX_THUMB env IMMEDIATE fun immediate rd rm cpu =>
    let cpu :=
      if immediate = 0 then
        setReg cpu rd (cpu.gprs rm)
      else
        let cpu := setC cpu (cpu.gprs rm &&& (1 <<< (32 - immediate)))
        setReg cpu rd (u32 (cpu.gprs rm <<< immediate))
    THUMB_NEUTRAL_S cpu (cpu.gprs rd)

/-- The handlers `_ThumbInstructionLSR1_00` .. `_ThumbInstructionLSR1_1F`. -/
def _ThumbInstructionLSR1_ (env : Env M) (IMMEDIATE : Nat) : ARMCore M → Nat → ARMCore M :=
  DEFINE_IMMEDIATE_5_INSTRUCTION_EX_THUMB env IMMEDIATE fun immediate rd rm cpu =>
    let cpu :=
      if immediate = 0 then
        let cpu := setC cpu (ARM_SIGN (cpu.gprs rm))
        setReg cpu rd 0
      else
        let cpu := setC cpu (cpu.gprs rm &&& (1 <<< (immediate - 1)))
        setReg cpu rd (u32 (cpu.gprs rm) >>> immediate)
    THUMB_NEUTRAL_S cpu (cpu.gprs rd)

/-- The handlers `_ThumbInstructionASR1_00` .. `_ThumbInstructionASR1_1F`. -/
def _ThumbInstructionASR1_ (env : Env M) (IMMEDIATE : Nat) : ARMCore M → Nat → ARMCore M :=
  DEFINE_IMMEDIATE_5_INSTRUCTION_EX_THUMB env IMMEDIATE fun immediate rd rm cpu =>
    let cpu :=
      if immediate = 0 then
        let cpu := setC cpu (ARM_SIGN (cpu.gprs rm))
        if cpu.cpsr.c then setReg cpu rd 0xFFFFFFFF else setReg cpu rd 0
      else
        let cpu := setC cpu (cpu.gprs rm &&& (1 <<< (immediate - 1)))
        setReg cpu rd (asr32 (cpu.gprs rm) immediate)
    THUMB_NEUTRAL_S cpu (cpu.gprs rd)

/-- The handlers `_ThumbInstructionLDR1_00` .. `_ThumbInstructionLDR1_1F`. -/
def _ThumbInstructionLDR1_ (env : Env M) (IMMEDIATE : Nat) : ARMCore M → Nat → ARMCore M :=
  DEFINE_IMMEDIATE_5_INSTRUCTION_EX_THUMB env IMMEDIATE fun immediate rd rm cpu =>
    let r := env.memory.load32 cpu.memory (add32 (cpu.gprs rm) (immediate * 4))
    setReg { cpu with memory := r.2 } rd r.1

/-- The handlers `_ThumbInstructionLDRB1_00` .. `_ThumbInstructionLDRB1_1F`. -/
def _ThumbInstructionLDRB1_ (env : Env M) (IMMEDIATE : Nat) : ARMCore M → Nat → ARMCore M :=
  DEFINE_IMMEDIATE_5_INSTRUCTION_EX_THUMB env IMMEDIATE fun immediate rd rm cpu =>
    let r := env.memory.loadU8 cpu.memory (add32 (cpu.gprs rm) immediate)
    setReg { cpu with memory := r.2 } rd r.1

/-- The handlers `_ThumbInstructionLDRH1_00` .. `_ThumbInstructionLDRH1_1F`. -/
def _ThumbInstructionLDRH1_ (env : Env M) (IMMEDIATE : Nat) : ARMCore M → Nat → ARMCore M :=
  DEFINE_IMMEDIATE_5_INSTRUCTION_EX_THUMB env IMMEDIATE fun immediate rd rm cpu =>
    let r := env.memory.loadU16 cpu.memory (add32 (cpu.gprs rm) (immediate * 2))
    setReg { cpu with memory := r.2 } rd r.1

/-- The handlers `_ThumbInstructionSTR1_00` .. `_ThumbInstructionSTR1_1F`. -/
def _ThumbInstructionSTR1_ (env : Env M) (IMMEDIATE : Nat) : ARMCore M → Nat → ARMCore M :=
  DEFINE_IMMEDIATE_5_INSTRUCTION_EX_THUMB env IMMEDIATE fun immediate rd rm cpu =>
    { cpu with memory :=
        env.memory.store32 cpu.memory (add32 (cpu.gprs rm) (immediate * 4)) (cpu.gprs rd) }

/-- The handlers `_ThumbInstructionSTRB1_00` .. `_ThumbInstructionSTRB1_1F`. -/
def _ThumbInstructionSTRB1_ (env : Env M) (IMMEDIATE : Nat) : ARMCore M → Nat → ARMCore M :=
  DEFINE_IMMEDIATE_5_INSTRUCTION_EX_THUMB env IMMEDIATE fun immediate rd rm cpu =>
    { cpu with memory :=
        env.memory.store8 cpu.memory (add32 (cpu.gprs rm) immediate) (cpu.gprs rd) }

/-- The handlers `_ThumbInstructionSTRH1_00` .. `_ThumbInstructionSTRH1_1F`. -/
def _ThumbInstructionSTRH1_ (env : Env M) (IMMEDIATE : Nat) : ARMCore M → Nat → ARMCore M :=
  DEFINE_IMMEDIATE_5_INSTRUCTION_EX_THUMB env IMMEDIATE fun immediate rd rm cpu =>
    { cpu with memory :=
        env.memory.store16 cpu.memory (add32 (cpu.gprs rm) (immediate * 2)) (cpu.gprs rd) }

/-! ## Data-processing forms 1, 2 and 3 -/

/-- The macro `DEFINE_DATA_FORM_1_INSTRUCTION_EX_THUMB(NAME, RM, BODY)`. -/
def DEFINE_DATA_FORM_1_INSTRUCTION_EX_THUMB (env : Env M) (RM : Nat)
    (BODY : Nat → Nat → Nat → ARMCore M → ARMCore M) : ARMCore M → Nat → ARMCore M :=
  DEFINE_INSTRUCTION_THUMB env fun cpu opcode =>
    let rm := RM
    let rd := opcode &&& 0x0007
    let rn := (opcode >>> 3) &&& 0x0007
    BODY rm rd rn cpu

/-- The handlers `_ThumbInstructionADD3_R0` .. `_ThumbInstructionADD3_R7`. -/
def _ThumbInstructionADD3_R (env : Env M) (RM : Nat) : ARMCore M → Nat → ARMCore M :=
  DEFINE_DATA_FORM_1_INSTRUCTION_EX_THUMB env RM fun rm rd rn cpu =>
    THUMB_ADDITION cpu rd (cpu.gprs rn) (cpu.gprs rm)

/-- The handlers `_ThumbInstructionSUB3_R0` .. `_ThumbInstructionSUB3_R7`. -/
def _ThumbInstructionSUB3_R (env : Env M) (RM : Nat) : ARMCore M → Nat → ARMCore M :=
  DEFINE_DATA_FORM_1_INSTRUCTION_EX_THUMB env RM fun rm rd rn cpu =>
    THUMB_SUBTRACTION cpu rd (cpu.gprs rn) (cpu.gprs rm)

/-- The macro `DEFINE_DATA_FORM_2_INSTRUCTION_EX_THUMB(NAME, IMMEDIATE, BODY)`. -/
def DEFINE_DATA_FORM_2_INSTRUCTION_EX_THUMB (env : Env M) (IMMEDIATE : Nat)
    (BODY : Nat → Nat → Nat → ARMCore M → ARMCore M) : ARMCore M → Nat → ARMCore M :=
  DEFINE_INSTRUCTION_THUMB env fun cpu opcode =>
    let immediate := IMMEDIATE
    let rd := opcode &&& 0x0007
    let rn := (opcode >>> 3) &&& 0x0007
    BODY immediate rd rn cpu

/-- The handlers `_ThumbInstructionADD1_0` .. `_ThumbInstructionADD1_7`. -/
def _ThumbInstructionADD1_ (env : Env M) (IMMEDIATE : Nat) : ARMCore M → Nat → ARMCore M :=
  DEFINE_DATA_FORM_2_INSTRUCTION_EX_THUMB env IMMEDIATE fun immediate rd rn cpu =>
    THUMB_ADDITION cpu rd (cpu.gprs rn) immediate

/-- The handlers `_ThumbInstructionSUB1_0` .. `_ThumbInstructionSUB1_7`. -/
def _ThumbInstructionSUB1_ (env : Env M) (IMMEDIATE : Nat) : ARMCore M → Nat → ARMCore M :=
  DEFINE_DATA_FORM_2_INSTRUCTION_EX_THUMB env IMMEDIATE fun immediate rd rn cpu =>
    THUMB_SUBTRACTION cpu rd (cpu.gprs rn) immediate

/-- The macro `DEFINE_DATA_FORM_3_INSTRUCTION_EX_THUMB(NAME, RD, BODY)`. -/
def DEFINE_DATA_FORM_3_INSTRUCTION_EX_THUMB (env : Env M) (RD : Nat)
    (BODY : Nat → Nat → ARMCore M → ARMCore M) : ARMCore M → Nat → ARMCore M :=
  DEFINE_INSTRUCTION_THUMB env fun cpu opcode =>
    let rd := RD
    let immediate := opcode &&& 0x00FF
    BODY rd immediate cpu

/-- The handlers `_ThumbInstructionADD2_R0` .. `_ThumbInstructionADD2_R7`. -/
def _ThumbInstructionADD2_R (env : Env M) (RD : Nat) : ARMCore M → Nat → ARMCore M :=
  DEFINE_DATA_FORM_3_INSTRUCTION_EX_THUMB env RD fun rd immediate cpu =>
    THUMB_ADDITION cpu rd (cpu.gprs rd) immediate

/-- The handlers `_ThumbInstructionCMP1_R0` .. `_ThumbInstructionCMP1_R7`. -/
def _ThumbInstructionCMP1_R (env : Env M) (RD : Nat) : ARMCore M → Nat → ARMCore M :=
  DEFINE_DATA_FORM_3_INSTRUCTION_EX_THUMB env RD fun rd immediate cpu =>
    let aluOut := sub32 (cpu.gprs rd) immediate
    THUMB_SUBTRACTION_S cpu (cpu.gprs rd) immediate aluOut

/-- The handlers `_ThumbInstructionMOV1_R0` .. `_ThumbInstructionMOV1_R7`. -/
def _ThumbInstructionMOV1_R (env : Env M) (RD : Nat) : ARMCore M → Nat → ARMCore M :=
  DEFINE_DATA_FORM_3_INSTRUCTION_EX_THUMB env RD fun rd immediate cpu =>
    let cpu := setReg cpu rd immediate
    THUMB_NEUTRAL_S cpu (cpu.gprs rd)

/-- The handlers `_ThumbInstructionSUB2_R0` .. `_ThumbInstructionSUB2_R7`. -/
def _ThumbInstructionSUB2_R (env : Env M) (RD : Nat) : ARMCore M → Nat → ARMCore M :=
  DEFINE_DATA_FORM_3_INSTRUCTION_EX_THUMB env RD fun rd immediate cpu =>
    THUMB_SUBTRACTION cpu rd (cpu.gprs rd) immediate

/-! ## Register-register ALU (data form 5) -/

/-- The macro `DEFINE_DATA_FORM_5_INSTRUCTION_THUMB(NAME, BODY)`. -/
def DEFINE_DATA_FORM_5_INSTRUCTION_THUMB (env : Env M)
    (BODY : Nat → Nat → ARMCore M → Nat → ARMCore M) : ARMCore M → Nat → ARMCore M :=
  DEFINE_INSTRUCTION_THUMB env fun cpu opcode =>
    let rd := opcode &&& 0x0007
    let rn := (opcode >>> 3) &&& 0x0007
    BODY rd rn cpu opcode

/-- The handler `_ThumbInstructionAND`. -/
def _ThumbInstructionAND (env : Env M) : ARMCore M → Nat → ARMCore M :=
  DEFINE_DATA_FORM_5_INSTRUCTION_THUMB env fun rd rn cpu _ =>
    let cpu := setReg cpu rd (cpu.gprs rd &&& cpu.gprs rn)
    THUMB_NEUTRAL_S cpu (cpu.gprs rd)

/-- The handler `_ThumbInstructionEOR`. -/
def _ThumbInstructionEOR (env : Env M) : ARMCore M → Nat → ARMCore M :=
  DEFINE_DATA_FORM_5_INSTRUCTION_THUMB env fun rd rn cpu _ =>
    let cpu := setReg cpu rd (cpu.gprs rd ^^^ cpu.gprs rn)
    THUMB_NEUTRAL_S cpu (cpu.gprs rd)

/-- The handler `_ThumbInstructionLSL2`, a stub. -/
def _ThumbInstructionLSL2 (env : Env M) : ARMCore M → Nat → ARMCore M :=
  DEFINE_DATA_FORM_5_INSTRUCTION_THUMB env fun _ _ cpu opcode => env.ARM_STUB cpu opcode

/-- The handler `_ThumbInstructionLSR2`. -/
def _ThumbInstructionLSR2 (env : Env M) : ARMCore M → Nat → ARMCore M :=
  DEFINE_DATA_FORM_5_INSTRUCTION_THUMB env fun rd rn cpu _ =>
    let rs := cpu.gprs rn &&& 0xFF
    let cpu :=
      if rs ≠ 0 then
        if rs < 32 then
          let cpu := setC cpu (cpu.gprs rd &&& (1 <<< (rs - 1)))
          setReg cpu rd (u32 (cpu.gprs rd) >>> rs)
        else
          let cpu :=
            if rs > 32 then setC cpu 0
            else setC cpu (ARM_SIGN (cpu.gprs rd))
          setReg cpu rd 0
      else cpu
    THUMB_NEUTRAL_S cpu (cpu.gprs rd)

/-- The handler `_ThumbInstructionASR2`. -/
def _ThumbInstructionASR2 (env : Env M) : ARMCore M → Nat → ARMCore M :=
  DEFINE_DATA_FORM_5_INSTRUCTION_THUMB env fun rd rn cpu _ =>
    let rs := cpu.gprs rn &&& 0xFF
    let cpu :=
      if rs ≠ 0 then
        if rs < 32 then
          let cpu := setC cpu (cpu.gprs rd &&& (1 <<< (rs - 1)))
          setReg cpu rd (asr32 (cpu.gprs rd) rs)
        else
          let cpu := setC cpu (ARM_SIGN (cpu.gprs rd))
          if cpu.cpsr.c then setReg cpu rd 0xFFFFFFFF else setReg cpu rd 0
      else cpu
    THUMB_NEUTRAL_S cpu (cpu.gprs rd)

/-- The handler `_ThumbInstructionADC`, a stub. -/
def _ThumbInstructionADC (env : Env M) : ARMCore M → Nat → ARMCore M :=
  DEFINE_DATA_FORM_5_INSTRUCTION_THUMB env fun _ _ cpu opcode => env.ARM_STUB cpu opcode

/-- The handler `_ThumbInstructionSBC`, a stub. -/
def _ThumbInstructionSBC (env : Env M) : ARMCore M → Nat → ARMCore M :=
  DEFINE_DATA_FORM_5_INSTRUCTION_THUMB env fun _ _ cpu opcode => env.ARM_STUB cpu opcode

/-- The handler `_ThumbInstructionROR`, a stub. -/
def _ThumbInstructionROR (env : Env M) : ARMCore M → Nat → ARMCore M :=
  DEFINE_DATA_FORM_5_INSTRUCTION_THUMB env fun _ _ cpu opcode => env.ARM_STUB cpu opcode

/-- The handler `_ThumbInstructionTST`, a stub. -/
def _ThumbInstructionTST (env : Env M) : ARMCore M → Nat → ARMCore M :=
  DEFINE_DATA_FORM_5_INSTRUCTION_THUMB env fun _ _ cpu opcode => env.ARM_STUB cpu opcode

/-- The handler `_ThumbInstructionNEG`. -/
def _ThumbInstructionNEG (env : Env M) : ARMCore M → Nat → ARMCore M :=
  DEFINE_DATA_FORM_5_INSTRUCTION_THUMB env fun rd rn cpu _ =>
    THUMB_SUBTRACTION cpu rd 0 (cpu.gprs rn)

/-- The handler `_ThumbInstructionCMP2`. -/
def _ThumbInstructionCMP2 (env : Env M) : ARMCore M → Nat → ARMCore M :=
  DEFINE_DATA_FORM_5_INSTRUCTION_THUMB env fun rd rn cpu _ =>
    let aluOut := sub32 (cpu.gprs rd) (cpu.gprs rn)
    THUMB_SUBTRACTION_S cpu (cpu.gprs rd) (cpu.gprs rn) aluOut

/-- The handler `_ThumbInstructionCMN`, a stub. -/
def _ThumbInstructionCMN (env : Env M) : ARMCore M → Nat → ARMCore M :=
  DEFINE_DATA_FORM_5_INSTRUCTION_THUMB env fun _ _ cpu opcode => env.ARM_STUB cpu opcode

/-- The handler `_ThumbInstructionORR`. -/
def _ThumbInstructionORR (env : Env M) : ARMCore M → Nat → ARMCore M :=
  DEFINE_DATA_FORM_5_INSTRUCTION_THUMB env fun rd rn cpu _ =>
    let cpu := setReg cpu rd (cpu.gprs rd ||| cpu.gprs rn)
    THUMB_NEUTRAL_S cpu (cpu.gprs rd)

/-- The handler `_ThumbInstructionMUL`. -/
def _ThumbInstructionMUL (env : Env M) : ARMCore M → Nat → ARMCore M :=
  DEFINE_DATA_FORM_5_INSTRUCTION_THUMB env fun rd rn cpu _ =>
    let cpu := setReg cpu rd (u32 (cpu.gprs rd * cpu.gprs rn))
    THUMB_NEUTRAL_S cpu (cpu.gprs rd)

/-- The handler `_ThumbInstructionBIC`. -/
def _ThumbInstructionBIC (env : Env M) : ARMCore M → Nat → ARMCore M :=
  DEFINE_DATA_FORM_5_INSTRUCTION_THUMB env fun rd rn cpu _ =>
    let cpu := setReg cpu rd (cpu.gprs rd &&& not32 (cpu.gprs rn))
    THUMB_NEUTRAL_S cpu (cpu.gprs rd)

/-- The handler `_ThumbInstructionMVN`. -/
def _ThumbInstructionMVN (env : Env M) : ARMCore M → Nat → ARMCore M :=
  DEFINE_DATA_FORM_5_INSTRUCTION_THUMB env fun rd rn cpu _ =>
    let cpu := setReg cpu rd (not32 (cpu.gprs rn))
    THUMB_NEUTRAL_S cpu (cpu.gprs rd)

/-! ## High-register forms -/

/-- The macro `DEFINE_INSTRUCTION_WITH_HIGH_EX_THUMB(NAME, H1, H2, BODY)`, where
`H1` and `H2` are 0 or 8. -/
def DEFINE_INSTRUCTION_WITH_HIGH_EX_THUMB (env : Env M) (H1 H2 : Nat)
    (BODY : Nat → Nat → ARMCore M → ARMCore M) : ARMCore M → Nat → ARMCore M :=
  DEFINE_INSTRUCTION_THUMB env fun cpu opcode =>
    let rd := (opcode &&& 0x0007) ||| H1
    let rm := ((opcode >>> 3) &&& 0x0007) ||| H2
    BODY rd rm cpu

/-- The handlers `_ThumbInstructionADD400`, `01`, `10`, `11`. -/
def _ThumbInstructionADD4 (env : Env M) (H1 H2 : Nat) : ARMCore M → Nat → ARMCore M :=
  DEFINE_INSTRUCTION_WITH_HIGH_EX_THUMB env H1 H2 fun rd rm cpu =>
    setReg cpu rd (add32 (cpu.gprs rd) (cpu.gprs rm))

/-- The handlers `_ThumbInstructionCMP300`, `01`, `10`, `11`. -/
def _ThumbInstructionCMP3 (env : Env M) (H1 H2 : Nat) : ARMCore M → Nat → ARMCore M :=
  DEFINE_INSTRUCTION_WITH_HIGH_EX_THUMB env H1 H2 fun rd rm cpu =>
    let aluOut := sub32 (cpu.gprs rd) (cpu.gprs rm)
    THUMB_SUBTRACTION_S cpu (cpu.gprs rd) (cpu.gprs rm) aluOut

/-- The handlers `_ThumbInstructionMOV300`, `01`, `10`, `11`. -/
def _ThumbInstructionMOV3 (env : Env M) (H1 H2 : Nat) : ARMCore M → Nat → ARMCore M :=
  DEFINE_INSTRUCTION_WITH_HIGH_EX_THUMB env H1 H2 fun rd rm cpu =>
    setReg cpu rd (cpu.gprs rm)

/-! ## PC/SP-relative forms -/

/-- The macro `DEFINE_IMMEDIATE_WITH_REGISTER_EX_THUMB(NAME, RD, BODY)`. -/
def DEFINE_IMMEDIATE_WITH_REGISTER_EX_THUMB (env : Env M) (RD : Nat)
    (BODY : Nat → Nat → ARMCore M → Nat → ARMCore M) : ARMCore M → Nat → ARMCore M :=
  DEFINE_INSTRUCTION_THUMB env fun cpu opcode =>
    let rd := RD
    let immediate := (opcode &&& 0x00FF) <<< 2
    BODY rd immediate cpu opcode

/-- The handlers `_ThumbInstructionLDR3_R0` .. `_ThumbInstructionLDR3_R7`. -/
def _ThumbInstructionLDR3_R (env : Env M) (RD : Nat) : ARMCore M → Nat → ARMCore M :=
  DEFINE_IMMEDIATE_WITH_REGISTER_EX_THUMB env RD fun rd immediate cpu _ =>
    let r := env.memory.load32 cpu.memory (add32 (cpu.gprs ARM_PC) immediate)
    setReg { cpu with memory := r.2 } rd r.1

/-- The handlers `_ThumbInstructionLDR4_R0` .. `_ThumbInstructionLDR4_R7`. -/
def _ThumbInstructionLDR4_R (env : Env M) (RD : Nat) : ARMCore M → Nat → ARMCore M :=
  DEFINE_IMMEDIATE_WITH_REGISTER_EX_THUMB env RD fun rd immediate cpu _ =>
    let r := env.memory.load32 cpu.memory (add32 (cpu.gprs ARM_SP) immediate)
    setReg { cpu with memory := r.2 } rd r.1

/-- The handlers `_ThumbInstructionSTR3_R0` .. `_ThumbInstructionSTR3_R7`. -/
def _ThumbInstructionSTR3_R (env : Env M) (RD : Nat) : ARMCore M → Nat → ARMCore M :=
  DEFINE_IMMEDIATE_WITH_REGISTER_EX_THUMB env RD fun rd immediate cpu _ =>
    { cpu with memory :=
        env.memory.store32 cpu.memory (add32 (cpu.gprs ARM_SP) immediate) (cpu.gprs rd) }

/-- The handlers `_ThumbInstructionADD5_R0` .. `_ThumbInstructionADD5_R7`, stubs. -/
def _ThumbInstructionADD5_R (env : Env M) (RD : Nat) : ARMCore M → Nat → ARMCore M :=
  DEFINE_IMMEDIATE_WITH_REGISTER_EX_THUMB env RD fun _ _ cpu opcode => env.ARM_STUB cpu opcode

/-- The handlers `_ThumbInstructionADD6_R0` .. `_ThumbInstructionADD6_R7`. -/
def _ThumbInstructionADD6_R (env : Env M) (RD : Nat) : ARMCore M → Nat → ARMCore M :=
  DEFINE_IMMEDIATE_WITH_REGISTER_EX_THUMB env RD fun rd immediate cpu _ =>
    setReg cpu rd (add32 (cpu.gprs ARM_SP) immediate)

/-! ## Register-offset loads and stores -/

/-- The macro `DEFINE_LOAD_STORE_WITH_REGISTER_EX_THUMB(NAME, RM, BODY)`. -/
def DEFINE_LOAD_STORE_WITH_REGISTER_EX_THUMB (env : Env M) (RM : Nat)
    (BODY : Nat → Nat → Nat → ARMCore M → Nat → ARMCore M) : ARMCore M → Nat → ARMCore M :=
  DEFINE_INSTRUCTION_THUMB env fun cpu opcode =>
    let rm := RM
    let rd := opcode &&& 0x0007
    let rn := (opcode >>> 3) &&& 0x0007
    BODY rm rd rn cpu opcode

/-- The handlers `_ThumbInstructionLDR2_R0` .. `_ThumbInstructionLDR2_R7`, stubs. -/
def _ThumbInstructionLDR2_R (env : Env M) (RM : Nat) : ARMCore M → Nat → ARMCore M :=
  DEFINE_LOAD_STORE_WITH_REGISTER_EX_THUMB env RM fun _ _ _ cpu opcode => env.ARM_STUB cpu opcode

/-- The handlers `_ThumbInstructionLDRB2_R0` .. `_ThumbInstructionLDRB2_R7`. -/
def _ThumbInstructionLDRB2_R (env : Env M) (RM : Nat) : ARMCore M → Nat → ARMCore M :=
  DEFINE_LOAD_STORE_WITH_REGISTER_EX_THUMB env RM fun rm rd rn cpu _ =>
    let r := env.memory.loadU8 cpu.memory (add32 (cpu.gprs rn) (cpu.gprs rm))
    setReg { cpu with memory := r.2 } rd r.1

/-- The handlers `_ThumbInstructionLDRH2_R0` .. `_ThumbInstructionLDRH2_R7`. -/
def _ThumbInstructionLDRH2_R (env : Env M) (RM : Nat) : ARMCore M → Nat → ARMCore M :=
  DEFINE_LOAD_STORE_WITH_REGISTER_EX_THUMB env RM fun rm rd rn cpu _ =>
    let r := env.memory.loadU16 cpu.memory (add32 (cpu.gprs rn) (cpu.gprs rm))
    setReg { cpu with memory := r.2 } rd r.1

/-- The handlers `_ThumbInstructionLDRSB_R0` .. `_ThumbInstructionLDRSB_R7`. -/
def _ThumbInstructionLDRSB_R (env : Env M) (RM : Nat) : ARMCore M → Nat → ARMCore M :=
  DEFINE_LOAD_STORE_WITH_REGISTER_EX_THUMB env RM fun rm rd rn cpu _ =>
    let r := env.memory.load8 cpu.memory (add32 (cpu.gprs rn) (cpu.gprs rm))
    setReg { cpu with memory := r.2 } rd r.1

/-- The handlers `_ThumbInstructionLDRSH_R0` .. `_ThumbInstructionLDRSH_R7`. -/
def _ThumbInstructionLDRSH_R (env : Env M) (RM : Nat) : ARMCore M → Nat → ARMCore M :=
  DEFINE_LOAD_STORE_WITH_REGISTER_EX_THUMB env RM fun rm rd rn cpu _ =>
    let r := env.memory.load16 cpu.memory (add32 (cpu.gprs rn) (cpu.gprs rm))
    setReg { cpu with memory := r.2 } rd r.1

/-- The handlers `_ThumbInstructionSTR2_R0` .. `_ThumbInstructionSTR2_R7`, stubs. -/
def _ThumbInstructionSTR2_R (env : Env M) (RM : Nat) : ARMCore M → Nat → ARMCore M :=
  DEFINE_LOAD_STORE_WITH_REGISTER_EX_THUMB env RM fun _ _ _ cpu opcode => env.ARM_STUB cpu opcode

/-- The handlers `_ThumbInstructionSTRB2_R0` .. `_ThumbInstructionSTRB2_R7`, stubs. -/
def _ThumbInstructionSTRB2_R (env : Env M) (RM : Nat) : ARMCore M → Nat → ARMCore M :=
  DEFINE_LOAD_STORE_WITH_REGISTER_EX_THUMB env RM fun _ _ _ cpu opcode => env.ARM_STUB cpu opcode

/-- The handlers `_ThumbInstructionSTRH2_R0` .. `_ThumbInstructionSTRH2_R7`, stubs. -/
def _ThumbInstructionSTRH2_R (env : Env M) (RM : Nat) : ARMCore M → Nat → ARMCore M :=
  DEFINE_LOAD_STORE_WITH_REGISTER_EX_THUMB env RM fun _ _ _ cpu opcode => env.ARM_STUB cpu opcode

/-! ## Load/store multiple and stack -/

/-- The state threaded through the body of a block transfer: the CPU record
and the local `address`. -/
structure Transfer (M : Type) where
  cpu : ARMCore M
  address : Nat

/-- The loop header `(m = 0x01, i = 0; i < 8; m <<= 1, ++i)`, with the loop
body `step m i`. The first argument bounds the number of iterations; called
with 9, the loop leaves through its condition `i < 8`. -/
def loopUp {σ : Type} (step : Nat → Nat → σ → σ) : Nat → Nat → Nat → σ → σ
  | 0, _, _, s => s
  | fuel + 1, m, i, s =>
    if i < 8 then loopUp step fuel (m <<< 1) (i + 1) (step m i s) else s

/-- The loop header `(m = 0x80, i = 7; m; m >>= 1, --i)`, with the loop body
`step m i`. The first argument bounds the number of iterations; called with
9, the loop leaves through its condition `m`. The counter `i` is not read
after the iteration with `i = 0`, whose decrement is left at 0 here. -/
def loopDown {σ : Type} (step : Nat → Nat → σ → σ) : Nat → Nat → Nat → σ → σ
  | 0, _, _, s => s
  | fuel + 1, m, i, s =>
    if m ≠ 0 then loopDown step fuel (m >>> 1) (i - 1) (step m i s) else s

/-- The loop of an ascending block transfer. -/
def LOOP_UP {σ : Type} (step : Nat → Nat → σ → σ) (s : σ) : σ := loopUp step 9 0x01 0 s

/-- The loop of a descending block transfer. -/
def LOOP_DOWN {σ : Type} (step : Nat → Nat → σ → σ) (s : σ) : σ := loopDown step 9 0x80 7 s

/-- The macro `DEFINE_LOAD_STORE_MULTIPLE_EX_THUMB(NAME, RS, ADDRESS, LOOP,
BODY, OP, PRE_BODY, POST_BODY, WRITEBACK)`. `RS` may read `opcode`, `ADDRESS`
reads the CPU record and `rn`, `BODY` reads `i` and `address`, `WRITEBACK`
reads `rn`, `rs` and `address`. -/
def DEFINE_LOAD_STORE_MULTIPLE_EX_THUMB (env : Env M)
    (RS : Nat → Nat)
    (ADDRESS : ARMCore M → Nat → Nat)
    (LOOP : (Nat → Nat → Transfer M → Transfer M) → Transfer M → Transfer M)
    (BODY : Nat → Transfer M → ARMCore M)
    (OP : Nat → Nat → Nat)
    (PRE_BODY POST_BODY : Transfer M → Transfer M)
    (WRITEBACK : Nat → Nat → Transfer M → ARMCore M) : ARMCore M → Nat → ARMCore M :=
  DEFINE_INSTRUCTION_THUMB env fun cpu opcode =>
    let rn := (opcode >>> 8) &&& 0x000F
    let rs := RS opcode
    let address := u32 (ADDRESS cpu rn)
    let t := PRE_BODY { cpu := cpu, address := address }
    let t := LOOP (fun m i t =>
      if rs &&& m ≠ 0 then
        let cpu := BODY i t
        { cpu := cpu, address := OP t.address 4 }
      else t) t
    let t := POST_BODY t
    WRITEBACK rn rs t

/-- The loop body `cpu->gprs[i] = cpu->memory->load32(cpu->memory, address)`. -/
def loadBody (env : Env M) (i : Nat) (t : Transfer M) : ARMCore M :=
  let r := env.memory.load32 t.cpu.memory t.address
  setReg { t.cpu with memory := r.2 } i r.1

/-- The loop body `cpu->memory->store32(cpu->memory, address, cpu->gprs[i])`. -/
def storeBody (env : Env M) (i : Nat) (t : Transfer M) : ARMCore M :=
  { t.cpu with memory := env.memory.store32 t.cpu.memory t.address (t.cpu.gprs i) }

/-- The macro `DEFINE_LOAD_STORE_MULTIPLE_THUMB(NAME, BODY, WRITEBACK)` at one
count of `COUNT_3`: the second argument of the emitter, which the `_EX` macro
binds to `RS`, is the count, and the address starts at `cpu->gprs[rn]`. -/
def DEFINE_LOAD_STORE_MULTIPLE_THUMB (env : Env M) (COUNT : Nat)
    (BODY : Nat → Transfer M → ARMCore M)
    (WRITEBACK : Nat → Nat → Transfer M → ARMCore M) : ARMCore M → Nat → ARMCore M :=
  DEFINE_LOAD_STORE_MULTIPLE_EX_THUMB env (fun _ => COUNT) (fun cpu rn => cpu.gprs rn)
    LOOP_UP BODY add32 id id WRITEBACK

/-- The handlers `_ThumbInstructionLDMIA_R0` .. `_ThumbInstructionLDMIA_R7`. -/
def _ThumbInstructionLDMIA_R (env : Env M) (COUNT : Nat) : ARMCore M → Nat → ARMCore M :=
  DEFINE_LOAD_STORE_MULTIPLE_THUMB env COUNT (loadBody env) fun rn rs t =>
    if (1 <<< rn) &&& rs = 0 then setReg t.cpu rn t.address else t.cpu

/-- The handlers `_ThumbInstructionSTMIA_R0` .. `_ThumbInstructionSTMIA_R7`. -/
def _ThumbInstructionSTMIA_R (env : Env M) (COUNT : Nat) : ARMCore M → Nat → ARMCore M :=
  DEFINE_LOAD_STORE_MULTIPLE_THUMB env COUNT (storeBody env) fun rn _ t =>
    setReg t.cpu rn t.address

/-- The handler `_ThumbInstructionPOP`. -/
def _ThumbInstructionPOP (env : Env M) : ARMCore M → Nat → ARMCore M :=
  DEFINE_LOAD_STORE_MULTIPLE_EX_THUMB env (fun opcode => opcode &&& 0x00FF)
    (fun cpu _ => cpu.gprs ARM_SP) LOOP_UP (loadBody env) add32 id id
    fun _ _ t => setReg t.cpu ARM_SP t.address

/-- The handler `_ThumbInstructionPOPR`. -/
def _ThumbInstructionPOPR (env : Env M) : ARMCore M → Nat → ARMCore M :=
  DEFINE_LOAD_STORE_MULTIPLE_EX_THUMB env (fun opcode => opcode &&& 0x00FF)
    (fun cpu _ => cpu.gprs ARM_SP) LOOP_UP (loadBody env) add32 id
    (fun t =>
      let r := env.memory.load32 t.cpu.memory t.address
      { cpu := setReg { t.cpu with memory := r.2 } ARM_PC (r.1 &&& 0xFFFFFFFE)
        address := add32 t.address 4 })
    fun _ _ t => env.THUMB_WRITE_PC (setReg t.cpu ARM_SP t.address)

/-- The handler `_ThumbInstructionPUSH`. -/
def _ThumbInstructionPUSH (env : Env M) : ARMCore M → Nat → ARMCore M :=
  DEFINE_LOAD_STORE_MULTIPLE_EX_THUMB env (fun opcode => opcode &&& 0x00FF)
    (fun cpu _ => sub32 (cpu.gprs ARM_SP) 4) LOOP_DOWN (storeBody env) sub32 id id
    fun _ _ t => setReg t.cpu ARM_SP (add32 t.address 4)

/-- The handler `_ThumbInstructionPUSHR`. -/
def _ThumbInstructionPUSHR (env : Env M) : ARMCore M → Nat → ARMCore M :=
  DEFINE_LOAD_STORE_MULTIPLE_EX_THUMB env (fun opcode => opcode &&& 0x00FF)
    (fun cpu _ => sub32 (cpu.gprs ARM_SP) 4) LOOP_DOWN (storeBody env) sub32
    (fun t =>
      { cpu := { t.cpu with memory :=
                  env.memory.store32 t.cpu.memory t.address (t.cpu.gprs ARM_LR) }
        address := sub32 t.address 4 })
    id
    fun _ _ t => setReg t.cpu ARM_SP (add32 t.address 4)

/-! ## Branches -/

/-- Modelled from the spec: the predicate `ARM_COND_EQ` of `isa-inlines.h`, `EQ = Z`. -/
def ARM_COND_EQ (cpu : ARMCore M) : Bool := cpu.cpsr.z

/-- Modelled from the spec: the predicate `ARM_COND_NE` of `isa-inlines.h`, `NE = !Z`. -/
def ARM_COND_NE (cpu : ARMCore M) : Bool := !cpu.cpsr.z

/-- Modelled from the spec: the predicate `ARM_COND_CS` of `isa-inlines.h`, `CS = C`. -/
def ARM_COND_CS (cpu : ARMCore M) : Bool := cpu.cpsr.c

/-- Modelled from the spec: the predicate `ARM_COND_CC` of `isa-inlines.h`, `CC = !C`. -/
def ARM_COND_CC (cpu : ARMCore M) : Bool := !cpu.cpsr.c

/-- Modelled from the spec: the predicate `ARM_COND_MI` of `isa-inlines.h`, `MI = N`. -/
def ARM_COND_MI (cpu : ARMCore M) : Bool := cpu.cpsr.n

/-- Modelled from the spec: the predicate `ARM_COND_PL` of `isa-inlines.h`, `PL = !N`. -/
def ARM_COND_PL (cpu : ARMCore M) : Bool := !cpu.cpsr.n

/-- Modelled from the spec: the predicate `ARM_COND_VS` of `isa-inlines.h`, `VS = V`. -/
def ARM_COND_VS (cpu : ARMCore M) : Bool := cpu.cpsr.v

/-- Modelled from the spec: the predicate `ARM_COND_VC` of `isa-inlines.h`, `VC = !V`. -/
def ARM_COND_VC (cpu : ARMCore M) : Bool := !cpu.cpsr.v

/-- Modelled from the spec: the predicate `ARM_COND_HI` of `isa-inlines.h`, `HI = C ∧ !Z`. -/
def ARM_COND_HI (cpu : ARMCore M) : Bool := cpu.cpsr.c && !cpu.cpsr.z

/-- Modelled from the spec: the predicate `ARM_COND_LS` of `isa-inlines.h`, `LS = !C ∨ Z`. -/
def ARM_COND_LS (cpu : ARMCore M) : Bool := !cpu.cpsr.c || cpu.cpsr.z

/-- Modelled from the spec: the predicate `ARM_COND_GE` of `isa-inlines.h`, `GE = N == V`. -/
def ARM_COND_GE (cpu : ARMCore M) : Bool := cpu.cpsr.n == cpu.cpsr.v

/-- Modelled from the spec: the predicate `ARM_COND_LT` of `isa-inlines.h`, `LT = N ≠ V`. -/
def ARM_COND_LT (cpu : ARMCore M) : Bool := cpu.cpsr.n != cpu.cpsr.v

/-- Modelled from the spec: the predicate `ARM_COND_GT` of `isa-inlines.h`, `GT = !Z ∧ (N == V)`. -/
def ARM_COND_GT (cpu : ARMCore M) : Bool := !cpu.cpsr.z && (cpu.cpsr.n == cpu.cpsr.v)

/-- Modelled from the spec: the predicate `ARM_COND_LE` of `isa-inlines.h`, `LE = Z ∨ (N ≠ V)`. -/
def ARM_COND_LE (cpu : ARMCore M) : Bool := cpu.cpsr.z || (cpu.cpsr.n != cpu.cpsr.v)

/-- The macro `DEFINE_CONDITIONAL_BRANCH_THUMB(COND)`. -/
def DEFINE_CONDITIONAL_BRANCH_THUMB (env : Env M) (COND : ARMCore M → Bool) :
    ARMCore M → Nat → ARMCore M :=
  DEFINE_INSTRUCTION_THUMB env fun cpu opcode =>
    if COND cpu then
      let immediate := int8 opcode
      let cpu := setReg cpu ARM_PC (wrap32 ((cpu.gprs ARM_PC : Int) + immediate * 2))
      env.THUMB_WRITE_PC cpu
    else cpu

/-- The handler `_ThumbInstructionBEQ`. -/
def _ThumbInstructionBEQ (env : Env M) : ARMCore M → Nat → ARMCore M :=
  DEFINE_CONDITIONAL_BRANCH_THUMB env ARM_COND_EQ

/-- The handler `_ThumbInstructionBNE`. -/
def _ThumbInstructionBNE (env : Env M) : ARMCore M → Nat → ARMCore M :=
  DEFINE_CONDITIONAL_BRANCH_THUMB env ARM_COND_NE

/-- The handler `_ThumbInstructionBCS`. -/
def _ThumbInstructionBCS (env : Env M) : ARMCore M → Nat → ARMCore M :=
  DEFINE_CONDITIONAL_BRANCH_THUMB env ARM_COND_CS

/-- The handler `_ThumbInstructionBCC`. -/
def _ThumbInstructionBCC (env : Env M) : ARMCore M → Nat → ARMCore M :=
  DEFINE_CONDITIONAL_BRANCH_THUMB env ARM_COND_CC

/-- The handler `_ThumbInstructionBMI`. -/
def _ThumbInstructionBMI (env : Env M) : ARMCore M → Nat → ARMCore M :=
  DEFINE_CONDITIONAL_BRANCH_THUMB env ARM_COND_MI

/-- The handler `_ThumbInstructionBPL`. -/
def _ThumbInstructionBPL (env : Env M) : ARMCore M → Nat → ARMCore M :=
  DEFINE_CONDITIONAL_BRANCH_THUMB env ARM_COND_PL

/-- The handler `_ThumbInstructionBVS`. -/
def _ThumbInstructionBVS (env : Env M) : ARMCore M → Nat → ARMCore M :=
  DEFINE_CONDITIONAL_BRANCH_THUMB env ARM_COND_VS

/-- The handler `_ThumbInstructionBVC`. -/
def _ThumbInstructionBVC (env : Env M) : ARMCore M → Nat → ARMCore M :=
  DEFINE_CONDITIONAL_BRANCH_THUMB env ARM_COND_VC

/-- The handler `_ThumbInstructionBLS`. -/
def _ThumbInstructionBLS (env : Env M) : ARMCore M → Nat → ARMCore M :=
  DEFINE_CONDITIONAL_BRANCH_THUMB env ARM_COND_LS

/-- The handler `_ThumbInstructionBHI`. -/
def _ThumbInstructionBHI (env : Env M) : ARMCore M → Nat → ARMCore M :=
  DEFINE_CONDITIONAL_BRANCH_THUMB env ARM_COND_HI

/-- The handler `_ThumbInstructionBGE`. -/
def _ThumbInstructionBGE (env : Env M) : ARMCore M → Nat → ARMCore M :=
  DEFINE_CONDITIONAL_BRANCH_THUMB env ARM_COND_GE

/-- The handler `_ThumbInstructionBLT`. -/
def _ThumbInstructionBLT (env : Env M) : ARMCore M → Nat → ARMCore M :=
  DEFINE_CONDITIONAL_BRANCH_THUMB env ARM_COND_LT

/-- The handler `_ThumbInstructionBGT`. -/
def _ThumbInstructionBGT (env : Env M) : ARMCore M → Nat → ARMCore M :=
  DEFINE_CONDITIONAL_BRANCH_THUMB env ARM_COND_GT

/-- The handler `_ThumbInstructionBLE`. -/
def _ThumbInstructionBLE (env : Env M) : ARMCore M → Nat → ARMCore M :=
  DEFINE_CONDITIONAL_BRANCH_THUMB env ARM_COND_LE

/-- The handler `_ThumbInstructionADD7`. -/
def _ThumbInstructionADD7 (env : Env M) : ARMCore M → Nat → ARMCore M :=
  DEFINE_INSTRUCTION_THUMB env fun cpu opcode =>
    setReg cpu ARM_SP (add32 (cpu.gprs ARM_SP) ((opcode &&& 0x7F) <<< 2))

/-- The handler `_ThumbInstructionSUB4`. -/
def _ThumbInstructionSUB4 (env : Env M) : ARMCore M → Nat → ARMCore M :=
  DEFINE_INSTRUCTION_THUMB env fun cpu opcode =>
    setReg cpu ARM_SP (sub32 (cpu.gprs ARM_SP) ((opcode &&& 0x7F) <<< 2))

/-- The handler `_ThumbInstructionILL`, a stub. -/
def _ThumbInstructionILL (env : Env M) : ARMCore M → Nat → ARMCore M :=
  DEFINE_INSTRUCTION_THUMB env fun cpu opcode => env.ARM_STUB cpu opcode

/-- The handler `_ThumbInstructionBKPT`, a stub. -/
def _ThumbInstructionBKPT (env : Env M) : ARMCore M → Nat → ARMCore M :=
  DEFINE_INSTRUCTION_THUMB env fun cpu opcode => env.ARM_STUB cpu opcode

/-- The handler `_ThumbInstructionB`. -/
def _ThumbInstructionB (env : Env M) : ARMCore M → Nat → ARMCore M :=
  DEFINE_INSTRUCTION_THUMB env fun cpu opcode =>
    let immediate := int16 ((opcode &&& 0x07FF) <<< 5)
    let cpu := setReg cpu ARM_PC (wrap32 ((cpu.gprs ARM_PC : Int) + (immediate >>> 4)))
    env.THUMB_WRITE_PC cpu

/-- The handler `_ThumbInstructionBL1`. -/
def _ThumbInstructionBL1 (env : Env M) : ARMCore M → Nat → ARMCore M :=
  DEFINE_INSTRUCTION_THUMB env fun cpu opcode =>
    let immediate := int16 ((opcode &&& 0x07FF) <<< 5)
    setReg cpu ARM_LR (wrap32 ((cpu.gprs ARM_PC : Int) + immediate * 128))

/-- The handler `_ThumbInstructionBL2`. -/
def _ThumbInstructionBL2 (env : Env M) : ARMCore M → Nat → ARMCore M :=
  DEFINE_INSTRUCTION_THUMB env fun cpu opcode =>
    let immediate := ((opcode &&& 0x07FF) <<< 1) % 65536
    let pc := u32 (cpu.gprs ARM_PC)
    let cpu := setReg cpu ARM_PC (add32 (cpu.gprs ARM_LR) immediate)
    let cpu := setReg cpu ARM_LR (sub32 pc 1)
    env.THUMB_WRITE_PC cpu

/-- The handler `_ThumbInstructionBX`. In the assignment to the PC the
subtraction binds tighter than `&`: the mask is `0xFFFFFFFE - misalign`. -/
def _ThumbInstructionBX (env : Env M) : ARMCore M → Nat → ARMCore M :=
  DEFINE_INSTRUCTION_THUMB env fun cpu opcode =>
    let rm := (opcode >>> 3) &&& 0xF
    let cpu := env._ARMSetMode cpu (cpu.gprs rm &&& 0x00000001)
    let misalign := if rm = ARM_PC then cpu.gprs rm &&& 0x00000002 else 0
    let cpu := setReg cpu ARM_PC (cpu.gprs rm &&& sub32 0xFFFFFFFE misalign)
    if cpu.executionMode = ExecutionMode.MODE_THUMB then env.THUMB_WRITE_PC cpu
    else env.ARM_WRITE_PC cpu

/-- The handler `_ThumbInstructionSWI`. -/
def _ThumbInstructionSWI (env : Env M) : ARMCore M → Nat → ARMCore M :=
  DEFINE_INSTRUCTION_THUMB env fun cpu opcode => env.swi16 cpu (opcode &&& 0xFF)

/-! ## The dispatch table -/

/-- The names of the handlers, one constructor per family of
`_ThumbInstruction...` functions; the argument of a constructor is the
number that the `COUNT_n` macros pair with the pasted suffix of the name
(`PREFIX ## 1F` with 31), for the high-register forms the pair `H1`, `H2`. -/
inductive ThumbInstruction where
  | LSL1_ (immediate : Nat) | LSR1_ (immediate : Nat) | ASR1_ (immediate : Nat)
  | LDR1_ (immediate : Nat) | LDRB1_ (immediate : Nat) | LDRH1_ (immediate : Nat)
  | STR1_ (immediate : Nat) | STRB1_ (immediate : Nat) | STRH1_ (immediate : Nat)
  | ADD3_R (rm : Nat) | SUB3_R (rm : Nat)
  | ADD1_ (immediate : Nat) | SUB1_ (immediate : Nat)
  | ADD2_R (rd : Nat) | CMP1_R (rd : Nat) | MOV1_R (rd : Nat) | SUB2_R (rd : Nat)
  | AND | EOR | LSL2 | LSR2 | ASR2 | ADC | SBC | ROR | TST | NEG | CMP2 | CMN
  | ORR | MUL | BIC | MVN
  | ADD4 (H1 H2 : Nat) | CMP3 (H1 H2 : Nat) | MOV3 (H1 H2 : Nat)
  | LDR3_R (rd : Nat) | LDR4_R (rd : Nat) | STR3_R (rd : Nat)
  | ADD5_R (rd : Nat) | ADD6_R (rd : Nat)
  | LDR2_R (rm : Nat) | LDRB2_R (rm : Nat) | LDRH2_R (rm : Nat) | LDRSB_R (rm : Nat)
  | LDRSH_R (rm : Nat) | STR2_R (rm : Nat) | STRB2_R (rm : Nat) | STRH2_R (rm : Nat)
  | LDMIA_R (count : Nat) | STMIA_R (count : Nat)
  | BEQ | BNE | BCS | BCC | BMI | BPL | BVS | BVC | BLS | BHI | BGE | BLT | BGT | BLE
  | ADD7 | SUB4 | POP | POPR | PUSH | PUSHR | ILL | BKPT | B | BL1 | BL2 | BX | SWI

/-- A numbering of the handler names: a tag and the arguments of the constructor. -/
def ThumbInstruction.toCode : ThumbInstruction → Nat × Nat × Nat
  | .LSL1_ k => (0, k, 0)
  | .LSR1_ k => (1, k, 0)
  | .ASR1_ k => (2, k, 0)
  | .LDR1_ k => (3, k, 0)
  | .LDRB1_ k => (4, k, 0)
  | .LDRH1_ k => (5, k, 0)
  | .STR1_ k => (6, k, 0)
  | .STRB1_ k => (7, k, 0)
  | .STRH1_ k => (8, k, 0)
  | .ADD3_R k => (9, k, 0)
  | .SUB3_R k => (10, k, 0)
  | .ADD1_ k => (11, k, 0)
  | .SUB1_ k => (12, k, 0)
  | .ADD2_R k => (13, k, 0)
  | .CMP1_R k => (14, k, 0)
  | .MOV1_R k => (15, k, 0)
  | .SUB2_R k => (16, k, 0)
  | .LDR3_R k => (17, k, 0)
  | .LDR4_R k => (18, k, 0)
  | .STR3_R k => (19, k, 0)
  | .ADD5_R k => (20, k, 0)
  | .ADD6_R k => (21, k, 0)
  | .LDR2_R k => (22, k, 0)
  | .LDRB2_R k => (23, k, 0)
  | .LDRH2_R k => (24, k, 0)
  | .LDRSB_R k => (25, k, 0)
  | .LDRSH_R k => (26, k, 0)
  | .STR2_R k => (27, k, 0)
  | .STRB2_R k => (28, k, 0)
  | .STRH2_R k => (29, k, 0)
  | .LDMIA_R k => (30, k, 0)
  | .STMIA_R k => (31, k, 0)
  | .ADD4 h1 h2 => (32, h1, h2)
  | .CMP3 h1 h2 => (33, h1, h2)
  | .MOV3 h1 h2 => (34, h1, h2)
  | .AND => (35, 0, 0)
  | .EOR => (36, 0, 0)
  | .LSL2 => (37, 0, 0)
  | .LSR2 => (38, 0, 0)
  | .ASR2 => (39, 0, 0)
  | .ADC => (40, 0, 0)
  | .SBC => (41, 0, 0)
  | .ROR => (42, 0, 0)
  | .TST => (43, 0, 0)
  | .NEG => (44, 0, 0)
  | .CMP2 => (45, 0, 0)
  | .CMN => (46, 0, 0)
  | .ORR => (47, 0, 0)
  | .MUL => (48, 0, 0)
  | .BIC => (49, 0, 0)
  | .MVN => (50, 0, 0)
  | .BEQ => (51, 0, 0)
  | .BNE => (52, 0, 0)
  | .BCS => (53, 0, 0)
  | .BCC => (54, 0, 0)
  | .BMI => (55, 0, 0)
  | .BPL => (56, 0, 0)
  | .BVS => (57, 0, 0)
  | .BVC => (58, 0, 0)
  | .BLS => (59, 0, 0)
  | .BHI => (60, 0, 0)
  | .BGE => (61, 0, 0)
  | .BLT => (62, 0, 0)
  | .BGT => (63, 0, 0)
  | .BLE => (64, 0, 0)
  | .ADD7 => (65, 0, 0)
  | .SUB4 => (66, 0, 0)
  | .POP => (67, 0, 0)
  | .POPR => (68, 0, 0)
  | .PUSH => (69, 0, 0)
  | .PUSHR => (70, 0, 0)
  | .ILL => (71, 0, 0)
  | .BKPT => (72, 0, 0)
  | .B => (73, 0, 0)
  | .BL1 => (74, 0, 0)
  | .BL2 => (75, 0, 0)
  | .BX => (76, 0, 0)
  | .SWI => (77, 0, 0)

/-- The handler name with a given number. -/
def ThumbInstruction.ofCode : Nat × Nat × Nat → ThumbInstruction
  | (0, k, _) => .LSL1_ k
  | (1, k, _) => .LSR1_ k
  | (2, k, _) => .ASR1_ k
  | (3, k, _) => .LDR1_ k
  | (4, k, _) => .LDRB1_ k
  | (5, k, _) => .LDRH1_ k
  | (6, k, _) => .STR1_ k
  | (7, k, _) => .STRB1_ k
  | (8, k, _) => .STRH1_ k
  | (9, k, _) => .ADD3_R k
  | (10, k, _) => .SUB3_R k
  | (11, k, _) => .ADD1_ k
  | (12, k, _) => .SUB1_ k
  | (13, k, _) => .ADD2_R k
  | (14, k, _) => .CMP1_R k
  | (15, k, _) => .MOV1_R k
  | (16, k, _) => .SUB2_R k
  | (17, k, _) => .LDR3_R k
  | (18, k, _) => .LDR4_R k
  | (19, k, _) => .STR3_R k
  | (20, k, _) => .ADD5_R k
  | (21, k, _) => .ADD6_R k
  | (22, k, _) => .LDR2_R k
  | (23, k, _) => .LDRB2_R k
  | (24, k, _) => .LDRH2_R k
  | (25, k, _) => .LDRSB_R k
  | (26, k, _) => .LDRSH_R k
  | (27, k, _) => .STR2_R k
  | (28, k, _) => .STRB2_R k
  | (29, k, _) => .STRH2_R k
  | (30, k, _) => .LDMIA_R k
  | (31, k, _) => .STMIA_R k
  | (32, h1, h2) => .ADD4 h1 h2
  | (33, h1, h2) => .CMP3 h1 h2
  | (34, h1, h2) => .MOV3 h1 h2
  | (35, _, _) => .AND
  | (36, _, _) => .EOR
  | (37, _, _) => .LSL2
  | (38, _, _) => .LSR2
  | (39, _, _) => .ASR2
  | (40, _, _) => .ADC
  | (41, _, _) => .SBC
  | (42, _, _) => .ROR
  | (43, _, _) => .TST
  | (44, _, _) => .NEG
  | (45, _, _) => .CMP2
  | (46, _, _) => .CMN
  | (47, _, _) => .ORR
  | (48, _, _) => .MUL
  | (49, _, _) => .BIC
  | (50, _, _) => .MVN
  | (51, _, _) => .BEQ
  | (52, _, _) => .BNE
  | (53, _, _) => .BCS
  | (54, _, _) => .BCC
  | (55, _, _) => .BMI
  | (56, _, _) => .BPL
  | (57, _, _) => .BVS
  | (58, _, _) => .BVC
  | (59, _, _) => .BLS
  | (60, _, _) => .BHI
  | (61, _, _) => .BGE
  | (62, _, _) => .BLT
  | (63, _, _) => .BGT
  | (64, _, _) => .BLE
  | (65, _, _) => .ADD7
  | (66, _, _) => .SUB4
  | (67, _, _) => .POP
  | (68, _, _) => .POPR
  | (69, _, _) => .PUSH
  | (70, _, _) => .PUSHR
  | (71, _, _) => .ILL
  | (72, _, _) => .BKPT
  | (73, _, _) => .B
  | (74, _, _) => .BL1
  | (75, _, _) => .BL2
  | (76, _, _) => .BX
  | (77, _, _) => .SWI
  | _ => .ILL

instance : DecidableEq ThumbInstruction := fun a b =>
  have inv : ∀ x : ThumbInstruction, ThumbInstruction.ofCode x.toCode = x := by
    intro x
    cases x <;> rfl
  decidable_of_iff (a.toCode = b.toCode)
    ⟨fun h => by
      have h2 := congrArg ThumbInstruction.ofCode h
      rwa [inv, inv] at h2,
     fun h => congrArg _ h⟩

/-- The function behind a handler name. -/
def ThumbInstruction.run (env : Env M) : ThumbInstruction → ARMCore M → Nat → ARMCore M
  | .LSL1_ k => _ThumbInstructionLSL1_ env k
  | .LSR1_ k => _ThumbInstructionLSR1_ env k
  | .ASR1_ k => _ThumbInstructionASR1_ env k
  | .LDR1_ k => _ThumbInstructionLDR1_ env k
  | .LDRB1_ k => _ThumbInstructionLDRB1_ env k
  | .LDRH1_ k => _ThumbInstructionLDRH1_ env k
  | .STR1_ k => _ThumbInstructionSTR1_ env k
  | .STRB1_ k => _ThumbInstructionSTRB1_ env k
  | .STRH1_ k => _ThumbInstructionSTRH1_ env k
  | .ADD3_R k => _ThumbInstructionADD3_R env k
  | .SUB3_R k => _ThumbInstructionSUB3_R env k
  | .ADD1_ k => _ThumbInstructionADD1_ env k
  | .SUB1_ k => _ThumbInstructionSUB1_ env k
  | .ADD2_R k => _ThumbInstructionADD2_R env k
  | .CMP1_R k => _ThumbInstructionCMP1_R env k
  | .MOV1_R k => _ThumbInstructionMOV1_R env k
  | .SUB2_R k => _ThumbInstructionSUB2_R env k
  | .AND => _ThumbInstructionAND env
  | .EOR => _ThumbInstructionEOR env
  | .LSL2 => _ThumbInstructionLSL2 env
  | .LSR2 => _ThumbInstructionLSR2 env
  | .ASR2 => _ThumbInstructionASR2 env
  | .ADC => _ThumbInstructionADC env
  | .SBC => _ThumbInstructionSBC env
  | .ROR => _ThumbInstructionROR env
  | .TST => _ThumbInstructionTST env
  | .NEG => _ThumbInstructionNEG env
  | .CMP2 => _ThumbInstructionCMP2 env
  | .CMN => _ThumbInstructionCMN env
  | .ORR => _ThumbInstructionORR env
  | .MUL => _ThumbInstructionMUL env
  | .BIC => _ThumbInstructionBIC env
  | .MVN => _ThumbInstructionMVN env
  | .ADD4 h1 h2 => _ThumbInstructionADD4 env h1 h2
  | .CMP3 h1 h2 => _ThumbInstructionCMP3 env h1 h2
  | .MOV3 h1 h2 => _ThumbInstructionMOV3 env h1 h2
  | .LDR3_R k => _ThumbInstructionLDR3_R env k
  | .LDR4_R k => _ThumbInstructionLDR4_R env k
  | .STR3_R k => _ThumbInstructionSTR3_R env k
  | .ADD5_R k => _ThumbInstructionADD5_R env k
  | .ADD6_R k => _ThumbInstructionADD6_R env k
  | .LDR2_R k => _ThumbInstructionLDR2_R env k
  | .LDRB2_R k => _ThumbInstructionLDRB2_R env k
  | .LDRH2_R k => _ThumbInstructionLDRH2_R env k
  | .LDRSB_R k => _ThumbInstructionLDRSB_R env k
  | .LDRSH_R k => _ThumbInstructionLDRSH_R env k
  | .STR2_R k => _ThumbInstructionSTR2_R env k
  | .STRB2_R k => _ThumbInstructionSTRB2_R env k
  | .STRH2_R k => _ThumbInstructionSTRH2_R env k
  | .LDMIA_R k => _ThumbInstructionLDMIA_R env k
  | .STMIA_R k => _ThumbInstructionSTMIA_R env k
  | .BEQ => _ThumbInstructionBEQ env
  | .BNE => _ThumbInstructionBNE env
  | .BCS => _ThumbInstructionBCS env
  | .BCC => _ThumbInstructionBCC env
  | .BMI => _ThumbInstructionBMI env
  | .BPL => _ThumbInstructionBPL env
  | .BVS => _ThumbInstructionBVS env
  | .BVC => _ThumbInstructionBVC env
  | .BLS => _ThumbInstructionBLS env
  | .BHI => _ThumbInstructionBHI env
  | .BGE => _ThumbInstructionBGE env
  | .BLT => _ThumbInstructionBLT env
  | .BGT => _ThumbInstructionBGT env
  | .BLE => _ThumbInstructionBLE env
  | .ADD7 => _ThumbInstructionADD7 env
  | .SUB4 => _ThumbInstructionSUB4 env
  | .POP => _ThumbInstructionPOP env
  | .POPR => _ThumbInstructionPOPR env
  | .PUSH => _ThumbInstructionPUSH env
  | .PUSHR => _ThumbInstructionPUSHR env
  | .ILL => _ThumbInstructionILL env
  | .BKPT => _ThumbInstructionBKPT env
  | .B => _ThumbInstructionB env
  | .BL1 => _ThumbInstructionBL1 env
  | .BL2 => _ThumbInstructionBL2 env
  | .BX => _ThumbInstructionBX env
  | .SWI => _ThumbInstructionSWI env

section Table

variable {α : Type}

/-- The macro `COUNT_1(EMITTER, PREFIX, ...)`; the emitter receives the number
paired with the pasted name. -/
def COUNT_1 (EMITTER : Nat → List α) : List α := EMITTER 0 ++ EMITTER 1

/-- The macro `COUNT_2`. -/
def COUNT_2 (EMITTER : Nat → List α) : List α := COUNT_1 EMITTER ++ EMITTER 2 ++ EMITTER 3

/-- The macro `COUNT_3`. -/
def COUNT_3 (EMITTER : Nat → List α) : List α :=
  COUNT_2 EMITTER ++ EMITTER 4 ++ EMITTER 5 ++ EMITTER 6 ++ EMITTER 7

/-- The macro `COUNT_4`. -/
def COUNT_4 (EMITTER : Nat → List α) : List α :=
  COUNT_3 EMITTER ++ EMITTER 8 ++ EMITTER 9 ++ EMITTER 10 ++ EMITTER 11 ++ EMITTER 12
    ++ EMITTER 13 ++ EMITTER 14 ++ EMITTER 15

/-- The macro `COUNT_5`. -/
def COUNT_5 (EMITTER : Nat → List α) : List α :=
  COUNT_4 EMITTER ++ EMITTER 16 ++ EMITTER 17 ++ EMITTER 18 ++ EMITTER 19 ++ EMITTER 20
    ++ EMITTER 21 ++ EMITTER 22 ++ EMITTER 23 ++ EMITTER 24 ++ EMITTER 25 ++ EMITTER 26
    ++ EMITTER 27 ++ EMITTER 28 ++ EMITTER 29 ++ EMITTER 30 ++ EMITTER 31

/-- The macro `DUMMY(X, ...)`, one table entry `X,`. -/
def DUMMY (X : α) : List α := [X]

/-- The macro `DUMMY_4(...)`, four times `DUMMY`. -/
def DUMMY_4 (X : α) : List α := DUMMY X ++ DUMMY X ++ DUMMY X ++ DUMMY X

/-- Modelled from the spec: the macro `DO_4` of a header outside the sources,
its argument four times (a handler pointer repeated over 4 consecutive slots). -/
def DO_4 (X : List α) : List α := X ++ X ++ X ++ X

/-- Modelled from the spec: the macro `DO_8`, its argument eight times. -/
def DO_8 (X : List α) : List α := X ++ X ++ X ++ X ++ X ++ X ++ X ++ X

end Table

open ThumbInstruction in
/-- The macro `DECLARE_THUMB_EMITTER_BLOCK(EMITTER)`, line by line. -/
def DECLARE_THUMB_EMITTER_BLOCK : List ThumbInstruction :=
  COUNT_5 (fun k => DUMMY (LSL1_ k))
  ++ COUNT_5 (fun k => DUMMY (LSR1_ k))
  ++ COUNT_5 (fun k => DUMMY (ASR1_ k))
  ++ COUNT_3 (fun k => DUMMY (ADD3_R k))
  ++ COUNT_3 (fun k => DUMMY (SUB3_R k))
  ++ COUNT_3 (fun k => DUMMY (ADD1_ k))
  ++ COUNT_3 (fun k => DUMMY (SUB1_ k))
  ++ COUNT_3 (fun k => DUMMY_4 (MOV1_R k))
  ++ COUNT_3 (fun k => DUMMY_4 (CMP1_R k))
  ++ COUNT_3 (fun k => DUMMY_4 (ADD2_R k))
  ++ COUNT_3 (fun k => DUMMY_4 (SUB2_R k))
  ++ [AND] ++ [EOR] ++ [LSL2] ++ [LSR2] ++ [ASR2] ++ [ADC] ++ [SBC] ++ [ROR]
  ++ [TST] ++ [NEG] ++ [CMP2] ++ [CMN] ++ [ORR] ++ [MUL] ++ [BIC] ++ [MVN]
  ++ [ADD4 0 0, ADD4 0 8, ADD4 8 0, ADD4 8 8]
  ++ [CMP3 0 0, CMP3 0 8, CMP3 8 0, CMP3 8 8]
  ++ [MOV3 0 0, MOV3 0 8, MOV3 8 0, MOV3 8 8]
  ++ [BX] ++ [BX] ++ [ILL] ++ [ILL]
  ++ COUNT_3 (fun k => DUMMY_4 (LDR3_R k))
  ++ COUNT_3 (fun k => DUMMY (STR2_R k))
  ++ COUNT_3 (fun k => DUMMY (STRH2_R k))
  ++ COUNT_3 (fun k => DUMMY (STRB2_R k))
  ++ COUNT_3 (fun k => DUMMY (LDRSB_R k))
  ++ COUNT_3 (fun k => DUMMY (LDR2_R k))
  ++ COUNT_3 (fun k => DUMMY (LDRH2_R k))
  ++ COUNT_3 (fun k => DUMMY (LDRB2_R k))
  ++ COUNT_3 (fun k => DUMMY (LDRSH_R k))
  ++ COUNT_5 (fun k => DUMMY (STR1_ k))
  ++ COUNT_5 (fun k => DUMMY (LDR1_ k))
  ++ COUNT_5 (fun k => DUMMY (STRB1_ k))
  ++ COUNT_5 (fun k => DUMMY (LDRB1_ k))
  ++ COUNT_5 (fun k => DUMMY (STRH1_ k))
  ++ COUNT_5 (fun k => DUMMY (LDRH1_ k))
  ++ COUNT_3 (fun k => DUMMY_4 (STR3_R k))
  ++ COUNT_3 (fun k => DUMMY_4 (LDR4_R k))
  ++ COUNT_3 (fun k => DUMMY_4 (ADD5_R k))
  ++ COUNT_3 (fun k => DUMMY_4 (ADD6_R k))
  ++ [ADD7] ++ [ADD7] ++ [SUB4] ++ [SUB4]
  ++ DO_4 [ILL] ++ DO_4 [ILL] ++ DO_4 [ILL]
  ++ DO_4 [PUSH] ++ DO_4 [PUSHR]
  ++ DO_8 [ILL] ++ DO_8 [ILL] ++ DO_8 [ILL]
  ++ DO_4 [POP] ++ DO_4 [POPR] ++ DO_4 [BKPT] ++ DO_4 [ILL]
  ++ COUNT_3 (fun k => DUMMY_4 (STMIA_R k))
  ++ COUNT_3 (fun k => DUMMY_4 (LDMIA_R k))
  ++ DO_4 [BEQ] ++ DO_4 [BNE] ++ DO_4 [BCS] ++ DO_4 [BCC] ++ DO_4 [BMI] ++ DO_4 [BPL]
  ++ DO_4 [BVS] ++ DO_4 [BVC] ++ DO_4 [BHI] ++ DO_4 [BLS] ++ DO_4 [BGE] ++ DO_4 [BLT]
  ++ DO_4 [BGT] ++ DO_4 [BLE] ++ DO_4 [ILL] ++ DO_4 [SWI]
  ++ DO_8 (DO_4 [B]) ++ DO_8 (DO_4 [ILL]) ++ DO_8 (DO_4 [BL1]) ++ DO_8 (DO_4 [BL2])

/-- The array `_thumbTable[0x400]`, initialised with the emitter block. -/
def _thumbTable : List ThumbInstruction := DECLARE_THUMB_EMITTER_BLOCK

/-! ## The step function -/

/-- The function `ThumbStep`. The result is `none` if the table has no entry
at the index `opcode >> 6`. -/
def ThumbStep (env : Env M) (cpu : ARMCore M) : Option (ARMCore M) :=
  let address := u32 (cpu.gprs ARM_PC)
  let cpu := setReg cpu ARM_PC (add32 address WORD_SIZE_THUMB)
  let address := sub32 address WORD_SIZE_THUMB
  let opcode :=
    env.memory.activeRegion cpu.memory ((address &&& env.memory.activeMask cpu.memory) >>> 1)
      % 65536
  match _thumbTable[opcode >>> 6]? with
  | some instruction => some (instruction.run env cpu opcode)
  | none => none

/-! ## The decoder of the specification -/

open ThumbInstruction in
/-- The decoder the specification describes, written from its words and not
from the table: the instruction class is selected by the leading bits of the
T encoding, and the constant of the specialisation is the opcode field: the
5-bit immediate is bits 10..6, the third register or 3-bit immediate is bits
8..6, the destination (or base) register is bits 10..8, `H1` and `H2` are
bits 7 and 6 (as 0 or 8), and the condition of a conditional branch is bits
11..8 in the order EQ, NE, CS, CC, MI, PL, VS, VC, HI, LS, GE, LT, GT, LE. -/
def specDecode (opcode : Nat) : ThumbInstruction :=
  let imm5 := (opcode >>> 6) &&& 0x1F
  let r86 := (opcode >>> 6) &&& 0x7
  let r108 := (opcode >>> 8) &&& 0x7
  let H1 := 8 * ((opcode >>> 7) &&& 1)
  let H2 := 8 * ((opcode >>> 6) &&& 1)
  if opcode >>> 12 = 0b1101 then
    match (opcode >>> 8) &&& 0xF with
    | 0 => BEQ | 1 => BNE | 2 => BCS | 3 => BCC | 4 => BMI | 5 => BPL | 6 => BVS
    | 7 => BVC | 8 => BHI | 9 => BLS | 10 => BGE | 11 => BLT | 12 => BGT | 13 => BLE
    | 14 => ILL
    | _ => SWI
  else
    match opcode >>> 11 with
    | 0b00000 => LSL1_ imm5
    | 0b00001 => LSR1_ imm5
    | 0b00010 => ASR1_ imm5
    | 0b00011 =>
      match (opcode >>> 9) &&& 3 with
      | 0 => ADD3_R r86
      | 1 => SUB3_R r86
      | 2 => ADD1_ r86
      | _ => SUB1_ r86
    | 0b00100 => MOV1_R r108
    | 0b00101 => CMP1_R r108
    | 0b00110 => ADD2_R r108
    | 0b00111 => SUB2_R r108
    | 0b01000 =>
      if (opcode >>> 10) &&& 1 = 0 then
        match (opcode >>> 6) &&& 0xF with
        | 0 => AND | 1 => EOR | 2 => LSL2 | 3 => LSR2 | 4 => ASR2 | 5 => ADC | 6 => SBC
        | 7 => ROR | 8 => TST | 9 => NEG | 10 => CMP2 | 11 => CMN | 12 => ORR | 13 => MUL
        | 14 => BIC
        | _ => MVN
      else
        match (opcode >>> 8) &&& 3 with
        | 0 => ADD4 H1 H2
        | 1 => CMP3 H1 H2
        | 2 => MOV3 H1 H2
        | _ => if (opcode >>> 7) &&& 1 = 0 then BX else ILL
    | 0b01001 => LDR3_R r108
    | 0b01010 =>
      match (opcode >>> 9) &&& 3 with
      | 0 => STR2_R r86
      | 1 => STRH2_R r86
      | 2 => STRB2_R r86
      | _ => LDRSB_R r86
    | 0b01011 =>
      match (opcode >>> 9) &&& 3 with
      | 0 => LDR2_R r86
      | 1 => LDRH2_R r86
      | 2 => LDRB2_R r86
      | _ => LDRSH_R r86
    | 0b01100 => STR1_ imm5
    | 0b01101 => LDR1_ imm5
    | 0b01110 => STRB1_ imm5
    | 0b01111 => LDRB1_ imm5
    | 0b10000 => STRH1_ imm5
    | 0b10001 => LDRH1_ imm5
    | 0b10010 => STR3_R r108
    | 0b10011 => LDR4_R r108
    | 0b10100 => ADD5_R r108
    | 0b10101 => ADD6_R r108
    | 0b10110 =>
      match (opcode >>> 8) &&& 7 with
      | 0 => if (opcode >>> 7) &&& 1 = 0 then ADD7 else SUB4
      | 4 => PUSH
      | 5 => PUSHR
      | _ => ILL
    | 0b10111 =>
      match (opcode >>> 8) &&& 7 with
      | 4 => POP
      | 5 => POPR
      | 6 => BKPT
      | _ => ILL
    | 0b11000 => STMIA_R r108
    | 0b11001 => LDMIA_R r108
    | 0b11100 => B
    | 0b11101 => ILL
    | 0b11110 => BL1
    | _ => BL2

/-- The indices of the table that no valid T encoding covers. -/
def illegalIndex (i : Nat) : Prop :=
  (0x11E ≤ i ∧ i ≤ 0x11F) ∨ (0x2C4 ≤ i ∧ i ≤ 0x2CF) ∨ (0x2D8 ≤ i ∧ i ≤ 0x2EF)
    ∨ (0x2FC ≤ i ∧ i ≤ 0x2FF) ∨ (0x378 ≤ i ∧ i ≤ 0x37B) ∨ (0x3A0 ≤ i ∧ i ≤ 0x3BF)

/-! ## Postconditions and sample states -/

/-- The addition pattern of the specification, for operands `m`, `n`, the
destination register `rd` and the state `post` after the instruction. -/
def AdditionPost (m n rd : Nat) (post : ARMCore M) : Prop :=
  post.gprs rd = (m + n) % 4294967296
  ∧ post.cpsr.n = decide (bit ((m + n) % 4294967296) 31 = 1)
  ∧ post.cpsr.z = decide ((m + n) % 4294967296 = 0)
  ∧ (post.cpsr.c = true ↔ 4294967296 ≤ m + n)
  ∧ (post.cpsr.v = true ↔
      (bit m 31 = bit n 31 ∧ bit ((m + n) % 4294967296) 31 ≠ bit m 31))

/-- The flags of the subtraction pattern of the specification, for operands
`m`, `n` and the difference `d`. -/
def SubtractionFlags (m n d : Nat) (post : ARMCore M) : Prop :=
  post.cpsr.n = decide (bit d 31 = 1)
  ∧ post.cpsr.z = decide (d = 0)
  ∧ (post.cpsr.c = true ↔ n ≤ m)
  ∧ (post.cpsr.v = true ↔ (bit m 31 ≠ bit n 31 ∧ bit d 31 ≠ bit m 31))

/-- The neutral pattern of the specification: `C` and `V` as in the state
`pre`, `N` and `Z` from the new value of `rd`. -/
def NeutralPost (pre : ARMCore M) (rd : Nat) (post : ARMCore M) : Prop :=
  post.cpsr.c = pre.cpsr.c
  ∧ post.cpsr.v = pre.cpsr.v
  ∧ post.cpsr.n = decide (bit (post.gprs rd) 31 = 1)
  ∧ post.cpsr.z = decide (post.gprs rd = 0)

instance (m n rd : Nat) (post : ARMCore M) : Decidable (AdditionPost m n rd post) := by
  unfold AdditionPost
  infer_instance

instance (m n d : Nat) (post : ARMCore M) : Decidable (SubtractionFlags m n d post) := by
  unfold SubtractionFlags
  infer_instance

instance (pre : ARMCore M) (rd : Nat) (post : ARMCore M) : Decidable (NeutralPost pre rd post) := by
  unfold NeutralPost
  infer_instance

instance (i : Nat) : Decidable (illegalIndex i) := by
  unfold illegalIndex
  infer_instance

/-- A memory interface over the one-point memory state: every halfword of the
active region is `opcode`, every load returns 0, stores do nothing. -/
def sampleMemory (opcode : Nat) : ARMMemory Unit where
  load32 _ _ := (0, ())
  load16 _ _ := (0, ())
  load8 _ _ := (0, ())
  loadU16 _ _ := (0, ())
  loadU8 _ _ := (0, ())
  store32 _ _ _ := ()
  store16 _ _ _ := ()
  store8 _ _ _ := ()
  activeRegion _ _ := opcode
  activeMask _ := 0x01FFFFFF
  activePrefetchCycles16 _ := 0

/-- An environment over `sampleMemory` in which the stub, the PC-write
rituals, `_ARMSetMode` and `swi16` leave the CPU record as it is. -/
def sampleEnv (opcode : Nat) : Env Unit where
  memory := sampleMemory opcode
  ARM_STUB cpu _ := cpu
  THUMB_WRITE_PC cpu := cpu
  ARM_WRITE_PC cpu := cpu
  _ARMSetMode cpu _ := cpu
  swi16 cpu _ := cpu

/-- The CPU record in T mode whose registers `r0, r1, ...` are the elements of
`regs` (0 beyond the list), with flags `N = Z = V = 0` and `C = c`. -/
def sampleCore (regs : List Nat) (c : Bool) : ARMCore Unit where
  gprs i := regs.getD i 0
  cpsr := { n := false, z := false, c := c, v := false }
  cycles := 0
  executionMode := ExecutionMode.MODE_THUMB
  memory := ()

/-- The handlers that the claim on the next-instruction PC excepts, decided on
the handler name, the opcode and the state the handler starts from: a taken
conditional branch, B, BL2, BX, POPR, ADD4/MOV3 with `rd = 15`, SWI and the
stubs. -/
def writesPC (instruction : ThumbInstruction) (opcode : Nat) (cpu : ARMCore M) : Bool :=
  match instruction with
  | .BEQ => ARM_COND_EQ cpu
  | .BNE => ARM_COND_NE cpu
  | .BCS => ARM_COND_CS cpu
  | .BCC => ARM_COND_CC cpu
  | .BMI => ARM_COND_MI cpu
  | .BPL => ARM_COND_PL cpu
  | .BVS => ARM_COND_VS cpu
  | .BVC => ARM_COND_VC cpu
  | .BHI => ARM_COND_HI cpu
  | .BLS => ARM_COND_LS cpu
  | .BGE => ARM_COND_GE cpu
  | .BLT => ARM_COND_LT cpu
  | .BGT => ARM_COND_GT cpu
  | .BLE => ARM_COND_LE cpu
  | .B | .BL2 | .BX | .POPR | .SWI => true
  | .ADD4 h1 _ | .MOV3 h1 _ => decide ((opcode &&& 0x0007) ||| h1 = ARM_PC)
  | .LSL2 | .ADC | .SBC | .ROR | .TST | .CMN | .ILL | .BKPT => true
  | .ADD5_R _ | .LDR2_R _ | .STR2_R _ | .STRB2_R _ | .STRH2_R _ => true
  | _ => false

/-- The block transfers LDMIA and STMIA whose base register index, computed
by the handler as `(opcode >> 8) & 0xF`, is 15. -/
def baseIsPC (instruction : ThumbInstruction) (opcode : Nat) : Bool :=
  match instruction with
  | .LDMIA_R _ | .STMIA_R _ => decide ((opcode >>> 8) &&& 0x000F = ARM_PC)
  | _ => false

/-- The destination register built into a specialisation is one of `r0..r7`. -/
def ThumbInstruction.lowConstant : ThumbInstruction → Bool
  | .ADD2_R k | .MOV1_R k | .SUB2_R k | .LDR3_R k | .LDR4_R k | .ADD6_R k => decide (k < 8)
  | _ => true

/-! ## Register lists, block transfers and memories of the specification -/

/-- The registers of the register list `L` (bit `i` of `L` set: `ri` is
listed), lowest register first. -/
def listedUp (L : Nat) : List Nat := [0, 1, 2, 3, 4, 5, 6, 7].filter (fun i => L.testBit i)

/-- The registers of the register list `L`, highest register first. -/
def listedDown (L : Nat) : List Nat := [7, 6, 5, 4, 3, 2, 1, 0].filter (fun i => L.testBit i)

/-- The memory after 32-bit stores of the registers `regs`, in the order of
the list, at the descending addresses `a`, `a - 4`, ...; the stored values
are read from the register file `gprs`. -/
def storesDown (mi : ARMMemory M) (gprs : Nat → Nat) : List Nat → Nat → M → M
  | [], _, mem => mem
  | i :: rest, a, mem => storesDown mi gprs rest (sub32 a 4) (mi.store32 mem a (gprs i))

/-- The memory after 32-bit stores of the registers `regs`, in the order of
the list, at the ascending addresses `a`, `a + 4`, ... -/
def storesUp (mi : ARMMemory M) (gprs : Nat → Nat) : List Nat → Nat → M → M
  | [], _, mem => mem
  | i :: rest, a, mem => storesUp mi gprs rest (add32 a 4) (mi.store32 mem a (gprs i))

/-- The CPU record after 32-bit loads into the registers `regs`, in the order
of the list, from the ascending addresses `a`, `a + 4`, ... -/
def loadsUp (mi : ARMMemory M) : List Nat → Nat → ARMCore M → ARMCore M
  | [], _, cpu => cpu
  | i :: rest, a, cpu =>
    loadsUp mi rest (add32 a 4)
      (setReg { cpu with memory := (mi.load32 cpu.memory a).2 } i (mi.load32 cpu.memory a).1)

/-- A memory in which a 32-bit load leaves the memory as it is and returns
the value last stored at its address. -/
structure LastStored32 (mi : ARMMemory M) : Prop where
  load_memory : ∀ m a, (mi.load32 m a).2 = m
  load_same : ∀ m a v, (mi.load32 (mi.store32 m a v) a).1 = v
  load_other : ∀ m a b v, a ≠ b → (mi.load32 (mi.store32 m a v) b).1 = (mi.load32 m b).1

/-- A memory in which a load directly after a store of the same width at the
same address returns the stored value, truncated to the width. -/
structure LoadAfterStore (mi : ARMMemory M) : Prop where
  word : ∀ m a v, (mi.load32 (mi.store32 m a v) a).1 = v
  half : ∀ m a v, (mi.loadU16 (mi.store16 m a v) a).1 = v &&& 0xFFFF
  byte : ∀ m a v, (mi.loadU8 (mi.store8 m a v) a).1 = v &&& 0xFF

/-- The value of the most recent store of width `w` at address `a` in a list
of stores `(width, address, value)`, most recent first; 0 if there is none. -/
def lastStore (w a : Nat) : List (Nat × Nat × Nat) → Nat
  | [] => 0
  | (w', a', v) :: rest => if w' = w ∧ a' = a then v else lastStore w a rest

/-- A memory that is the list of the stores made so far, most recent first:
a store is added to the list with its width, and a load returns the value of
the most recent store of its width at its address; the 16-bit and 8-bit loads
truncate it to their width, and the signed ones sign-extend it. -/
def storeLog : ARMMemory (List (Nat × Nat × Nat)) where
  load32 m a := (lastStore 32 a m, m)
  load16 m a := (wrap32 (int16 (lastStore 16 a m)), m)
  load8 m a := (wrap32 (int8 (lastStore 8 a m)), m)
  loadU16 m a := (lastStore 16 a m &&& 0xFFFF, m)
  loadU8 m a := (lastStore 8 a m &&& 0xFF, m)
  store32 m a v := (32, a, v) :: m
  store16 m a v := (16, a, v) :: m
  store8 m a v := (8, a, v) :: m
  activeRegion _ _ := 0
  activeMask _ := 0x01FFFFFF
  activePrefetchCycles16 _ := 0

/-- An environment over `storeLog` in which the stub, the PC-write rituals,
`_ARMSetMode` and `swi16` leave the CPU record as it is. -/
def logEnv : Env (List (Nat × Nat × Nat)) where
  memory := storeLog
  ARM_STUB cpu _ := cpu
  THUMB_WRITE_PC cpu := cpu
  ARM_WRITE_PC cpu := cpu
  _ARMSetMode cpu _ := cpu
  swi16 cpu _ := cpu

/-- The CPU record in T mode over `storeLog` whose registers `r0, r1, ...` are
the elements of `regs` (0 beyond the list), with all flags clear and the
given list of stores as memory. -/
def logCore (regs : List Nat) (memory : List (Nat × Nat × Nat)) :
    ARMCore (List (Nat × Nat × Nat)) where
  gprs i := regs.getD i 0
  cpsr := { n := false, z := false, c := false, v := false }
  cycles := 0
  executionMode := ExecutionMode.MODE_THUMB
  memory := memory

/-! ## Branches of the specification -/

/-- The 8-bit field `imm8` read as a two's-complement number. -/
def sext8 (imm8 : Nat) : Int := if imm8 < 128 then (imm8 : Int) else (imm8 : Int) - 256

/-- The 11-bit field `imm11` read as a two's-complement number (range
-1024..1023). -/
def sext11 (imm11 : Nat) : Int := if imm11 < 1024 then (imm11 : Int) else (imm11 : Int) - 2048

/-- What the specification says of a conditional branch whose predicate has
the value `holds` in the state `cpu`: if it holds, the state `post` after the
handler is the state with `(sign-extended imm8) * 2` added to the PC, passed
through the T-encoding PC-write ritual, with the cycles charged; if it does
not hold, no register is changed. -/
def ConditionalBranchPost (env : Env M) (holds : Bool) (cpu : ARMCore M) (opcode : Nat)
    (post : ARMCore M) : Prop :=
  if holds = true then
    post = DEFINE_INSTRUCTION_THUMB env (fun cpu opcode =>
      env.THUMB_WRITE_PC
        (setReg cpu ARM_PC
          (wrap32 ((cpu.gprs ARM_PC : Int) + sext8 (opcode &&& 0x00FF) * 2)))) cpu opcode
  else post.gprs = cpu.gprs

/-- Modelled from the spec: `setMode(cpu, bit)` forces the execution mode to A
(0) or T (1); this is `_ARMSetMode` of `isa-inlines.h`, reduced to the field
of the CPU record that the model carries. -/
def setMode (cpu : ARMCore M) (executionMode : Nat) : ARMCore M :=
  { cpu with executionMode :=
      if executionMode = 1 then ExecutionMode.MODE_THUMB else ExecutionMode.MODE_ARM }

/-- The environment `sampleEnv` with `setMode` for `_ARMSetMode`. -/
def modeEnv (opcode : Nat) : Env Unit :=
  { sampleEnv opcode with _ARMSetMode := setMode }

/-- The branch target of BX in the words of the specification:
`(v & 0xFFFFFFFE) - misalign`, where `misalign = v & 2` when `rm` is the PC
and 0 otherwise. -/
def specBXTarget (v : Nat) (rmIsPC : Bool) : Nat :=
  (v &&& 0xFFFFFFFE) - (if rmIsPC then v &&& 2 else 0)

/-- The handlers whose body is `ARM_STUB`. -/
def ThumbInstruction.isStub : ThumbInstruction → Bool
  | .LSL2 | .ADC | .SBC | .ROR | .TST | .CMN | .ILL | .BKPT => true
  | .ADD5_R _ | .LDR2_R _ | .STR2_R _ | .STRB2_R _ | .STRH2_R _ => true
  | _ => false

/-! ## Single transfers of the specification -/

/-- A load of the specification: the primitive `load` is called on the memory
with the effective address `a`, and the result is written to register `rd`. -/
def specLoad (load : M → Nat → Nat × M) (a rd : Nat) (cpu : ARMCore M) : ARMCore M :=
  setReg { cpu with memory := (load cpu.memory a).2 } rd (load cpu.memory a).1

/-- A store of the specification: the primitive `store` is called on the
memory with the effective address `a` and the value of register `rd`. -/
def specStore (store : M → Nat → Nat → M) (a rd : Nat) (cpu : ARMCore M) : ARMCore M :=
  { cpu with memory := store cpu.memory a (cpu.gprs rd) }

/-! # Theorems -/

/-! ## The dispatch table: theorems -/

set_option maxRecDepth 100000 in
/-- The table, entry by entry, is the specification's decoder applied to the
opcodes `i << 6`, `i = 0 .. 1023`. -/
theorem thumbTable_eq_map :
    _thumbTable = (List.range 1024).map (fun i => specDecode (i <<< 6)) := by
  decide

/-- The table has 1024 entries. -/
theorem thumbTable_length : _thumbTable.length = 1024 := by
  rw [thumbTable_eq_map]
  simp

/-- The entry at an index below 1024. -/
theorem thumbTable_getElem? (i : Nat) (h : i < 1024) :
    _thumbTable[i]? = some (specDecode (i <<< 6)) := by
  rw [thumbTable_eq_map, List.getElem?_map, List.getElem?_range h]
  rfl

/-- The decoder of the specification reads no bit below bit 6. -/
theorem specDecode_high_bits (opcode : Nat) :
    specDecode ((opcode >>> 6) <<< 6) = specDecode opcode := by
  have h6 : ((opcode >>> 6) <<< 6) >>> 6 = opcode >>> 6 := by
    simp only [Nat.shiftRight_eq_div_pow, Nat.shiftLeft_eq]; omega
  have h7 : ((opcode >>> 6) <<< 6) >>> 7 = opcode >>> 7 := by
    simp only [Nat.shiftRight_eq_div_pow, Nat.shiftLeft_eq]; omega
  have h8 : ((opcode >>> 6) <<< 6) >>> 8 = opcode >>> 8 := by
    simp only [Nat.shiftRight_eq_div_pow, Nat.shiftLeft_eq]; omega
  have h9 : ((opcode >>> 6) <<< 6) >>> 9 = opcode >>> 9 := by
    simp only [Nat.shiftRight_eq_div_pow, Nat.shiftLeft_eq]; omega
  have h10 : ((opcode >>> 6) <<< 6) >>> 10 = opcode >>> 10 := by
    simp only [Nat.shiftRight_eq_div_pow, Nat.shiftLeft_eq]; omega
  have h11 : ((opcode >>> 6) <<< 6) >>> 11 = opcode >>> 11 := by
    simp only [Nat.shiftRight_eq_div_pow, Nat.shiftLeft_eq]; omega
  have h12 : ((opcode >>> 6) <<< 6) >>> 12 = opcode >>> 12 := by
    simp only [Nat.shiftRight_eq_div_pow, Nat.shiftLeft_eq]; omega
  simp only [specDecode, h6, h7, h8, h9, h10, h11, h12]

/-- The index `opcode >> 6` of a 16-bit opcode is below 1024. -/
theorem opcode_index_lt (opcode : Nat) (h : opcode < 65536) : opcode >>> 6 < 1024 := by
  simp only [Nat.shiftRight_eq_div_pow]
  omega

/-- C3: for every 16-bit opcode, the handler stored at `_thumbTable[opcode >> 6]`
is the handler of the instruction class selected by the leading bits of the
opcode, specialised with the constant that is the corresponding opcode field
(5-bit immediate = bits 10..6, third register or 3-bit immediate = bits 8..6,
destination register = bits 10..8, H1/H2 = bits 7 and 6, condition = bits
11..8 in the order EQ .. LE): the table agrees with `specDecode`. -/
theorem thumbTable_decodes (opcode : Nat) (h : opcode < 65536) :
    _thumbTable[opcode >>> 6]? = some (specDecode opcode) := by
  rw [thumbTable_getElem? _ (opcode_index_lt opcode h), specDecode_high_bits]

/-- Witness of `thumbTable_decodes` at the opcode `0x1842` (`ADD r2, r0, r1`). -/
theorem thumbTable_decodes_witness :
    0x1842 < 65536 ∧ _thumbTable[0x1842 >>> 6]? = some (specDecode 0x1842) :=
  ⟨by decide, thumbTable_decodes 0x1842 (by decide)⟩

/-- C4: the initializer of `_thumbTable` has exactly 1024 entries, every index
0..1023 holds a handler, and every index that no valid T encoding covers
(0x11E-0x11F, 0x2C4-0x2CF, 0x2D8-0x2EF, 0x2FC-0x2FF, 0x378-0x37B,
0x3A0-0x3BF) holds the illegal-instruction handler. -/
theorem thumbTable_exhaustive :
    _thumbTable.length = 1024
    ∧ (∀ i, i < 1024 → ∃ instruction, _thumbTable[i]? = some instruction)
    ∧ (∀ i, illegalIndex i → _thumbTable[i]? = some ThumbInstruction.ILL) := by
  refine ⟨thumbTable_length, fun i h => ⟨_, thumbTable_getElem? i h⟩, ?_⟩
  intro i h
  unfold illegalIndex at h
  have hi : i < 1024 := by omega
  rw [thumbTable_getElem? i hi]
  congr 1
  rcases h with h | h | h | h | h | h <;> obtain ⟨h1, h2⟩ := h <;>
    interval_cases i <;> rfl

/-- Witness of `thumbTable_exhaustive` at the index `0x3A0`. -/
theorem thumbTable_exhaustive_witness :
    illegalIndex 0x3A0 ∧ _thumbTable[0x3A0]? = some ThumbInstruction.ILL :=
  ⟨by decide, thumbTable_exhaustive.2.2 0x3A0 (by decide)⟩

/-! ## The step function: theorems -/

/-- C2: for every CPU state with pre-step PC value `p`, `ThumbStep` fetches the
opcode from halfword index `((p - 2) & activeMask) >> 1` of the active region,
finds a handler at `_thumbTable[opcode >> 6]` and returns the result of that
handler on a CPU record that differs from the given one only in
`gprs[15] = (p - 2) + 4`. -/
theorem ThumbStep_fetch_dispatch (env : Env M) (cpu : ARMCore M)
    (hp : cpu.gprs ARM_PC < 4294967296) :
    ∃ instruction,
      _thumbTable[(env.memory.activeRegion cpu.memory
          ((sub32 (cpu.gprs ARM_PC) 2 &&& env.memory.activeMask cpu.memory) >>> 1)
            % 65536) >>> 6]? = some instruction
      ∧ ThumbStep env cpu
        = some (instruction.run env
            (setReg cpu ARM_PC (add32 (sub32 (cpu.gprs ARM_PC) 2) 4))
            (env.memory.activeRegion cpu.memory
              ((sub32 (cpu.gprs ARM_PC) 2 &&& env.memory.activeMask cpu.memory) >>> 1)
                % 65536))
      ∧ (setReg cpu ARM_PC (add32 (sub32 (cpu.gprs ARM_PC) 2) 4)).gprs ARM_PC
        = add32 (sub32 (cpu.gprs ARM_PC) 2) 4 := by
  have hlt : (env.memory.activeRegion cpu.memory
      ((sub32 (cpu.gprs ARM_PC) 2 &&& env.memory.activeMask cpu.memory) >>> 1)
        % 65536) >>> 6 < 1024 := opcode_index_lt _ (Nat.mod_lt _ (by decide))
  have hu : u32 (cpu.gprs ARM_PC) = cpu.gprs ARM_PC := Nat.mod_eq_of_lt hp
  have hadd : add32 (cpu.gprs ARM_PC) 2 = add32 (sub32 (cpu.gprs ARM_PC) 2) 4 := by
    unfold add32 sub32
    omega
  refine ⟨_, thumbTable_getElem? _ hlt, ?_, ?_⟩
  · unfold ThumbStep
    simp only [hu, WORD_SIZE_THUMB, hadd]
    have hm : (setReg cpu ARM_PC (add32 (sub32 (cpu.gprs ARM_PC) 2) 4)).memory = cpu.memory := rfl
    rw [hm, thumbTable_getElem? _ hlt]
  · simp [setReg]

/-- Witness of `ThumbStep_fetch_dispatch` at a state with PC `0x08000004`
over a region filled with the opcode `0x1842`. -/
theorem ThumbStep_fetch_dispatch_witness :
    (sampleCore [0xFFFFFFFF, 1, 0, 0, 0, 0, 0, 0, 0, 0, 0, 0, 0, 0, 0, 0x08000004] false).gprs
        ARM_PC < 4294967296
    ∧ ∃ instruction,
      _thumbTable[((sampleEnv 0x1842).memory.activeRegion ()
          ((sub32 0x08000004 2 &&& (sampleEnv 0x1842).memory.activeMask ()) >>> 1)
            % 65536) >>> 6]? = some instruction
      ∧ ThumbStep (sampleEnv 0x1842)
          (sampleCore [0xFFFFFFFF, 1, 0, 0, 0, 0, 0, 0, 0, 0, 0, 0, 0, 0, 0, 0x08000004] false)
        = some (instruction.run (sampleEnv 0x1842)
            (setReg
              (sampleCore [0xFFFFFFFF, 1, 0, 0, 0, 0, 0, 0, 0, 0, 0, 0, 0, 0, 0, 0x08000004] false)
              ARM_PC (add32 (sub32 0x08000004 2) 4))
            ((sampleEnv 0x1842).memory.activeRegion ()
              ((sub32 0x08000004 2 &&& (sampleEnv 0x1842).memory.activeMask ()) >>> 1)
                % 65536))
      ∧ (setReg
          (sampleCore [0xFFFFFFFF, 1, 0, 0, 0, 0, 0, 0, 0, 0, 0, 0, 0, 0, 0, 0x08000004] false)
          ARM_PC (add32 (sub32 0x08000004 2) 4)).gprs ARM_PC
        = add32 (sub32 0x08000004 2) 4 :=
  ⟨by decide,
   ThumbStep_fetch_dispatch (sampleEnv 0x1842)
     (sampleCore [0xFFFFFFFF, 1, 0, 0, 0, 0, 0, 0, 0, 0, 0, 0, 0, 0, 0, 0x08000004] false)
     (by decide)⟩

set_option maxRecDepth 100000 in
/-- C1, at a failing input: the opcode `0xCF01` (`LDMIA r7!, {r0}`) is
dispatched to the handler `_ThumbInstructionLDMIA_R7`, which is none of the
handlers the claim excepts; its base register index `(opcode >> 8) & 0xF` is
15, so the write-back goes to the PC: from the pre-step PC `0x08000004` the
step ends with PC `0x08000012`, the pre-step value plus 14, where the claim
requires `0x08000006`. -/
theorem ThumbStep_LDMIA_R7_moves_pc :
    _thumbTable[0xCF01 >>> 6]? = some (ThumbInstruction.LDMIA_R 7)
    ∧ (0xCF01 >>> 8) &&& 0x000F = ARM_PC
    ∧ (ThumbStep (sampleEnv 0xCF01)
        (sampleCore [0, 0, 0, 0, 0, 0, 0, 0, 0, 0, 0, 0, 0, 0, 0, 0x08000004] false)).map
          (fun post => post.gprs ARM_PC) = some 0x08000012
    ∧ add32 0x08000004 2 = 0x08000006 := by
  decide

/-! ## Flag patterns: theorems -/

/-- Storing a C truth value that is 1 exactly when `P` holds. -/
theorem bitfield1_ite (P : Prop) [Decidable P] :
    bitfield1 (if P then 1 else 0) = decide P := by
  by_cases h : P <;> simp [bitfield1, h]

/-- The flag `N` after `cpu->cpsr.n = ARM_SIGN(d)`. -/
theorem bitfield1_sign (d : Nat) : bitfield1 (ARM_SIGN d) = decide (bit d 31 = 1) := by
  simp [bitfield1, ARM_SIGN, bit]

/-- The flag `Z` after `cpu->cpsr.z = !(d)`. -/
theorem bitfield1_lnot (d : Nat) : bitfield1 (lnot d) = decide (d = 0) := by
  unfold lnot
  exact bitfield1_ite _

/-- The macro `THUMB_ADDITION` establishes the addition pattern. -/
theorem THUMB_ADDITION_post (cpu : ARMCore M) (rd m n : Nat)
    (hm : m < 4294967296) (hn : n < 4294967296) :
    AdditionPost m n rd (THUMB_ADDITION cpu rd m n) := by
  unfold AdditionPost THUMB_ADDITION THUMB_ADDITION_S
  refine ⟨?_, ?_, ?_, ?_, ?_⟩
  · simp [setReg, add32]
  · simp [setReg, add32, bitfield1_sign]
  · simp [setReg, add32, bitfield1_lnot]
  · simp only [bitfield1, ARM_CARRY_FROM, u32, decide_eq_true_eq]
    omega
  · simp [setReg, add32, ARM_V_ADDITION, bitfield1_ite]

/-- The macro `THUMB_SUBTRACTION_S`, applied to operands `m`, `n` and their
difference, establishes the flags of the subtraction pattern. -/
theorem THUMB_SUBTRACTION_S_flags (cpu : ARMCore M) (m n : Nat)
    (hm : m < 4294967296) (hn : n < 4294967296) :
    SubtractionFlags m n (sub32 m n) (THUMB_SUBTRACTION_S cpu m n (sub32 m n)) := by
  unfold SubtractionFlags THUMB_SUBTRACTION_S
  refine ⟨?_, ?_, ?_, ?_⟩
  · simp [bitfield1_sign]
  · simp [bitfield1_lnot]
  · simp [ARM_BORROW_FROM, bitfield1_ite, u32, Nat.mod_eq_of_lt hm, Nat.mod_eq_of_lt hn]
  · simp [ARM_V_SUBTRACTION, bitfield1_ite]

/-- The macro `THUMB_SUBTRACTION` writes the difference to `rd` and
establishes the flags of the subtraction pattern. -/
theorem THUMB_SUBTRACTION_post (cpu : ARMCore M) (rd m n : Nat)
    (hm : m < 4294967296) (hn : n < 4294967296) :
    (THUMB_SUBTRACTION cpu rd m n).gprs rd = sub32 m n
    ∧ SubtractionFlags m n (sub32 m n) (THUMB_SUBTRACTION cpu rd m n) := by
  have h := THUMB_SUBTRACTION_S_flags (setReg cpu rd (sub32 m n)) m n hm hn
  have hd : (setReg cpu rd (sub32 m n)).gprs rd = sub32 m n := by simp [setReg]
  unfold THUMB_SUBTRACTION
  simp only [hd]
  exact ⟨by simp [THUMB_SUBTRACTION_S, setReg], h⟩

/-- The macro `THUMB_NEUTRAL_S` after a write of `rd` establishes the neutral
pattern with respect to any state with the same `C` and `V`. -/
theorem THUMB_NEUTRAL_S_post (pre cpu : ARMCore M) (rd : Nat)
    (hc : cpu.cpsr.c = pre.cpsr.c) (hv : cpu.cpsr.v = pre.cpsr.v) :
    NeutralPost pre rd (THUMB_NEUTRAL_S cpu (cpu.gprs rd)) := by
  unfold NeutralPost THUMB_NEUTRAL_S
  refine ⟨hc, hv, ?_, ?_⟩
  · simp [bitfield1_sign]
  · simp [bitfield1_lnot]

/-- The addition pattern reads only the registers and the status word. -/
theorem AdditionPost_congr (m n rd : Nat) (a b : ARMCore M)
    (hg : b.gprs = a.gprs) (hc : b.cpsr = a.cpsr) (h : AdditionPost m n rd a) :
    AdditionPost m n rd b := by
  unfold AdditionPost at *
  rw [hg, hc]
  exact h

/-- The flags of the subtraction pattern read only the status word. -/
theorem SubtractionFlags_congr (m n d : Nat) (a b : ARMCore M)
    (hc : b.cpsr = a.cpsr) (h : SubtractionFlags m n d a) : SubtractionFlags m n d b := by
  unfold SubtractionFlags at *
  rw [hc]
  exact h

/-- The neutral pattern reads only the registers and the status word. -/
theorem NeutralPost_congr (pre : ARMCore M) (rd : Nat) (a b : ARMCore M)
    (hg : b.gprs = a.gprs) (hc : b.cpsr = a.cpsr) (h : NeutralPost pre rd a) :
    NeutralPost pre rd b := by
  unfold NeutralPost at *
  rw [hg, hc]
  exact h

/-- The mask `x & 0xFF` is below 256. -/
theorem and_255_lt (x : Nat) : x &&& 0xFF < 4294967296 :=
  Nat.lt_of_le_of_lt Nat.and_le_right (by decide)

/-- C5: for the additions ADD3 (`rd <- rn + rm`), ADD1 (`rd <- rn + imm3`) and
ADD2 (`rd <- rd + imm8`), for all 32-bit operand values `m`, `n` read before
the instruction and all register choices (also `rd` equal to a source):
afterwards `rd = d = (m + n) mod 2^32`, `N = bit31(d)`, `Z = (d = 0)`,
`C = 1` iff `m + n ≥ 2^32`, and `V = 1` iff `bit31(m) = bit31(n)` and
`bit31(d) ≠ bit31(m)`. Here `k` is the constant of the specialisation: `rm`
for ADD3, `imm3` for ADD1, `rd` for ADD2. -/
theorem addition_pattern (env : Env M) (cpu : ARMCore M) (opcode k : Nat)
    (hwf : ∀ i, cpu.gprs i < 4294967296) (hk : k < 8) :
    AdditionPost (cpu.gprs ((opcode >>> 3) &&& 0x0007)) (cpu.gprs k) (opcode &&& 0x0007)
        (_ThumbInstructionADD3_R env k cpu opcode)
    ∧ AdditionPost (cpu.gprs ((opcode >>> 3) &&& 0x0007)) k (opcode &&& 0x0007)
        (_ThumbInstructionADD1_ env k cpu opcode)
    ∧ AdditionPost (cpu.gprs k) (opcode &&& 0x00FF) k
        (_ThumbInstructionADD2_R env k cpu opcode) := by
  refine ⟨?_, ?_, ?_⟩
  · exact AdditionPost_congr _ _ _ _ _ rfl rfl
      (THUMB_ADDITION_post cpu _ _ _ (hwf _) (hwf _))
  · exact AdditionPost_congr _ _ _ _ _ rfl rfl
      (THUMB_ADDITION_post cpu _ _ _ (hwf _) (by omega))
  · exact AdditionPost_congr _ _ _ _ _ rfl rfl
      (THUMB_ADDITION_post cpu _ _ _ (hwf _) (and_255_lt opcode))

/-- The wrapping subtraction is the difference modulo `2^32`. -/
theorem sub32_eq_wrap32 (m n : Nat) : sub32 m n = wrap32 ((m : Int) - (n : Int)) := by
  unfold sub32 wrap32
  omega

/-- The registers of a sample state are 32-bit words if the listed values are. -/
theorem sampleCore_wf (regs : List Nat) (c : Bool) (h : ∀ x ∈ regs, x < 4294967296) :
    ∀ i, (sampleCore regs c).gprs i < 4294967296 := by
  intro i
  show regs.getD i 0 < 4294967296
  rw [List.getD_eq_getElem?_getD]
  cases hget : regs[i]? with
  | none => simp
  | some x => exact h x (List.getElem?_mem hget)

/-- Witness of `addition_pattern`: `r0 = 0xFFFFFFFF`, `r1 = 1` and the opcode
`0x1842` (`ADD r2, r0, r1`), which leaves `r2 = 0`, `Z = 1`, `N = 0`, `C = 1`,
`V = 0`. -/
theorem addition_pattern_witness :
    ((∀ i, (sampleCore [0xFFFFFFFF, 1] false).gprs i < 4294967296) ∧ 1 < 8)
    ∧ (AdditionPost ((sampleCore [0xFFFFFFFF, 1] false).gprs ((0x1842 >>> 3) &&& 0x0007))
          ((sampleCore [0xFFFFFFFF, 1] false).gprs 1) (0x1842 &&& 0x0007)
          (_ThumbInstructionADD3_R (sampleEnv 0x1842) 1 (sampleCore [0xFFFFFFFF, 1] false) 0x1842)
      ∧ AdditionPost ((sampleCore [0xFFFFFFFF, 1] false).gprs ((0x1842 >>> 3) &&& 0x0007))
          1 (0x1842 &&& 0x0007)
          (_ThumbInstructionADD1_ (sampleEnv 0x1842) 1 (sampleCore [0xFFFFFFFF, 1] false) 0x1842)
      ∧ AdditionPost ((sampleCore [0xFFFFFFFF, 1] false).gprs 1) (0x1842 &&& 0x00FF) 1
          (_ThumbInstructionADD2_R (sampleEnv 0x1842) 1 (sampleCore [0xFFFFFFFF, 1] false) 0x1842))
    ∧ (_ThumbInstructionADD3_R (sampleEnv 0x1842) 1
          (sampleCore [0xFFFFFFFF, 1] false) 0x1842).gprs 2 = 0
    ∧ (_ThumbInstructionADD3_R (sampleEnv 0x1842) 1
          (sampleCore [0xFFFFFFFF, 1] false) 0x1842).cpsr
        = { n := false, z := true, c := true, v := false } :=
  ⟨⟨sampleCore_wf _ _ (by decide), by decide⟩,
   addition_pattern (sampleEnv 0x1842) (sampleCore [0xFFFFFFFF, 1] false) 0x1842 1
     (sampleCore_wf _ _ (by decide)) (by decide),
   by decide, by decide⟩

/-- C6: for the subtractions SUB3 (`rd <- rn - rm`), SUB1 (`rd <- rn - imm3`),
SUB2 (`rd <- rd - imm8`) and the comparisons CMP1, CMP2, CMP3, for all 32-bit
operand values `m`, `n`: with `d = (m - n) mod 2^32` the flags afterwards are
`N = bit31(d)`, `Z = (d = 0)`, `C = 1` iff `m ≥ n`, and `V = 1` iff
`bit31(m) ≠ bit31(n)` and `bit31(d) ≠ bit31(m)`; the SUB forms also write `d`
to `rd`. Here `k` is the constant of the specialisation (`rm`, `imm3` or
`rd`) and `h1`, `h2` are the high-register extensions of CMP3. -/
theorem subtraction_pattern (env : Env M) (cpu : ARMCore M) (opcode k h1 h2 : Nat)
    (hwf : ∀ i, cpu.gprs i < 4294967296) (hk : k < 8) :
    ((_ThumbInstructionSUB3_R env k cpu opcode).gprs (opcode &&& 0x0007)
        = wrap32 ((cpu.gprs ((opcode >>> 3) &&& 0x0007) : Int) - (cpu.gprs k : Int))
      ∧ SubtractionFlags (cpu.gprs ((opcode >>> 3) &&& 0x0007)) (cpu.gprs k)
          (wrap32 ((cpu.gprs ((opcode >>> 3) &&& 0x0007) : Int) - (cpu.gprs k : Int)))
          (_ThumbInstructionSUB3_R env k cpu opcode))
    ∧ ((_ThumbInstructionSUB1_ env k cpu opcode).gprs (opcode &&& 0x0007)
        = wrap32 ((cpu.gprs ((opcode >>> 3) &&& 0x0007) : Int) - (k : Int))
      ∧ SubtractionFlags (cpu.gprs ((opcode >>> 3) &&& 0x0007)) k
          (wrap32 ((cpu.gprs ((opcode >>> 3) &&& 0x0007) : Int) - (k : Int)))
          (_ThumbInstructionSUB1_ env k cpu opcode))
    ∧ ((_ThumbInstructionSUB2_R env k cpu opcode).gprs k
        = wrap32 ((cpu.gprs k : Int) - ((opcode &&& 0x00FF : Nat) : Int))
      ∧ SubtractionFlags (cpu.gprs k) (opcode &&& 0x00FF)
          (wrap32 ((cpu.gprs k : Int) - ((opcode &&& 0x00FF : Nat) : Int)))
          (_ThumbInstructionSUB2_R env k cpu opcode))
    ∧ SubtractionFlags (cpu.gprs k) (opcode &&& 0x00FF)
        (wrap32 ((cpu.gprs k : Int) - ((opcode &&& 0x00FF : Nat) : Int)))
        (_ThumbInstructionCMP1_R env k cpu opcode)
    ∧ SubtractionFlags (cpu.gprs (opcode &&& 0x0007)) (cpu.gprs ((opcode >>> 3) &&& 0x0007))
        (wrap32 ((cpu.gprs (opcode &&& 0x0007) : Int)
          - (cpu.gprs ((opcode >>> 3) &&& 0x0007) : Int)))
        (_ThumbInstructionCMP2 env cpu opcode)
    ∧ SubtractionFlags (cpu.gprs ((opcode &&& 0x0007) ||| h1))
        (cpu.gprs (((opcode >>> 3) &&& 0x0007) ||| h2))
        (wrap32 ((cpu.gprs ((opcode &&& 0x0007) ||| h1) : Int)
          - (cpu.gprs (((opcode >>> 3) &&& 0x0007) ||| h2) : Int)))
        (_ThumbInstructionCMP3 env h1 h2 cpu opcode) := by
  have hkk : k < 4294967296 := by omega
  have himm := and_255_lt opcode
  refine ⟨?_, ?_, ?_, ?_, ?_, ?_⟩
  · rw [← sub32_eq_wrap32]
    have h := THUMB_SUBTRACTION_post cpu (opcode &&& 0x0007) _ _
      (hwf ((opcode >>> 3) &&& 0x0007)) (hwf k)
    exact ⟨h.1, SubtractionFlags_congr _ _ _ _ _ rfl h.2⟩
  · rw [← sub32_eq_wrap32]
    have h := THUMB_SUBTRACTION_post cpu (opcode &&& 0x0007) _ _
      (hwf ((opcode >>> 3) &&& 0x0007)) hkk
    exact ⟨h.1, SubtractionFlags_congr _ _ _ _ _ rfl h.2⟩
  · rw [← sub32_eq_wrap32]
    have h := THUMB_SUBTRACTION_post cpu k _ _ (hwf k) himm
    exact ⟨h.1, SubtractionFlags_congr _ _ _ _ _ rfl h.2⟩
  · rw [← sub32_eq_wrap32]
    exact SubtractionFlags_congr _ _ _ _ _ rfl
      (THUMB_SUBTRACTION_S_flags cpu _ _ (hwf k) himm)
  · rw [← sub32_eq_wrap32]
    exact SubtractionFlags_congr _ _ _ _ _ rfl
      (THUMB_SUBTRACTION_S_flags cpu _ _ (hwf _) (hwf _))
  · rw [← sub32_eq_wrap32]
    exact SubtractionFlags_congr _ _ _ _ _ rfl
      (THUMB_SUBTRACTION_S_flags cpu _ _ (hwf _) (hwf _))

/-- Witness of `subtraction_pattern`: `r0 = 0x80000000`, `r1 = 1` and the
opcode `0x1A42` (`SUB r2, r0, r1`), which leaves `r2 = 0x7FFFFFFF`, `N = 0`,
`Z = 0`, `C = 1`, `V = 1`. -/
theorem subtraction_pattern_witness :
    ((∀ i, (sampleCore [0x80000000, 1] false).gprs i < 4294967296) ∧ 1 < 8)
    ∧ (_ThumbInstructionSUB3_R (sampleEnv 0x1A42) 1
          (sampleCore [0x80000000, 1] false) 0x1A42).gprs (0x1A42 &&& 0x0007)
        = wrap32 (((sampleCore [0x80000000, 1] false).gprs ((0x1A42 >>> 3) &&& 0x0007) : Int)
            - ((sampleCore [0x80000000, 1] false).gprs 1 : Int))
    ∧ (_ThumbInstructionSUB3_R (sampleEnv 0x1A42) 1
          (sampleCore [0x80000000, 1] false) 0x1A42).gprs 2 = 0x7FFFFFFF
    ∧ (_ThumbInstructionSUB3_R (sampleEnv 0x1A42) 1
          (sampleCore [0x80000000, 1] false) 0x1A42).cpsr
        = { n := false, z := false, c := true, v := true } :=
  ⟨⟨sampleCore_wf _ _ (by decide), by decide⟩,
   (subtraction_pattern (sampleEnv 0x1A42) (sampleCore [0x80000000, 1] false) 0x1A42 1 0 0
     (sampleCore_wf _ _ (by decide)) (by decide)).1.1,
   by decide, by decide⟩

/-- C7: for every state and every opcode of the logical instructions AND, EOR,
ORR, BIC, MVN, MUL and MOV1 (of destination `k`), the flags `C` and `V` after
the handler are those before it, while `N = bit31(rd)` and `Z = (rd = 0)` for
the new value of `rd`. -/
theorem logical_neutral (env : Env M) (cpu : ARMCore M) (opcode k : Nat) :
    NeutralPost cpu (opcode &&& 0x0007) (_ThumbInstructionAND env cpu opcode)
    ∧ NeutralPost cpu (opcode &&& 0x0007) (_ThumbInstructionEOR env cpu opcode)
    ∧ NeutralPost cpu (opcode &&& 0x0007) (_ThumbInstructionORR env cpu opcode)
    ∧ NeutralPost cpu (opcode &&& 0x0007) (_ThumbInstructionBIC env cpu opcode)
    ∧ NeutralPost cpu (opcode &&& 0x0007) (_ThumbInstructionMVN env cpu opcode)
    ∧ NeutralPost cpu (opcode &&& 0x0007) (_ThumbInstructionMUL env cpu opcode)
    ∧ NeutralPost cpu k (_ThumbInstructionMOV1_R env k cpu opcode) := by
  refine ⟨?_, ?_, ?_, ?_, ?_, ?_, ?_⟩ <;>
    exact NeutralPost_congr _ _ _ _ rfl rfl (THUMB_NEUTRAL_S_post cpu (setReg cpu _ _) _ rfl rfl)

/-- C8, at a failing input: `LSL r0, r1, #2` (opcode `0x0088`) with
`r1 = 0x40000000` and `C = 1` beforehand. Bit `32 - 2` of `r1` is 1 and is the
last bit shifted out, but the handler stores `r1 & (1 << 30)` into the
single-bit flag, which keeps bit 0 of that value: `C = 0` afterwards (while
`r0 = 0`, `Z = 1`, `N = 0` and `V` is unchanged, as claimed). -/
theorem LSL1_carry_lost :
    bit 0x40000000 (32 - 2) = 1
    ∧ (_ThumbInstructionLSL1_ (sampleEnv 0x0088) 2
          (sampleCore [0, 0x40000000] true) 0x0088).cpsr.c = false
    ∧ (_ThumbInstructionLSL1_ (sampleEnv 0x0088) 2
          (sampleCore [0, 0x40000000] true) 0x0088).gprs 0 = 0
    ∧ (_ThumbInstructionLSL1_ (sampleEnv 0x0088) 2
          (sampleCore [0, 0x40000000] true) 0x0088).cpsr
        = { n := false, z := true, c := false, v := false } := by
  decide

/-- C9: for every LSL1 with immediate 0 and every value `x` of `rm`:
afterwards `rd = x`, `C` and `V` are unchanged, `N = bit31(x)` and
`Z = (x = 0)`. -/
theorem LSL1_zero (env : Env M) (cpu : ARMCore M) (opcode : Nat) :
    (_ThumbInstructionLSL1_ env 0 cpu opcode).gprs (opcode &&& 0x0007)
        = cpu.gprs ((opcode >>> 3) &&& 0x0007)
    ∧ (_ThumbInstructionLSL1_ env 0 cpu opcode).cpsr.c = cpu.cpsr.c
    ∧ (_ThumbInstructionLSL1_ env 0 cpu opcode).cpsr.v = cpu.cpsr.v
    ∧ (_ThumbInstructionLSL1_ env 0 cpu opcode).cpsr.n
        = decide (bit (cpu.gprs ((opcode >>> 3) &&& 0x0007)) 31 = 1)
    ∧ (_ThumbInstructionLSL1_ env 0 cpu opcode).cpsr.z
        = decide (cpu.gprs ((opcode >>> 3) &&& 0x0007) = 0) := by
  simp [_ThumbInstructionLSL1_, DEFINE_IMMEDIATE_5_INSTRUCTION_EX_THUMB,
    DEFINE_INSTRUCTION_THUMB, THUMB_NEUTRAL_S, setReg, bitfield1_sign, bitfield1_lnot]

/-- C10, at a failing input: `LSR r0, r1, #2` (opcode `0x0888`) with `r1 = 2`
and `C = 0` beforehand. Bit `2 - 1` of `r1` is 1 and is the last bit shifted
out, but the handler stores `r1 & (1 << 1)` into the single-bit flag, which
keeps bit 0 of that value: `C = 0` afterwards (while `r0 = 0`, `Z = 1`,
`N = 0` and `V` is unchanged, as claimed). -/
theorem LSR1_carry_lost :
    bit 2 (2 - 1) = 1
    ∧ (_ThumbInstructionLSR1_ (sampleEnv 0x0888) 2
          (sampleCore [0, 2] false) 0x0888).cpsr.c = false
    ∧ (_ThumbInstructionLSR1_ (sampleEnv 0x0888) 2
          (sampleCore [0, 2] false) 0x0888).gprs 0 = 0
    ∧ (_ThumbInstructionLSR1_ (sampleEnv 0x0888) 2
          (sampleCore [0, 2] false) 0x0888).cpsr
        = { n := false, z := true, c := false, v := false } := by
  decide

/-! ## What the immediate shifts do to the carry flag -/

/-- Storing the masked word `x & (1 << j)` into a single-bit flag gives bit 0
of `x` if `j = 0` and clears the flag otherwise. -/
theorem bitfield1_and_mask (x j : Nat) :
    bitfield1 (x &&& (1 <<< j)) = (decide (j = 0) && decide (x % 2 = 1)) := by
  unfold bitfield1
  rw [Nat.one_shiftLeft]
  cases j with
  | zero => simp
  | succ j =>
    have h : ¬ ((x &&& 2 ^ (j + 1)) % 2 = 1) := by
      rw [Nat.and_mod_two_eq_one]
      intro hx
      have h2 : 2 ^ (j + 1) % 2 = 0 := by
        rw [Nat.pow_succ]
        exact Nat.mul_mod_left _ _
      omega
    simp [h]

/-- The code of LSL1 for a non-zero immediate, in full: `rd = (x << imm) mod
2^32`, `N` and `Z` from the new `rd`, `V` unchanged, and `C` cleared whatever
the bit shifted out was. -/
theorem LSL1_nonzero_code (env : Env M) (cpu : ARMCore M) (opcode imm : Nat)
    (h1 : 1 ≤ imm) (h2 : imm ≤ 31) :
    (_ThumbInstructionLSL1_ env imm cpu opcode).gprs (opcode &&& 0x0007)
        = (cpu.gprs ((opcode >>> 3) &&& 0x0007) <<< imm) % 4294967296
    ∧ (_ThumbInstructionLSL1_ env imm cpu opcode).cpsr.c = false
    ∧ (_ThumbInstructionLSL1_ env imm cpu opcode).cpsr.v = cpu.cpsr.v
    ∧ (_ThumbInstructionLSL1_ env imm cpu opcode).cpsr.n
        = decide (bit ((cpu.gprs ((opcode >>> 3) &&& 0x0007) <<< imm) % 4294967296) 31 = 1)
    ∧ (_ThumbInstructionLSL1_ env imm cpu opcode).cpsr.z
        = decide ((cpu.gprs ((opcode >>> 3) &&& 0x0007) <<< imm) % 4294967296 = 0) := by
  have hne : imm ≠ 0 := by omega
  have hj : 32 - imm ≠ 0 := by omega
  simp [_ThumbInstructionLSL1_, DEFINE_IMMEDIATE_5_INSTRUCTION_EX_THUMB,
    DEFINE_INSTRUCTION_THUMB, THUMB_NEUTRAL_S, setReg, setC, bitfield1_sign, bitfield1_lnot,
    bitfield1_and_mask, hne, hj, u32]

/-- The code of LSR1 for a non-zero immediate, in full: `rd = x >> imm`
(zero-fill), `N` and `Z` from the new `rd`, `V` unchanged, and `C` is bit 0 of
`x` if `imm = 1` and cleared otherwise. -/
theorem LSR1_nonzero_code (env : Env M) (cpu : ARMCore M) (opcode imm : Nat)
    (h1 : 1 ≤ imm) :
    (_ThumbInstructionLSR1_ env imm cpu opcode).gprs (opcode &&& 0x0007)
        = (cpu.gprs ((opcode >>> 3) &&& 0x0007) % 4294967296) >>> imm
    ∧ (_ThumbInstructionLSR1_ env imm cpu opcode).cpsr.c
        = (decide (imm = 1) && decide (cpu.gprs ((opcode >>> 3) &&& 0x0007) % 2 = 1))
    ∧ (_ThumbInstructionLSR1_ env imm cpu opcode).cpsr.v = cpu.cpsr.v
    ∧ (_ThumbInstructionLSR1_ env imm cpu opcode).cpsr.n
        = decide (bit ((cpu.gprs ((opcode >>> 3) &&& 0x0007) % 4294967296) >>> imm) 31 = 1)
    ∧ (_ThumbInstructionLSR1_ env imm cpu opcode).cpsr.z
        = decide ((cpu.gprs ((opcode >>> 3) &&& 0x0007) % 4294967296) >>> imm = 0) := by
  have hne : imm ≠ 0 := by omega
  have hj : (imm - 1 = 0) = (imm = 1) := by
    apply propext
    omega
  simp [_ThumbInstructionLSR1_, DEFINE_IMMEDIATE_5_INSTRUCTION_EX_THUMB,
    DEFINE_INSTRUCTION_THUMB, THUMB_NEUTRAL_S, setReg, setC, bitfield1_sign, bitfield1_lnot,
    bitfield1_and_mask, hne, hj, u32]

/-! ## The PC across a step -/

/-- A write to a register other than `j` leaves register `j` as it is. -/
theorem setReg_gprs_ne (cpu : ARMCore M) (i v j : Nat) (h : j ≠ i) :
    (setReg cpu i v).gprs j = cpu.gprs j := by
  simp [setReg, h]

/-- A 3-bit register field is not the PC. -/
theorem pc_ne_and7 (x : Nat) : ARM_PC ≠ x &&& 0x0007 := by
  have h : x &&& 0x0007 ≤ 7 := Nat.and_le_right
  unfold ARM_PC
  omega

/-- A property of the loop state that every iteration with `i < 8` keeps
holds after the ascending loop. -/
theorem loopUp_invariant {σ : Type} (P : σ → Prop) (step : Nat → Nat → σ → σ)
    (hstep : ∀ m i s, i < 8 → P s → P (step m i s)) :
    ∀ (fuel m i : Nat) (s : σ), P s → P (loopUp step fuel m i s) := by
  intro fuel
  induction fuel with
  | zero => intro m i s hs; exact hs
  | succ fuel ih =>
    intro m i s hs
    unfold loopUp
    split
    · rename_i hi
      exact ih _ _ _ (hstep m i s hi hs)
    · exact hs

/-- A property of the loop state that every iteration with `i ≤ 7` keeps
holds after the descending loop started at an `i ≤ 7`. -/
theorem loopDown_invariant {σ : Type} (P : σ → Prop) (step : Nat → Nat → σ → σ)
    (hstep : ∀ m i s, i ≤ 7 → P s → P (step m i s)) :
    ∀ (fuel m i : Nat) (s : σ), i ≤ 7 → P s → P (loopDown step fuel m i s) := by
  intro fuel
  induction fuel with
  | zero => intro m i s _ hs; exact hs
  | succ fuel ih =>
    intro m i s hi hs
    unfold loopDown
    split
    · exact ih _ _ _ (by omega) (hstep m i s hi hs)
    · exact hs

/-- The loop of a block transfer whose body is a load or a store of register
`i` leaves the PC as it is. -/
theorem transfer_loop_pc (rs : Nat) (OP : Nat → Nat → Nat)
    (BODY : Nat → Transfer M → ARMCore M)
    (hbody : ∀ i t, i ≤ 7 → (BODY i t).gprs ARM_PC = t.cpu.gprs ARM_PC)
    (t : Transfer M) :
    (LOOP_UP (fun m i t =>
        if rs &&& m ≠ 0 then { cpu := BODY i t, address := OP t.address 4 } else t) t).cpu.gprs
          ARM_PC = t.cpu.gprs ARM_PC
    ∧ (LOOP_DOWN (fun m i t =>
        if rs &&& m ≠ 0 then { cpu := BODY i t, address := OP t.address 4 } else t) t).cpu.gprs
          ARM_PC = t.cpu.gprs ARM_PC := by
  have hstep : ∀ (m i : Nat) (s : Transfer M), i ≤ 7 →
      s.cpu.gprs ARM_PC = t.cpu.gprs ARM_PC →
      (if rs &&& m ≠ 0 then ({ cpu := BODY i s, address := OP s.address 4 } : Transfer M)
        else s).cpu.gprs ARM_PC = t.cpu.gprs ARM_PC := by
    intro m i s hi hs
    split
    · show (BODY i s).gprs ARM_PC = _
      rw [hbody i s hi, hs]
    · exact hs
  constructor
  · exact loopUp_invariant (fun s => s.cpu.gprs ARM_PC = t.cpu.gprs ARM_PC) _
      (fun m i s hi hs => hstep m i s (by omega) hs) 9 0x01 0 t rfl
  · exact loopDown_invariant (fun s => s.cpu.gprs ARM_PC = t.cpu.gprs ARM_PC) _
      hstep 9 0x80 7 t (by omega) rfl

/-- The load body of a block transfer writes only register `i`. -/
theorem loadBody_pc (env : Env M) (i : Nat) (t : Transfer M) (hi : i ≤ 7) :
    (loadBody env i t).gprs ARM_PC = t.cpu.gprs ARM_PC := by
  unfold loadBody
  rw [setReg_gprs_ne]
  unfold ARM_PC
  omega

/-- The store body of a block transfer writes no register. -/
theorem storeBody_pc (env : Env M) (i : Nat) (t : Transfer M) (_hi : i ≤ 7) :
    (storeBody env i t).gprs ARM_PC = t.cpu.gprs ARM_PC := rfl

/-- The registers after a handler built with `DEFINE_INSTRUCTION_THUMB` are
those after its body. -/
theorem DEFINE_INSTRUCTION_THUMB_gprs (env : Env M) (BODY : ARMCore M → Nat → ARMCore M)
    (cpu : ARMCore M) (opcode : Nat) :
    (DEFINE_INSTRUCTION_THUMB env BODY cpu opcode).gprs = (BODY cpu opcode).gprs := rfl

/-- A block-transfer handler whose loop body is a load or a store and whose
pre-body, post-body and write-back leave the PC as it is leaves the PC as it
is. -/
theorem DEFINE_LOAD_STORE_MULTIPLE_EX_THUMB_pc (env : Env M) (RS : Nat → Nat)
    (ADDRESS : ARMCore M → Nat → Nat)
    (BODY : Nat → Transfer M → ARMCore M) (OP : Nat → Nat → Nat)
    (PRE_BODY POST_BODY : Transfer M → Transfer M)
    (WRITEBACK : Nat → Nat → Transfer M → ARMCore M) (cpu : ARMCore M) (opcode : Nat)
    (hbody : ∀ i t, i ≤ 7 → (BODY i t).gprs ARM_PC = t.cpu.gprs ARM_PC)
    (hpre : ∀ t, (PRE_BODY t).cpu.gprs ARM_PC = t.cpu.gprs ARM_PC)
    (hpost : ∀ t, (POST_BODY t).cpu.gprs ARM_PC = t.cpu.gprs ARM_PC)
    (hwb : ∀ t, (WRITEBACK ((opcode >>> 8) &&& 0x000F) (RS opcode) t).gprs ARM_PC
      = t.cpu.gprs ARM_PC) :
    (DEFINE_LOAD_STORE_MULTIPLE_EX_THUMB env RS ADDRESS LOOP_UP BODY OP PRE_BODY POST_BODY
        WRITEBACK cpu opcode).gprs ARM_PC = cpu.gprs ARM_PC
    ∧ (DEFINE_LOAD_STORE_MULTIPLE_EX_THUMB env RS ADDRESS LOOP_DOWN BODY OP PRE_BODY POST_BODY
        WRITEBACK cpu opcode).gprs ARM_PC = cpu.gprs ARM_PC := by
  constructor
  · unfold DEFINE_LOAD_STORE_MULTIPLE_EX_THUMB
    rw [DEFINE_INSTRUCTION_THUMB_gprs]
    simp only []
    rw [hwb, hpost, (transfer_loop_pc _ OP BODY hbody _).1, hpre]
  · unfold DEFINE_LOAD_STORE_MULTIPLE_EX_THUMB
    rw [DEFINE_INSTRUCTION_THUMB_gprs]
    simp only []
    rw [hwb, hpost, (transfer_loop_pc _ OP BODY hbody _).2, hpre]

/-- The PC is not a register below `r8`. -/
theorem pc_eq_low (k : Nat) (h : k < 8) : (ARM_PC = k) = False := by
  apply eq_false
  unfold ARM_PC
  omega

/-- The block transfers leave the PC as it is, LDMIA and STMIA if their base
index is not 15. -/
theorem block_transfer_pc (env : Env M) (cpu : ARMCore M) (opcode k : Nat) :
    ((opcode >>> 8) &&& 0x000F ≠ ARM_PC →
      (_ThumbInstructionLDMIA_R env k cpu opcode).gprs ARM_PC = cpu.gprs ARM_PC)
    ∧ ((opcode >>> 8) &&& 0x000F ≠ ARM_PC →
      (_ThumbInstructionSTMIA_R env k cpu opcode).gprs ARM_PC = cpu.gprs ARM_PC)
    ∧ (_ThumbInstructionPOP env cpu opcode).gprs ARM_PC = cpu.gprs ARM_PC
    ∧ (_ThumbInstructionPUSH env cpu opcode).gprs ARM_PC = cpu.gprs ARM_PC
    ∧ (_ThumbInstructionPUSHR env cpu opcode).gprs ARM_PC = cpu.gprs ARM_PC := by
  have hsp : ARM_PC ≠ ARM_SP := by decide
  refine ⟨fun hb => ?_, fun hb => ?_, ?_, ?_, ?_⟩
  · unfold _ThumbInstructionLDMIA_R DEFINE_LOAD_STORE_MULTIPLE_THUMB
    refine (DEFINE_LOAD_STORE_MULTIPLE_EX_THUMB_pc env _ _ _ _ _ _ _ cpu opcode
      (loadBody_pc env) (fun _ => rfl) (fun _ => rfl) ?_).1
    intro t
    show (if _ then _ else _ : ARMCore M).gprs ARM_PC = _
    split
    · exact setReg_gprs_ne _ _ _ _ (Ne.symm hb)
    · rfl
  · unfold _ThumbInstructionSTMIA_R DEFINE_LOAD_STORE_MULTIPLE_THUMB
    refine (DEFINE_LOAD_STORE_MULTIPLE_EX_THUMB_pc env _ _ _ _ _ _ _ cpu opcode
      (storeBody_pc env) (fun _ => rfl) (fun _ => rfl) ?_).1
    intro t
    exact setReg_gprs_ne _ _ _ _ (Ne.symm hb)
  · unfold _ThumbInstructionPOP
    refine (DEFINE_LOAD_STORE_MULTIPLE_EX_THUMB_pc env _ _ _ _ _ _ _ cpu opcode
      (loadBody_pc env) (fun _ => rfl) (fun _ => rfl) ?_).1
    intro t
    exact setReg_gprs_ne _ _ _ _ hsp
  · unfold _ThumbInstructionPUSH
    refine (DEFINE_LOAD_STORE_MULTIPLE_EX_THUMB_pc env _ _ _ _ _ _ _ cpu opcode
      (storeBody_pc env) (fun _ => rfl) (fun _ => rfl) ?_).2
    intro t
    exact setReg_gprs_ne _ _ _ _ hsp
  · unfold _ThumbInstructionPUSHR
    refine (DEFINE_LOAD_STORE_MULTIPLE_EX_THUMB_pc env _ _ _ _ _ _ _ cpu opcode
      (storeBody_pc env) ?_ ?_ ?_).2
    · intro t
      rfl
    · intro t
      rfl
    · intro t
      exact setReg_gprs_ne _ _ _ _ hsp

/-- Every handler that is neither one of the excepted PC-writing handlers nor
a block transfer with base index 15 leaves the PC as it finds it. -/
theorem run_keeps_pc (env : Env M) (instruction : ThumbInstruction) (cpu : ARMCore M)
    (opcode : Nat) (hl : instruction.lowConstant = true)
    (hw : writesPC instruction opcode cpu = false)
    (hb : baseIsPC instruction opcode = false) :
    (instruction.run env cpu opcode).gprs ARM_PC = cpu.gprs ARM_PC := by
  have h7 := pc_ne_and7 opcode
  have hsp : ARM_PC ≠ ARM_SP := by decide
  have hlr : ARM_PC ≠ ARM_LR := by decide
  cases instruction <;>
    simp only [writesPC, baseIsPC, ThumbInstruction.lowConstant, decide_eq_true_eq,
      decide_eq_false_iff_not, Bool.true_eq_false, Bool.false_eq_true] at hl hw hb <;>
    simp only [ThumbInstruction.run]
  case LDMIA_R k => exact (block_transfer_pc env cpu opcode k).1 hb
  case STMIA_R k => exact (block_transfer_pc env cpu opcode k).2.1 hb
  case POP => exact (block_transfer_pc env cpu opcode 0).2.2.1
  case PUSH => exact (block_transfer_pc env cpu opcode 0).2.2.2.1
  case PUSHR => exact (block_transfer_pc env cpu opcode 0).2.2.2.2
  case ADD4 h1 h2 =>
    exact setReg_gprs_ne _ _ _ _ (Ne.symm hw)
  case MOV3 h1 h2 =>
    exact setReg_gprs_ne _ _ _ _ (Ne.symm hw)
  all_goals
    simp [_ThumbInstructionLSL1_, _ThumbInstructionLSR1_, _ThumbInstructionASR1_,
      _ThumbInstructionLDR1_, _ThumbInstructionLDRB1_, _ThumbInstructionLDRH1_,
      _ThumbInstructionSTR1_, _ThumbInstructionSTRB1_, _ThumbInstructionSTRH1_,
      _ThumbInstructionADD3_R, _ThumbInstructionSUB3_R, _ThumbInstructionADD1_,
      _ThumbInstructionSUB1_, _ThumbInstructionADD2_R, _ThumbInstructionCMP1_R,
      _ThumbInstructionMOV1_R, _ThumbInstructionSUB2_R, _ThumbInstructionAND,
      _ThumbInstructionEOR, _ThumbInstructionLSR2, _ThumbInstructionASR2,
      _ThumbInstructionNEG, _ThumbInstructionCMP2, _ThumbInstructionORR,
      _ThumbInstructionMUL, _ThumbInstructionBIC, _ThumbInstructionMVN,
      _ThumbInstructionCMP3, _ThumbInstructionLDR3_R, _ThumbInstructionLDR4_R,
      _ThumbInstructionSTR3_R, _ThumbInstructionADD6_R, _ThumbInstructionLDRB2_R,
      _ThumbInstructionLDRH2_R, _ThumbInstructionLDRSB_R, _ThumbInstructionLDRSH_R,
      _ThumbInstructionBEQ, _ThumbInstructionBNE, _ThumbInstructionBCS, _ThumbInstructionBCC,
      _ThumbInstructionBMI, _ThumbInstructionBPL, _ThumbInstructionBVS, _ThumbInstructionBVC,
      _ThumbInstructionBLS, _ThumbInstructionBHI, _ThumbInstructionBGE, _ThumbInstructionBLT,
      _ThumbInstructionBGT, _ThumbInstructionBLE, _ThumbInstructionADD7, _ThumbInstructionSUB4,
      _ThumbInstructionBL1,
      DEFINE_IMMEDIATE_5_INSTRUCTION_EX_THUMB, DEFINE_DATA_FORM_1_INSTRUCTION_EX_THUMB,
      DEFINE_DATA_FORM_2_INSTRUCTION_EX_THUMB, DEFINE_DATA_FORM_3_INSTRUCTION_EX_THUMB,
      DEFINE_DATA_FORM_5_INSTRUCTION_THUMB, DEFINE_INSTRUCTION_WITH_HIGH_EX_THUMB,
      DEFINE_IMMEDIATE_WITH_REGISTER_EX_THUMB, DEFINE_LOAD_STORE_WITH_REGISTER_EX_THUMB,
      DEFINE_CONDITIONAL_BRANCH_THUMB, DEFINE_INSTRUCTION_THUMB,
      THUMB_NEUTRAL_S, THUMB_ADDITION, THUMB_ADDITION_S, THUMB_SUBTRACTION,
      THUMB_SUBTRACTION_S, setC, setReg, h7, hsp, hlr, pc_eq_low, hl, hw,
      apply_ite ARMCore.gprs, ite_apply]

/-- A 3-bit field is below 8. -/
theorem and7_lt (x : Nat) : x &&& 0x7 < 8 :=
  Nat.lt_of_le_of_lt Nat.and_le_right (by decide)

/-- The destination register built into a decoded specialisation is low. -/
theorem specDecode_lowConstant (opcode : Nat) : (specDecode opcode).lowConstant = true := by
  have h := and7_lt (opcode >>> 8)
  unfold specDecode
  simp only []
  repeat' split
  all_goals simp [ThumbInstruction.lowConstant, h]

/-- The claim on the next-instruction PC, on the handlers where the code
satisfies it: if the handler that a step dispatches to is none of the
excepted PC-writing handlers, and is not a block transfer whose base index
`(opcode >> 8) & 0xF` is 15, then after `ThumbStep` the PC is its pre-step
value plus 2 (mod 2^32). -/
theorem ThumbStep_pc_next (env : Env M) (cpu : ARMCore M)
    (hp : cpu.gprs ARM_PC < 4294967296)
    (hw : writesPC
        (specDecode (env.memory.activeRegion cpu.memory
          ((sub32 (cpu.gprs ARM_PC) 2 &&& env.memory.activeMask cpu.memory) >>> 1) % 65536))
        (env.memory.activeRegion cpu.memory
          ((sub32 (cpu.gprs ARM_PC) 2 &&& env.memory.activeMask cpu.memory) >>> 1) % 65536)
        (setReg cpu ARM_PC (add32 (cpu.gprs ARM_PC) 2)) = false)
    (hb : baseIsPC
        (specDecode (env.memory.activeRegion cpu.memory
          ((sub32 (cpu.gprs ARM_PC) 2 &&& env.memory.activeMask cpu.memory) >>> 1) % 65536))
        (env.memory.activeRegion cpu.memory
          ((sub32 (cpu.gprs ARM_PC) 2 &&& env.memory.activeMask cpu.memory) >>> 1) % 65536)
        = false) :
    (ThumbStep env cpu).map (fun post => post.gprs ARM_PC)
      = some (add32 (cpu.gprs ARM_PC) 2) := by
  have hlt : env.memory.activeRegion cpu.memory
      ((sub32 (cpu.gprs ARM_PC) 2 &&& env.memory.activeMask cpu.memory) >>> 1) % 65536
        < 65536 := Nat.mod_lt _ (by decide)
  have hu : u32 (cpu.gprs ARM_PC) = cpu.gprs ARM_PC := Nat.mod_eq_of_lt hp
  have hm : (setReg cpu ARM_PC (add32 (cpu.gprs ARM_PC) 2)).memory = cpu.memory := rfl
  unfold ThumbStep
  simp only [hu, WORD_SIZE_THUMB]
  rw [hm, thumbTable_getElem? _ (opcode_index_lt _ hlt), specDecode_high_bits]
  simp only [Option.map_some', Option.some.injEq]
  rw [run_keeps_pc env _ _ _ (specDecode_lowConstant _) hw hb]
  simp [setReg]

/-! ## LSR1 and ASR1 -/

/-- C11: for every LSR1 with immediate 0 and every value `x` of `rm`:
afterwards `rd = 0`, `C = bit31(x)`, `Z = 1`, `N = 0`, and `V` is unchanged. -/
theorem LSR1_zero (env : Env M) (cpu : ARMCore M) (opcode : Nat) :
    (_ThumbInstructionLSR1_ env 0 cpu opcode).gprs (opcode &&& 0x0007) = 0
    ∧ (_ThumbInstructionLSR1_ env 0 cpu opcode).cpsr.c
        = decide (bit (cpu.gprs ((opcode >>> 3) &&& 0x0007)) 31 = 1)
    ∧ (_ThumbInstructionLSR1_ env 0 cpu opcode).cpsr.z = true
    ∧ (_ThumbInstructionLSR1_ env 0 cpu opcode).cpsr.n = false
    ∧ (_ThumbInstructionLSR1_ env 0 cpu opcode).cpsr.v = cpu.cpsr.v := by
  simp [_ThumbInstructionLSR1_, DEFINE_IMMEDIATE_5_INSTRUCTION_EX_THUMB,
    DEFINE_INSTRUCTION_THUMB, THUMB_NEUTRAL_S, setReg, setC, bitfield1_sign, bitfield1_lnot, bit]

/-- The sign-filling shift is the floor of the signed value divided by `2^k`,
as a 32-bit word. -/
theorem asr32_eq_floor (x k : Nat) : asr32 x k = wrap32 (toInt32 x / 2 ^ k) := by
  unfold asr32
  rw [Int.shiftRight_eq_div_pow]
  push_cast
  rfl

/-- The code of ASR1 for immediate 0, in full: `C = bit31(x)`, `rd` is
`0xFFFFFFFF` if bit 31 of `x` is set and 0 otherwise, `N` and `Z` from the new
`rd`, `V` unchanged. -/
theorem ASR1_zero_code (env : Env M) (cpu : ARMCore M) (opcode : Nat) :
    (_ThumbInstructionASR1_ env 0 cpu opcode).gprs (opcode &&& 0x0007)
        = (if bit (cpu.gprs ((opcode >>> 3) &&& 0x0007)) 31 = 1 then 0xFFFFFFFF else 0)
    ∧ (_ThumbInstructionASR1_ env 0 cpu opcode).cpsr.c
        = decide (bit (cpu.gprs ((opcode >>> 3) &&& 0x0007)) 31 = 1)
    ∧ (_ThumbInstructionASR1_ env 0 cpu opcode).cpsr.v = cpu.cpsr.v
    ∧ (_ThumbInstructionASR1_ env 0 cpu opcode).cpsr.n
        = decide (bit (cpu.gprs ((opcode >>> 3) &&& 0x0007)) 31 = 1)
    ∧ (_ThumbInstructionASR1_ env 0 cpu opcode).cpsr.z
        = decide (¬ bit (cpu.gprs ((opcode >>> 3) &&& 0x0007)) 31 = 1) := by
  by_cases h : bit (cpu.gprs ((opcode >>> 3) &&& 0x0007)) 31 = 1 <;>
    simp [_ThumbInstructionASR1_, DEFINE_IMMEDIATE_5_INSTRUCTION_EX_THUMB,
      DEFINE_INSTRUCTION_THUMB, THUMB_NEUTRAL_S, setReg, setC, bitfield1_sign, bitfield1_lnot, h]
    <;> decide

/-- The code of ASR1 for a non-zero immediate, in full: `rd` is the floor of
the signed value of `x` divided by `2^imm`, `N` and `Z` from the new `rd`, `V`
unchanged, and `C` is bit 0 of `x` if `imm = 1` and cleared otherwise. -/
theorem ASR1_nonzero_code (env : Env M) (cpu : ARMCore M) (opcode imm : Nat)
    (h1 : 1 ≤ imm) :
    (_ThumbInstructionASR1_ env imm cpu opcode).gprs (opcode &&& 0x0007)
        = wrap32 (toInt32 (cpu.gprs ((opcode >>> 3) &&& 0x0007)) / 2 ^ imm)
    ∧ (_ThumbInstructionASR1_ env imm cpu opcode).cpsr.c
        = (decide (imm = 1) && decide (cpu.gprs ((opcode >>> 3) &&& 0x0007) % 2 = 1))
    ∧ (_ThumbInstructionASR1_ env imm cpu opcode).cpsr.v = cpu.cpsr.v
    ∧ (_ThumbInstructionASR1_ env imm cpu opcode).cpsr.n
        = decide (bit (wrap32 (toInt32 (cpu.gprs ((opcode >>> 3) &&& 0x0007)) / 2 ^ imm)) 31 = 1)
    ∧ (_ThumbInstructionASR1_ env imm cpu opcode).cpsr.z
        = decide (wrap32 (toInt32 (cpu.gprs ((opcode >>> 3) &&& 0x0007)) / 2 ^ imm) = 0) := by
  have hne : imm ≠ 0 := by omega
  have hj : (imm - 1 = 0) = (imm = 1) := by
    apply propext
    omega
  simp [_ThumbInstructionASR1_, DEFINE_IMMEDIATE_5_INSTRUCTION_EX_THUMB,
    DEFINE_INSTRUCTION_THUMB, THUMB_NEUTRAL_S, setReg, setC, bitfield1_sign, bitfield1_lnot,
    bitfield1_and_mask, hne, hj, asr32_eq_floor]

/-- C12, at a failing input: `ASR r0, r1, #2` (opcode `0x1088`) with `r1 = 2`
and `C = 0` beforehand. Bit `2 - 1` of `r1` is 1 and is the last bit shifted
out, but the handler stores `r1 & (1 << 1)` into the single-bit flag, which
keeps bit 0 of that value: `C = 0` afterwards (while `r0 = 0`, `Z = 1`,
`N = 0` and `V` is unchanged, as claimed). -/
theorem ASR1_carry_lost :
    bit 2 (2 - 1) = 1
    ∧ (_ThumbInstructionASR1_ (sampleEnv 0x1088) 2
          (sampleCore [0, 2] false) 0x1088).cpsr.c = false
    ∧ (_ThumbInstructionASR1_ (sampleEnv 0x1088) 2
          (sampleCore [0, 2] false) 0x1088).gprs 0 = 0
    ∧ (_ThumbInstructionASR1_ (sampleEnv 0x1088) 2
          (sampleCore [0, 2] false) 0x1088).cpsr
        = { n := false, z := true, c := false, v := false } := by
  decide

/-! ## Block transfers: theorems -/

/-- The descending loop is a fold over the registers `r7 .. r0` with the
masks `2^i`. -/
theorem LOOP_DOWN_foldl {σ : Type} (step : Nat → Nat → σ → σ) (s : σ) :
    LOOP_DOWN step s = [7, 6, 5, 4, 3, 2, 1, 0].foldl (fun t i => step (2 ^ i) i t) s := rfl

/-- The ascending loop is a fold over the registers `r0 .. r7` with the masks
`2^i`. -/
theorem LOOP_UP_foldl {σ : Type} (step : Nat → Nat → σ → σ) (s : σ) :
    LOOP_UP step s = [0, 1, 2, 3, 4, 5, 6, 7].foldl (fun t i => step (2 ^ i) i t) s := rfl

/-- A fold over a filtered list is a fold with a guarded step. -/
theorem foldl_filter_guard {α β : Type} (p : α → Bool) (f : β → α → β) (l : List α)
    (init : β) :
    (l.filter p).foldl f init = l.foldl (fun x y => if p y = true then f x y else x) init := by
  induction l generalizing init with
  | nil => rfl
  | cons y rest ih =>
    by_cases h : p y = true
    · rw [List.filter_cons_of_pos h, List.foldl_cons, List.foldl_cons, if_pos h, ih]
    · rw [List.filter_cons_of_neg h, List.foldl_cons, if_neg h, ih]

/-- The test `rs & m` of the loop body, for the mask `m = 2^i`, is the test of
bit `i` of `rs`. -/
theorem and_two_pow_ne_zero (rs i : Nat) : rs &&& 2 ^ i ≠ 0 ↔ rs.testBit i = true := by
  constructor
  · intro h
    by_contra hb
    apply h
    apply Nat.eq_of_testBit_eq
    intro j
    rw [Nat.testBit_and, Nat.testBit_two_pow, Nat.zero_testBit]
    by_cases hij : i = j
    · subst hij
      simp [hb]
    · simp [hij]
  · intro h h0
    have h1 : (rs &&& 2 ^ i).testBit i = true := by
      rw [Nat.testBit_and, Nat.testBit_two_pow_self, h]
      rfl
    rw [h0, Nat.zero_testBit] at h1
    exact Bool.noConfusion h1

/-- The conditional of the loop body for the mask `m = 2^i`. -/
theorem ite_mask {α : Type} (rs m i : Nat) (hm : m = 2 ^ i) (a b : α) :
    (if rs &&& m ≠ 0 then a else b) = (if rs.testBit i = true then a else b) := by
  subst hm
  by_cases h : rs.testBit i = true
  · rw [if_pos h, if_pos ((and_two_pow_ne_zero rs i).2 h)]
  · rw [if_neg h, if_neg (fun h2 => h ((and_two_pow_ne_zero rs i).1 h2))]

/-- The step of a loop with a body guarded by `rs & m`, at the mask `2^i`. -/
theorem guarded_step {σ : Type} (rs : Nat) (f : Nat → σ → σ) :
    (fun (t : σ) (i : Nat) =>
        (fun m i t => if rs &&& m ≠ 0 then f i t else t) (2 ^ i) i t)
      = (fun t i => if (fun i => rs.testBit i) i = true then (fun t i => f i t) t i else t) := by
  funext t i
  exact ite_mask rs (2 ^ i) i rfl _ _

/-- The descending loop with a body guarded by `rs & m` runs the body on the
registers listed in `rs`, highest first. -/
theorem LOOP_DOWN_listed {σ : Type} (rs : Nat) (f : Nat → σ → σ) (s : σ) :
    LOOP_DOWN (fun m i t => if rs &&& m ≠ 0 then f i t else t) s
      = (listedDown rs).foldl (fun t i => f i t) s := by
  rw [LOOP_DOWN_foldl, guarded_step]
  unfold listedDown
  rw [foldl_filter_guard]

/-- The ascending loop with a body guarded by `rs & m` runs the body on the
registers listed in `rs`, lowest first. -/
theorem LOOP_UP_listed {σ : Type} (rs : Nat) (f : Nat → σ → σ) (s : σ) :
    LOOP_UP (fun m i t => if rs &&& m ≠ 0 then f i t else t) s
      = (listedUp rs).foldl (fun t i => f i t) s := by
  rw [LOOP_UP_foldl, guarded_step]
  unfold listedUp
  rw [foldl_filter_guard]

/-- A block transfer with the descending loop, with the loop as a fold over
the listed registers. -/
theorem DEFINE_LOAD_STORE_MULTIPLE_EX_THUMB_down (env : Env M) (RS : Nat → Nat)
    (ADDRESS : ARMCore M → Nat → Nat) (BODY : Nat → Transfer M → ARMCore M)
    (OP : Nat → Nat → Nat) (PRE_BODY POST_BODY : Transfer M → Transfer M)
    (WRITEBACK : Nat → Nat → Transfer M → ARMCore M) (cpu : ARMCore M) (opcode : Nat) :
    DEFINE_LOAD_STORE_MULTIPLE_EX_THUMB env RS ADDRESS LOOP_DOWN BODY OP PRE_BODY POST_BODY
        WRITEBACK cpu opcode
      = DEFINE_INSTRUCTION_THUMB env (fun cpu opcode =>
          WRITEBACK ((opcode >>> 8) &&& 0x000F) (RS opcode)
            (POST_BODY ((listedDown (RS opcode)).foldl
              (fun t i => { cpu := BODY i t, address := OP t.address 4 })
              (PRE_BODY { cpu := cpu, address := u32 (ADDRESS cpu ((opcode >>> 8) &&& 0x000F)) }))))
          cpu opcode := by
  unfold DEFINE_LOAD_STORE_MULTIPLE_EX_THUMB
  simp only [LOOP_DOWN_listed]

/-- A block transfer with the ascending loop, with the loop as a fold over the
listed registers. -/
theorem DEFINE_LOAD_STORE_MULTIPLE_EX_THUMB_up (env : Env M) (RS : Nat → Nat)
    (ADDRESS : ARMCore M → Nat → Nat) (BODY : Nat → Transfer M → ARMCore M)
    (OP : Nat → Nat → Nat) (PRE_BODY POST_BODY : Transfer M → Transfer M)
    (WRITEBACK : Nat → Nat → Transfer M → ARMCore M) (cpu : ARMCore M) (opcode : Nat) :
    DEFINE_LOAD_STORE_MULTIPLE_EX_THUMB env RS ADDRESS LOOP_UP BODY OP PRE_BODY POST_BODY
        WRITEBACK cpu opcode
      = DEFINE_INSTRUCTION_THUMB env (fun cpu opcode =>
          WRITEBACK ((opcode >>> 8) &&& 0x000F) (RS opcode)
            (POST_BODY ((listedUp (RS opcode)).foldl
              (fun t i => { cpu := BODY i t, address := OP t.address 4 })
              (PRE_BODY { cpu := cpu, address := u32 (ADDRESS cpu ((opcode >>> 8) &&& 0x000F)) }))))
          cpu opcode := by
  unfold DEFINE_LOAD_STORE_MULTIPLE_EX_THUMB
  simp only [LOOP_UP_listed]

/-- The stores of a descending block transfer over a list of registers: the
memory is that of `storesDown`, nothing else in the CPU record changes, and
the address ends `4 * length` below its start. -/
theorem store_fold_down (env : Env M) (regs : List Nat) (t : Transfer M) :
    (regs.foldl (fun t i =>
        ({ cpu := storeBody env i t, address := sub32 t.address 4 } : Transfer M)) t).cpu
      = { t.cpu with
          memory := storesDown env.memory t.cpu.gprs regs t.address t.cpu.memory }
    ∧ u32 (regs.foldl (fun t i =>
        ({ cpu := storeBody env i t, address := sub32 t.address 4 } : Transfer M)) t).address
      = sub32 t.address (4 * regs.length) := by
  induction regs generalizing t with
  | nil =>
    constructor
    · rfl
    · simp only [List.foldl_nil, List.length_nil, u32, sub32]
      omega
  | cons i rest ih =>
    have h := ih { cpu := storeBody env i t, address := sub32 t.address 4 }
    rw [List.foldl_cons]
    constructor
    · rw [h.1]
      rfl
    · rw [h.2]
      simp only [List.length_cons, sub32]
      omega

/-- The state after PUSH: the memory after the descending stores of the
listed registers from `s - 4`, the SP lowered by `4 * |L|`, the cycles
charged, and nothing else changed. -/
theorem PUSH_eq (env : Env M) (cpu : ARMCore M) (opcode : Nat) :
    _ThumbInstructionPUSH env cpu opcode
      = { gprs := fun j =>
            if j = ARM_SP then
              sub32 (cpu.gprs ARM_SP) (4 * (listedDown (opcode &&& 0x00FF)).length)
            else cpu.gprs j
          cpsr := cpu.cpsr
          cycles := cpu.cycles + (1 + env.memory.activePrefetchCycles16
            (storesDown env.memory cpu.gprs (listedDown (opcode &&& 0x00FF))
              (sub32 (cpu.gprs ARM_SP) 4) cpu.memory))
          executionMode := cpu.executionMode
          memory := storesDown env.memory cpu.gprs (listedDown (opcode &&& 0x00FF))
            (sub32 (cpu.gprs ARM_SP) 4) cpu.memory } := by
  have h := store_fold_down env (listedDown (opcode &&& 0x00FF))
    { cpu := cpu, address := u32 (sub32 (cpu.gprs ARM_SP) 4) }
  have hu : u32 (sub32 (cpu.gprs ARM_SP) 4) = sub32 (cpu.gprs ARM_SP) 4 := by
    simp only [u32, sub32]
    omega
  rw [hu] at h
  have h2 : add32 ((listedDown (opcode &&& 0x00FF)).foldl (fun t i =>
        ({ cpu := storeBody env i t, address := sub32 t.address 4 } : Transfer M))
        { cpu := cpu, address := sub32 (cpu.gprs ARM_SP) 4 }).address 4
      = sub32 (cpu.gprs ARM_SP) (4 * (listedDown (opcode &&& 0x00FF)).length) := by
    have h3 := h.2
    simp only [u32, sub32, add32] at h3 ⊢
    omega
  unfold _ThumbInstructionPUSH
  rw [DEFINE_LOAD_STORE_MULTIPLE_EX_THUMB_down]
  simp only [DEFINE_INSTRUCTION_THUMB, id, hu, setReg, h.1, h2]

/-- C13: for every PUSH with register list `L` (opcode bits 7..0) and initial
stack pointer `s`: the memory afterwards is the memory before with the listed
registers stored by 32-bit stores in the order `r7` down to `r0` at the
addresses `s - 4`, `s - 8`, ... and nothing else stored; no register other
than SP changes (nor the flags); the final SP is `s - 4 * |L|`. -/
theorem PUSH_stores (env : Env M) (cpu : ARMCore M) (opcode : Nat) :
    (_ThumbInstructionPUSH env cpu opcode).memory
      = storesDown env.memory cpu.gprs (listedDown (opcode &&& 0x00FF))
          (sub32 (cpu.gprs ARM_SP) 4) cpu.memory
    ∧ (∀ i, i ≠ ARM_SP → (_ThumbInstructionPUSH env cpu opcode).gprs i = cpu.gprs i)
    ∧ (_ThumbInstructionPUSH env cpu opcode).gprs ARM_SP
      = sub32 (cpu.gprs ARM_SP) (4 * (listedDown (opcode &&& 0x00FF)).length)
    ∧ (_ThumbInstructionPUSH env cpu opcode).cpsr = cpu.cpsr := by
  rw [PUSH_eq]
  refine ⟨rfl, ?_, ?_, rfl⟩
  · intro i hi
    exact if_neg hi
  · simp only [if_true]

/-- C17, as amended: for every PUSHR with register list `L` and initial stack
pointer `s`: LR is stored first, at the highest address `s - 4`, and the
registers of `L` are then stored below it in the order `r7` down to `r0` at
`s - 8`, `s - 12`, ...; nothing else is stored, no register other than SP
changes (nor the flags), and the final SP is `s - 4 * (|L| + 1)`. -/
theorem PUSHR_stores (env : Env M) (cpu : ARMCore M) (opcode : Nat) :
    (_ThumbInstructionPUSHR env cpu opcode).memory
      = storesDown env.memory cpu.gprs (listedDown (opcode &&& 0x00FF))
          (sub32 (cpu.gprs ARM_SP) 8)
          (env.memory.store32 cpu.memory (sub32 (cpu.gprs ARM_SP) 4) (cpu.gprs ARM_LR))
    ∧ (∀ i, i ≠ ARM_SP → (_ThumbInstructionPUSHR env cpu opcode).gprs i = cpu.gprs i)
    ∧ (_ThumbInstructionPUSHR env cpu opcode).gprs ARM_SP
      = sub32 (cpu.gprs ARM_SP) (4 * ((listedDown (opcode &&& 0x00FF)).length + 1))
    ∧ (_ThumbInstructionPUSHR env cpu opcode).cpsr = cpu.cpsr := by
  have hu : u32 (sub32 (cpu.gprs ARM_SP) 4) = sub32 (cpu.gprs ARM_SP) 4 := by
    simp only [u32, sub32]
    omega
  have h8 : sub32 (sub32 (cpu.gprs ARM_SP) 4) 4 = sub32 (cpu.gprs ARM_SP) 8 := by
    simp only [sub32]
    omega
  have h := store_fold_down env (listedDown (opcode &&& 0x00FF))
    { cpu := { cpu with memory :=
                env.memory.store32 cpu.memory (sub32 (cpu.gprs ARM_SP) 4) (cpu.gprs ARM_LR) }
      address := sub32 (cpu.gprs ARM_SP) 8 }
  unfold _ThumbInstructionPUSHR
  rw [DEFINE_LOAD_STORE_MULTIPLE_EX_THUMB_down]
  simp only [DEFINE_INSTRUCTION_THUMB, id, hu, h8, setReg, h.1]
  refine ⟨trivial, ?_, ?_, trivial⟩
  · intro i hi
    simp [hi]
  · have h2 := h.2
    simp only [u32, sub32, add32] at h2 ⊢
    simp only [if_true]
    omega

/-- C17, the claim as stated fails: for `PUSH {r0, lr}` (opcode `0xB501`) with
`SP = 0x03000400`, `r0 = 0x1111` and `LR = 0xAAAA`, the claim puts `r0` at
`s - 4` as PUSH does and LR below it at `s - 8 = 0x030003F8`; the handler
leaves LR at `0x030003FC` and `r0` at `0x030003F8`. -/
theorem PUSHR_LR_not_lowest :
    (_ThumbInstructionPUSHR logEnv
        (logCore [0x1111, 0, 0, 0, 0, 0, 0, 0, 0, 0, 0, 0, 0, 0x03000400, 0xAAAA] []) 0xB501).memory
      ≠ storeLog.store32
          (storesDown storeLog
            (logCore [0x1111, 0, 0, 0, 0, 0, 0, 0, 0, 0, 0, 0, 0, 0x03000400, 0xAAAA] []).gprs
            (listedDown (0xB501 &&& 0x00FF)) (sub32 0x03000400 4) [])
          (sub32 0x03000400 (4 * ((listedDown (0xB501 &&& 0x00FF)).length + 1))) 0xAAAA
    ∧ sub32 0x03000400 (4 * ((listedDown (0xB501 &&& 0x00FF)).length + 1)) = 0x030003F8
    ∧ (storeLog.load32
        (_ThumbInstructionPUSHR logEnv
          (logCore [0x1111, 0, 0, 0, 0, 0, 0, 0, 0, 0, 0, 0, 0, 0x03000400, 0xAAAA] [])
          0xB501).memory 0x030003F8).1 = 0x1111
    ∧ (storeLog.load32
        (_ThumbInstructionPUSHR logEnv
          (logCore [0x1111, 0, 0, 0, 0, 0, 0, 0, 0, 0, 0, 0, 0, 0x03000400, 0xAAAA] [])
          0xB501).memory 0x030003FC).1 = 0xAAAA := by
  decide

/-- The loads of an ascending block transfer over a list of registers: the
CPU record is that of `loadsUp`, and the address ends `4 * length` above its
start. -/
theorem load_fold_up (env : Env M) (regs : List Nat) (t : Transfer M)
    (ha : t.address < 4294967296) :
    (regs.foldl (fun t i =>
        ({ cpu := loadBody env i t, address := add32 t.address 4 } : Transfer M)) t).cpu
      = loadsUp env.memory regs t.address t.cpu
    ∧ (regs.foldl (fun t i =>
        ({ cpu := loadBody env i t, address := add32 t.address 4 } : Transfer M)) t).address
      = add32 t.address (4 * regs.length) := by
  induction regs generalizing t with
  | nil =>
    constructor
    · rfl
    · simp only [List.foldl_nil, List.length_nil, add32]
      omega
  | cons i rest ih =>
    have hlt : add32 t.address 4 < 4294967296 := Nat.mod_lt _ (by decide)
    have h := ih { cpu := loadBody env i t, address := add32 t.address 4 } hlt
    rw [List.foldl_cons]
    constructor
    · rw [h.1]
      rfl
    · rw [h.2]
      simp only [List.length_cons, add32]
      omega

/-- C18: for every POPR with register list `L` and initial stack pointer `s`:
the registers of `L` are loaded in ascending order from `s`, `s + 4`, ...; the
PC is then loaded from the next slot `s + 4 * |L|`, with bit 0 of the loaded
word cleared before it is written to the PC; the SP is set to
`s + 4 * (|L| + 1)`; the T-encoding PC-write ritual runs on that state, and
the cycles are charged. If the ritual leaves the SP as it is, the final SP is
`s + 4 * (|L| + 1)`. -/
theorem POPR_loads (env : Env M) (cpu : ARMCore M) (opcode : Nat)
    (hs : cpu.gprs ARM_SP < 4294967296) :
    _ThumbInstructionPOPR env cpu opcode
      = DEFINE_INSTRUCTION_THUMB env (fun cpu opcode =>
          env.THUMB_WRITE_PC
            (setReg
              (setReg
                { loadsUp env.memory (listedUp (opcode &&& 0x00FF)) (cpu.gprs ARM_SP) cpu with
                  memory := (env.memory.load32
                    (loadsUp env.memory (listedUp (opcode &&& 0x00FF)) (cpu.gprs ARM_SP) cpu).memory
                    (add32 (cpu.gprs ARM_SP) (4 * (listedUp (opcode &&& 0x00FF)).length))).2 }
                ARM_PC
                ((env.memory.load32
                    (loadsUp env.memory (listedUp (opcode &&& 0x00FF)) (cpu.gprs ARM_SP) cpu).memory
                    (add32 (cpu.gprs ARM_SP) (4 * (listedUp (opcode &&& 0x00FF)).length))).1
                  &&& 0xFFFFFFFE))
              ARM_SP
              (add32 (cpu.gprs ARM_SP) (4 * ((listedUp (opcode &&& 0x00FF)).length + 1)))))
          cpu opcode
    ∧ ((∀ c, (env.THUMB_WRITE_PC c).gprs ARM_SP = c.gprs ARM_SP) →
        (_ThumbInstructionPOPR env cpu opcode).gprs ARM_SP
          = add32 (cpu.gprs ARM_SP) (4 * ((listedUp (opcode &&& 0x00FF)).length + 1))) := by
  have hu : u32 (cpu.gprs ARM_SP) = cpu.gprs ARM_SP := Nat.mod_eq_of_lt hs
  have h := load_fold_up env (listedUp (opcode &&& 0x00FF))
    { cpu := cpu, address := cpu.gprs ARM_SP } hs
  have h4 : add32 (add32 (cpu.gprs ARM_SP) (4 * (listedUp (opcode &&& 0x00FF)).length)) 4
      = add32 (cpu.gprs ARM_SP) (4 * ((listedUp (opcode &&& 0x00FF)).length + 1)) := by
    simp only [add32]
    omega
  simp only [] at h
  unfold _ThumbInstructionPOPR
  rw [DEFINE_LOAD_STORE_MULTIPLE_EX_THUMB_up]
  simp only [DEFINE_INSTRUCTION_THUMB, id, hu, h.1, h.2, h4, true_and]
  intro hw
  rw [hw]
  simp [setReg]

/-! ## PUSH followed by POP -/

/-- The registers listed highest first are the registers listed lowest first,
reversed. -/
theorem listedDown_eq_reverse (L : Nat) : listedDown L = (listedUp L).reverse := by
  unfold listedDown listedUp
  rw [← List.filter_reverse]
  rfl

/-- A register list has at most eight registers. -/
theorem listedUp_length_le (L : Nat) : (listedUp L).length ≤ 8 :=
  List.length_filter_le _ _

/-- No register is listed twice. -/
theorem listedUp_nodup (L : Nat) : (listedUp L).Nodup :=
  List.Nodup.filter _ (by decide)

/-- A listed register is one of `r0..r7`. -/
theorem listedUp_le (L i : Nat) (h : i ∈ listedUp L) : i ≤ 7 := by
  unfold listedUp at h
  have h2 := (List.mem_filter.1 h).1
  simp only [List.mem_cons, List.mem_singleton, List.not_mem_nil, or_false] at h2
  omega

/-- A load from an address that a descending sequence of stores does not
touch sees the memory before the stores. -/
theorem storesDown_load_other (mi : ARMMemory M) (hmem : LastStored32 mi) (g : Nat → Nat)
    (d : List Nat) (a : Nat) (mem : M) (b : Nat) (ha : a < 4294967296)
    (hb : ∀ j, j < d.length → sub32 a (4 * j) ≠ b) :
    (mi.load32 (storesDown mi g d a mem) b).1 = (mi.load32 mem b).1 := by
  induction d generalizing a mem with
  | nil => rfl
  | cons i rest ih =>
    have hlt : sub32 a 4 < 4294967296 := Nat.mod_lt _ (by decide)
    have hab : a ≠ b := by
      have h0 := hb 0 (by simp)
      simp only [sub32] at h0
      omega
    have hrest : ∀ j, j < rest.length → sub32 (sub32 a 4) (4 * j) ≠ b := by
      intro j hj
      have h1 := hb (j + 1) (by simp; omega)
      simp only [sub32] at h1 ⊢
      omega
    show (mi.load32 (storesDown mi g rest (sub32 a 4) (mi.store32 mem a (g i))) b).1 = _
    rw [ih (sub32 a 4) _ hlt hrest, hmem.load_other _ _ _ _ hab]

/-- After a descending sequence of at most eight stores, a load from the
slot of the `k`-th register of the list returns the value of that register. -/
theorem storesDown_load (mi : ARMMemory M) (hmem : LastStored32 mi) (g : Nat → Nat)
    (d : List Nat) (a : Nat) (mem : M) (ha : a < 4294967296) (hlen : d.length ≤ 8)
    (k r : Nat) (hk : d[k]? = some r) :
    (mi.load32 (storesDown mi g d a mem) (sub32 a (4 * k))).1 = g r := by
  induction d generalizing a mem k with
  | nil => simp at hk
  | cons i rest ih =>
    have hlt : sub32 a 4 < 4294967296 := Nat.mod_lt _ (by decide)
    have hlen2 : rest.length ≤ 7 := by
      simp only [List.length_cons] at hlen
      omega
    show (mi.load32 (storesDown mi g rest (sub32 a 4) (mi.store32 mem a (g i)))
      (sub32 a (4 * k))).1 = _
    cases k with
    | zero =>
      simp only [List.getElem?_cons_zero, Option.some.injEq] at hk
      have h0 : sub32 a (4 * 0) = a := by
        simp only [sub32]
        omega
      have hrest : ∀ j, j < rest.length → sub32 (sub32 a 4) (4 * j) ≠ a := by
        intro j hj
        simp only [sub32]
        omega
      rw [h0, storesDown_load_other mi hmem g rest (sub32 a 4) _ a hlt hrest,
        hmem.load_same, hk]
    | succ k =>
      rw [List.getElem?_cons_succ] at hk
      have hk4 : sub32 a (4 * (k + 1)) = sub32 (sub32 a 4) (4 * k) := by
        simp only [sub32]
        omega
      rw [hk4]
      exact ih (sub32 a 4) _ hlt (by omega) k hk

/-- An ascending sequence of loads leaves the registers outside the list as
they are. -/
theorem loadsUp_gprs_other (mi : ARMMemory M) (regs : List Nat) (a : Nat) (cpu : ARMCore M)
    (x : Nat) (hx : x ∉ regs) : (loadsUp mi regs a cpu).gprs x = cpu.gprs x := by
  induction regs generalizing a cpu with
  | nil => rfl
  | cons i rest ih =>
    have hxi : x ≠ i := fun h => hx (h ▸ List.mem_cons_self _ _)
    have hxr : x ∉ rest := fun h => hx (List.mem_cons_of_mem _ h)
    show (loadsUp mi rest (add32 a 4) _).gprs x = _
    rw [ih _ _ hxr, setReg_gprs_ne _ _ _ _ hxi]

/-- An ascending sequence of loads leaves the memory as it is, if each load
does. -/
theorem loadsUp_memory (mi : ARMMemory M) (hmem : LastStored32 mi) (regs : List Nat)
    (a : Nat) (cpu : ARMCore M) : (loadsUp mi regs a cpu).memory = cpu.memory := by
  induction regs generalizing a cpu with
  | nil => rfl
  | cons i rest ih =>
    show (loadsUp mi rest (add32 a 4) _).memory = _
    rw [ih]
    exact hmem.load_memory _ _

/-- After an ascending sequence of loads into distinct registers, the `j`-th
register of the list holds the word loaded from the `j`-th slot. -/
theorem loadsUp_gprs (mi : ARMMemory M) (hmem : LastStored32 mi) (regs : List Nat)
    (hnd : regs.Nodup) (a : Nat) (cpu : ARMCore M) (ha : a < 4294967296)
    (j r : Nat) (hj : regs[j]? = some r) :
    (loadsUp mi regs a cpu).gprs r = (mi.load32 cpu.memory (add32 a (4 * j))).1 := by
  induction regs generalizing a cpu j with
  | nil => simp at hj
  | cons i rest ih =>
    have hlt : add32 a 4 < 4294967296 := Nat.mod_lt _ (by decide)
    have hnd2 := List.nodup_cons.1 hnd
    show (loadsUp mi rest (add32 a 4) _).gprs r = _
    cases j with
    | zero =>
      simp only [List.getElem?_cons_zero, Option.some.injEq] at hj
      have h0 : add32 a (4 * 0) = a := by
        simp only [add32]
        omega
      rw [h0, ← hj, loadsUp_gprs_other mi rest _ _ i hnd2.1]
      simp [setReg]
    | succ j =>
      rw [List.getElem?_cons_succ] at hj
      have hj4 : add32 a (4 * (j + 1)) = add32 (add32 a 4) (4 * j) := by
        simp only [add32]
        omega
      rw [hj4, ih hnd2.2 (add32 a 4) _ hlt j hj]
      show (mi.load32 (mi.load32 cpu.memory a).2 _).1 = _
      rw [hmem.load_memory]

/-- The state after POP from a 32-bit stack pointer `s`: the ascending loads
of the listed registers from `s`, then the SP raised by `4 * |L|`, then the
cycles charged. -/
theorem POP_eq (env : Env M) (cpu : ARMCore M) (opcode : Nat)
    (hs : cpu.gprs ARM_SP < 4294967296) :
    _ThumbInstructionPOP env cpu opcode
      = DEFINE_INSTRUCTION_THUMB env (fun cpu opcode =>
          setReg (loadsUp env.memory (listedUp (opcode &&& 0x00FF)) (cpu.gprs ARM_SP) cpu)
            ARM_SP (add32 (cpu.gprs ARM_SP) (4 * (listedUp (opcode &&& 0x00FF)).length)))
          cpu opcode := by
  have hu : u32 (cpu.gprs ARM_SP) = cpu.gprs ARM_SP := Nat.mod_eq_of_lt hs
  have h := load_fold_up env (listedUp (opcode &&& 0x00FF))
    { cpu := cpu, address := cpu.gprs ARM_SP } hs
  simp only [] at h
  unfold _ThumbInstructionPOP
  rw [DEFINE_LOAD_STORE_MULTIPLE_EX_THUMB_up]
  simp only [DEFINE_INSTRUCTION_THUMB, id, hu, h.1, h.2]

/-- C14: over a memory in which a 32-bit load returns the value last stored at
its address: for every register list `L` and every state with a 32-bit stack
pointer, PUSH with list `L`, then any change of the CPU record that leaves the
SP and the memory as PUSH left them, then POP with the same list `L`, restores
every register of `L` and the SP to their values before the PUSH. -/
theorem PUSH_POP_roundtrip (env : Env M) (hmem : LastStored32 env.memory)
    (cpu changed : ARMCore M) (push pop : Nat)
    (hL : pop &&& 0x00FF = push &&& 0x00FF)
    (hs : cpu.gprs ARM_SP < 4294967296)
    (hm : changed.memory = (_ThumbInstructionPUSH env cpu push).memory)
    (hsp : changed.gprs ARM_SP = (_ThumbInstructionPUSH env cpu push).gprs ARM_SP) :
    (∀ i, i ∈ listedUp (push &&& 0x00FF) →
        (_ThumbInstructionPOP env changed pop).gprs i = cpu.gprs i)
    ∧ (_ThumbInstructionPOP env changed pop).gprs ARM_SP = cpu.gprs ARM_SP := by
  rw [PUSH_eq] at hm hsp
  simp only [if_true] at hm hsp
  have hlen := listedUp_length_le (push &&& 0x00FF)
  have hrev := listedDown_eq_reverse (push &&& 0x00FF)
  have hdl : (listedDown (push &&& 0x00FF)).length = (listedUp (push &&& 0x00FF)).length := by
    rw [hrev, List.length_reverse]
  have hs2 : changed.gprs ARM_SP < 4294967296 := by
    rw [hsp]
    exact Nat.mod_lt _ (by decide)
  rw [POP_eq env changed pop hs2]
  simp only [DEFINE_INSTRUCTION_THUMB, hL]
  constructor
  · intro i hi
    have hi7 := listedUp_le _ i hi
    have hne : i ≠ ARM_SP := by
      unfold ARM_SP
      omega
    obtain ⟨j, hj⟩ := List.mem_iff_getElem?.1 hi
    obtain ⟨hjlt, _⟩ := List.getElem?_eq_some_iff.1 hj
    rw [setReg_gprs_ne _ _ _ _ hne,
      loadsUp_gprs env.memory hmem _ (listedUp_nodup _) _ _ hs2 j i hj, hm, hsp]
    have hk : (listedDown (push &&& 0x00FF))[(listedUp (push &&& 0x00FF)).length - 1 - j]?
        = some i := by
      rw [hrev, List.getElem?_reverse (by omega)]
      have hidx : (listedUp (push &&& 0x00FF)).length - 1
          - ((listedUp (push &&& 0x00FF)).length - 1 - j) = j := by omega
      rw [hidx, hj]
    have haddr : add32 (sub32 (cpu.gprs ARM_SP) (4 * (listedDown (push &&& 0x00FF)).length))
          (4 * j)
        = sub32 (sub32 (cpu.gprs ARM_SP) 4)
            (4 * ((listedUp (push &&& 0x00FF)).length - 1 - j)) := by
      rw [hdl]
      simp only [add32, sub32]
      omega
    rw [haddr]
    exact storesDown_load env.memory hmem cpu.gprs _ _ _ (Nat.mod_lt _ (by decide))
      (by omega) _ i hk
  · rw [hsp, hdl]
    simp only [setReg, if_true, add32, sub32]
    omega

/-- In the memory `storeLog` a 32-bit load returns the value last stored at
its address. -/
theorem storeLog_lastStored32 : LastStored32 storeLog where
  load_memory _ _ := rfl
  load_same m a v := by simp [storeLog, lastStore]
  load_other m a b v h := by simp [storeLog, lastStore, h]

/-- Witness of `PUSH_POP_roundtrip`: `SP = 0x03000400`, `r0 = 0x1111`,
`r1 = 0x2222`, `r2 = 0x3333`, `PUSH {r0, r1, r2}` (opcode `0xB407`), the three
registers zeroed, `POP {r0, r1, r2}` (opcode `0xBC07`). After the PUSH the
memory at `SP - 4`, `SP - 8`, `SP - 12` holds `0x3333`, `0x2222`, `0x1111`. -/
theorem PUSH_POP_roundtrip_witness :
    (LastStored32 logEnv.memory
      ∧ 0xBC07 &&& 0x00FF = 0xB407 &&& 0x00FF
      ∧ (logCore [0x1111, 0x2222, 0x3333, 0, 0, 0, 0, 0, 0, 0, 0, 0, 0, 0x03000400] []).gprs
          ARM_SP < 4294967296
      ∧ (logCore [0, 0, 0, 0, 0, 0, 0, 0, 0, 0, 0, 0, 0, 0x030003F4]
          [(32, 0x030003F4, 0x1111), (32, 0x030003F8, 0x2222), (32, 0x030003FC, 0x3333)]).memory
        = (_ThumbInstructionPUSH logEnv
            (logCore [0x1111, 0x2222, 0x3333, 0, 0, 0, 0, 0, 0, 0, 0, 0, 0, 0x03000400] [])
            0xB407).memory
      ∧ (logCore [0, 0, 0, 0, 0, 0, 0, 0, 0, 0, 0, 0, 0, 0x030003F4]
          [(32, 0x030003F4, 0x1111), (32, 0x030003F8, 0x2222), (32, 0x030003FC, 0x3333)]).gprs
            ARM_SP
        = (_ThumbInstructionPUSH logEnv
            (logCore [0x1111, 0x2222, 0x3333, 0, 0, 0, 0, 0, 0, 0, 0, 0, 0, 0x03000400] [])
            0xB407).gprs ARM_SP)
    ∧ ((∀ i, i ∈ listedUp (0xB407 &&& 0x00FF) →
        (_ThumbInstructionPOP logEnv
          (logCore [0, 0, 0, 0, 0, 0, 0, 0, 0, 0, 0, 0, 0, 0x030003F4]
            [(32, 0x030003F4, 0x1111), (32, 0x030003F8, 0x2222), (32, 0x030003FC, 0x3333)])
          0xBC07).gprs i
        = (logCore [0x1111, 0x2222, 0x3333, 0, 0, 0, 0, 0, 0, 0, 0, 0, 0, 0x03000400] []).gprs i)
      ∧ (_ThumbInstructionPOP logEnv
          (logCore [0, 0, 0, 0, 0, 0, 0, 0, 0, 0, 0, 0, 0, 0x030003F4]
            [(32, 0x030003F4, 0x1111), (32, 0x030003F8, 0x2222), (32, 0x030003FC, 0x3333)])
          0xBC07).gprs ARM_SP
        = (logCore [0x1111, 0x2222, 0x3333, 0, 0, 0, 0, 0, 0, 0, 0, 0, 0, 0x03000400] []).gprs
            ARM_SP)
    ∧ (List.map
        (_ThumbInstructionPOP logEnv
          (logCore [0, 0, 0, 0, 0, 0, 0, 0, 0, 0, 0, 0, 0, 0x030003F4]
            [(32, 0x030003F4, 0x1111), (32, 0x030003F8, 0x2222), (32, 0x030003FC, 0x3333)])
          0xBC07).gprs [0, 1, 2, 13]
        = [0x1111, 0x2222, 0x3333, 0x03000400]) :=
  ⟨⟨storeLog_lastStored32, by decide, by decide, by decide, by decide⟩,
   PUSH_POP_roundtrip logEnv storeLog_lastStored32
     (logCore [0x1111, 0x2222, 0x3333, 0, 0, 0, 0, 0, 0, 0, 0, 0, 0, 0x03000400] [])
     (logCore [0, 0, 0, 0, 0, 0, 0, 0, 0, 0, 0, 0, 0, 0x030003F4]
        [(32, 0x030003F4, 0x1111), (32, 0x030003F8, 0x2222), (32, 0x030003FC, 0x3333)])
     0xB407 0xBC07 (by decide) (by decide) (by decide) (by decide),
   by decide⟩

/-- Witness of `POPR_loads`: `POP {r0, r1, pc}` (opcode `0xBD03`) from
`SP = 0x030003F4` over a stack holding `0x1111`, `0x2222` and `0x08000123`:
afterwards `r0 = 0x1111`, `r1 = 0x2222`, `PC = 0x08000122` and
`SP = 0x03000400`. -/
theorem POPR_loads_witness :
    (logCore [0, 0, 0, 0, 0, 0, 0, 0, 0, 0, 0, 0, 0, 0x030003F4]
        [(32, 0x030003F4, 0x1111), (32, 0x030003F8, 0x2222), (32, 0x030003FC, 0x08000123)]).gprs
          ARM_SP < 4294967296
    ∧ List.map
        (_ThumbInstructionPOPR logEnv
          (logCore [0, 0, 0, 0, 0, 0, 0, 0, 0, 0, 0, 0, 0, 0x030003F4]
            [(32, 0x030003F4, 0x1111), (32, 0x030003F8, 0x2222), (32, 0x030003FC, 0x08000123)])
          0xBD03).gprs [0, 1, 13, 15]
        = [0x1111, 0x2222, 0x03000400, 0x08000122] :=
  ⟨by decide,
   (congrArg (fun post => List.map post.gprs [0, 1, 13, 15])
     (POPR_loads logEnv
       (logCore [0, 0, 0, 0, 0, 0, 0, 0, 0, 0, 0, 0, 0, 0x030003F4]
         [(32, 0x030003F4, 0x1111), (32, 0x030003F8, 0x2222), (32, 0x030003FC, 0x08000123)])
       0xBD03 (by decide)).1).trans (by decide)⟩

/-! ## STMIA, LDMIA and LDR3 -/

/-- The stores of an ascending block transfer over a list of registers: the
memory is that of `storesUp`, nothing else in the CPU record changes, and the
address ends `4 * length` above its start. -/
theorem store_fold_up (env : Env M) (regs : List Nat) (t : Transfer M)
    (ha : t.address < 4294967296) :
    (regs.foldl (fun t i =>
        ({ cpu := storeBody env i t, address := add32 t.address 4 } : Transfer M)) t).cpu
      = { t.cpu with
          memory := storesUp env.memory t.cpu.gprs regs t.address t.cpu.memory }
    ∧ (regs.foldl (fun t i =>
        ({ cpu := storeBody env i t, address := add32 t.address 4 } : Transfer M)) t).address
      = add32 t.address (4 * regs.length) := by
  induction regs generalizing t with
  | nil =>
    constructor
    · rfl
    · simp only [List.foldl_nil, List.length_nil, add32]
      omega
  | cons i rest ih =>
    have hlt : add32 t.address 4 < 4294967296 := Nat.mod_lt _ (by decide)
    have h := ih { cpu := storeBody env i t, address := add32 t.address 4 } hlt
    rw [List.foldl_cons]
    constructor
    · rw [h.1]
      rfl
    · rw [h.2]
      simp only [List.length_cons, add32]
      omega

/-- The code of STMIA, in full, for the handler `_ThumbInstructionSTMIA_R<k>`:
the base register index is `(opcode >> 8) & 0xF`, and the registers stored,
lowest first from the base value `b`, are those whose bits are set in the
number `k` of the specialisation, not those of the register list
`opcode & 0xFF`; the base register ends as `b + 4 *` their number. -/
theorem STMIA_code (env : Env M) (k : Nat) (cpu : ARMCore M) (opcode : Nat)
    (hb : cpu.gprs ((opcode >>> 8) &&& 0x000F) < 4294967296) :
    _ThumbInstructionSTMIA_R env k cpu opcode
      = DEFINE_INSTRUCTION_THUMB env (fun cpu opcode =>
          setReg
            { cpu with
              memory := storesUp env.memory cpu.gprs (listedUp k)
                (cpu.gprs ((opcode >>> 8) &&& 0x000F)) cpu.memory }
            ((opcode >>> 8) &&& 0x000F)
            (add32 (cpu.gprs ((opcode >>> 8) &&& 0x000F)) (4 * (listedUp k).length)))
          cpu opcode := by
  have hu : u32 (cpu.gprs ((opcode >>> 8) &&& 0x000F)) = cpu.gprs ((opcode >>> 8) &&& 0x000F) :=
    Nat.mod_eq_of_lt hb
  have h := store_fold_up env (listedUp k)
    { cpu := cpu, address := cpu.gprs ((opcode >>> 8) &&& 0x000F) } hb
  simp only [] at h
  unfold _ThumbInstructionSTMIA_R DEFINE_LOAD_STORE_MULTIPLE_THUMB
  rw [DEFINE_LOAD_STORE_MULTIPLE_EX_THUMB_up]
  simp only [DEFINE_INSTRUCTION_THUMB, id, hu, h.1, h.2]

/-- The code of LDMIA, in full, for the handler `_ThumbInstructionLDMIA_R<k>`:
the base register index `rn` is `(opcode >> 8) & 0xF`, which is 8 plus opcode
bits 10..8 for an LDMIA opcode; the registers loaded, lowest first from the
base value `b`, are those whose bits are set in the number `k` of the
specialisation, not those of the register list `opcode & 0xFF`; and `rn` is
written back with `b + 4 *` their number unless bit `rn` of `k` is set. -/
theorem LDMIA_code (env : Env M) (k : Nat) (cpu : ARMCore M) (opcode : Nat)
    (hb : cpu.gprs ((opcode >>> 8) &&& 0x000F) < 4294967296) :
    _ThumbInstructionLDMIA_R env k cpu opcode
      = DEFINE_INSTRUCTION_THUMB env (fun cpu opcode =>
          if (1 <<< ((opcode >>> 8) &&& 0x000F)) &&& k = 0 then
            setReg
              (loadsUp env.memory (listedUp k) (cpu.gprs ((opcode >>> 8) &&& 0x000F)) cpu)
              ((opcode >>> 8) &&& 0x000F)
              (add32 (cpu.gprs ((opcode >>> 8) &&& 0x000F)) (4 * (listedUp k).length))
          else loadsUp env.memory (listedUp k) (cpu.gprs ((opcode >>> 8) &&& 0x000F)) cpu)
          cpu opcode := by
  have hu : u32 (cpu.gprs ((opcode >>> 8) &&& 0x000F)) = cpu.gprs ((opcode >>> 8) &&& 0x000F) :=
    Nat.mod_eq_of_lt hb
  have h := load_fold_up env (listedUp k)
    { cpu := cpu, address := cpu.gprs ((opcode >>> 8) &&& 0x000F) } hb
  simp only [] at h
  unfold _ThumbInstructionLDMIA_R DEFINE_LOAD_STORE_MULTIPLE_THUMB
  rw [DEFINE_LOAD_STORE_MULTIPLE_EX_THUMB_up]
  simp only [DEFINE_INSTRUCTION_THUMB, id, hu, h.1, h.2]

/-- C15, at a failing input: `STMIA r0!, {r1}` (opcode `0xC002`) with
`r0 = 0x03000000` and `r1 = 0x1234` is dispatched to
`_ThumbInstructionSTMIA_R0`, whose register mask `rs` is the number 0 of the
specialisation and not the register list: nothing is stored and `r0` keeps
its value, where the claim has `r1` stored at `0x03000000` and
`r0 = 0x03000004`. -/
theorem STMIA_ignores_list :
    _thumbTable[0xC002 >>> 6]? = some (ThumbInstruction.STMIA_R 0)
    ∧ (_ThumbInstructionSTMIA_R logEnv 0
        (logCore [0x03000000, 0x1234] []) 0xC002).memory = []
    ∧ storesUp storeLog (logCore [0x03000000, 0x1234] []).gprs (listedUp (0xC002 &&& 0x00FF))
        0x03000000 [] = [(32, 0x03000000, 0x1234)]
    ∧ (_ThumbInstructionSTMIA_R logEnv 0
        (logCore [0x03000000, 0x1234] []) 0xC002).gprs ((0xC002 >>> 8) &&& 0x7) = 0x03000000
    ∧ add32 0x03000000 (4 * (listedUp (0xC002 &&& 0x00FF)).length) = 0x03000004 :=
  ⟨(thumbTable_getElem? 0x300 (by decide)).trans (by decide), by decide, by decide, by decide,
   by decide⟩

/-- C16, at a failing input: `LDMIA r0!, {r1}` (opcode `0xC802`) with
`r0 = 0x03000000` and the word `0x1234` at that address is dispatched to
`_ThumbInstructionLDMIA_R0`, whose base register index `(opcode >> 8) & 0xF`
is 8 and whose register mask `rs` is the number 0 of the specialisation:
nothing is loaded, `r1` and `r0` keep their values, where the claim has
`r1 = 0x1234` and `r0 = 0x03000004`. -/
theorem LDMIA_ignores_list :
    _thumbTable[0xC802 >>> 6]? = some (ThumbInstruction.LDMIA_R 0)
    ∧ (0xC802 >>> 8) &&& 0x000F = 8
    ∧ (_ThumbInstructionLDMIA_R logEnv 0
        (logCore [0x03000000, 0] [(32, 0x03000000, 0x1234)]) 0xC802).gprs 1 = 0
    ∧ (storeLog.load32 [(32, 0x03000000, 0x1234)] 0x03000000).1 = 0x1234
    ∧ (_ThumbInstructionLDMIA_R logEnv 0
        (logCore [0x03000000, 0] [(32, 0x03000000, 0x1234)]) 0xC802).gprs 0 = 0x03000000
    ∧ add32 0x03000000 (4 * (listedUp (0xC802 &&& 0x00FF)).length) = 0x03000004 :=
  ⟨(thumbTable_getElem? 0x320 (by decide)).trans (by decide), by decide, by decide, by decide,
   by decide, by decide⟩

/-- The code of LDR3, in full: `rd` receives the word loaded from the PC value
the handler observes plus `imm8 * 4`, with no bit of the PC masked. -/
theorem LDR3_code (env : Env M) (rd : Nat) (cpu : ARMCore M) (opcode : Nat) :
    (_ThumbInstructionLDR3_R env rd cpu opcode).gprs rd
      = (env.memory.load32 cpu.memory
          (add32 (cpu.gprs ARM_PC) ((opcode &&& 0x00FF) * 4))).1 := by
  simp [_ThumbInstructionLDR3_R, DEFINE_IMMEDIATE_WITH_REGISTER_EX_THUMB,
    DEFINE_INSTRUCTION_THUMB, setReg, Nat.shiftLeft_eq]

/-- C19, at a failing input: `LDR r0, [PC, #0]` (opcode `0x4800`) at an
instruction address congruent to 2 mod 4, so that the handler observes
`PC = 0x08000006`, over a memory holding `0xAAAA` at `0x08000004` and
`0xBBBB` at `0x08000006`. The claim has the load at
`(0x08000006 & ~3) + 0 = 0x08000004`, giving `0xAAAA`; the handler loads from
`0x08000006` and `r0` receives `0xBBBB`. -/
theorem LDR3_pc_not_aligned :
    _thumbTable[0x4800 >>> 6]? = some (ThumbInstruction.LDR3_R 0)
    ∧ (_ThumbInstructionLDR3_R logEnv 0
        (logCore [0, 0, 0, 0, 0, 0, 0, 0, 0, 0, 0, 0, 0, 0, 0, 0x08000006]
          [(32, 0x08000004, 0xAAAA), (32, 0x08000006, 0xBBBB)]) 0x4800).gprs 0 = 0xBBBB
    ∧ (storeLog.load32 [(32, 0x08000004, 0xAAAA), (32, 0x08000006, 0xBBBB)]
        ((0x08000006 &&& 0xFFFFFFFC) + (0x4800 &&& 0x00FF) * 4)).1 = 0xAAAA :=
  ⟨(thumbTable_getElem? 0x120 (by decide)).trans (by decide), by decide, by decide⟩

/-! ## A store followed by a load -/

/-- C20: over a memory in which a load directly after a store of the same
width at the same address returns the stored value truncated to the width:
for every state, every `imm5`, and a store and a load opcode with the same
base register field, STR1 followed by LDR1 loads the stored register value
`v`, STRH1 followed by LDRH1 loads `v & 0xFFFF`, and STRB1 followed by LDRB1
loads `v & 0xFF` (the store and the load compute the same effective
address). -/
theorem store_load_roundtrip (env : Env M) (hmem : LoadAfterStore env.memory)
    (cpu : ARMCore M) (imm store load : Nat)
    (hbase : (load >>> 3) &&& 0x0007 = (store >>> 3) &&& 0x0007) :
    (_ThumbInstructionLDR1_ env imm (_ThumbInstructionSTR1_ env imm cpu store) load).gprs
        (load &&& 0x0007) = cpu.gprs (store &&& 0x0007)
    ∧ (_ThumbInstructionLDRH1_ env imm (_ThumbInstructionSTRH1_ env imm cpu store) load).gprs
        (load &&& 0x0007) = cpu.gprs (store &&& 0x0007) &&& 0xFFFF
    ∧ (_ThumbInstructionLDRB1_ env imm (_ThumbInstructionSTRB1_ env imm cpu store) load).gprs
        (load &&& 0x0007) = cpu.gprs (store &&& 0x0007) &&& 0xFF := by
  refine ⟨?_, ?_, ?_⟩
  · simp only [_ThumbInstructionLDR1_, _ThumbInstructionSTR1_,
      DEFINE_IMMEDIATE_5_INSTRUCTION_EX_THUMB, DEFINE_INSTRUCTION_THUMB, setReg, hbase, if_true]
    exact hmem.word _ _ _
  · simp only [_ThumbInstructionLDRH1_, _ThumbInstructionSTRH1_,
      DEFINE_IMMEDIATE_5_INSTRUCTION_EX_THUMB, DEFINE_INSTRUCTION_THUMB, setReg, hbase, if_true]
    exact hmem.half _ _ _
  · simp only [_ThumbInstructionLDRB1_, _ThumbInstructionSTRB1_,
      DEFINE_IMMEDIATE_5_INSTRUCTION_EX_THUMB, DEFINE_INSTRUCTION_THUMB, setReg, hbase, if_true]
    exact hmem.byte _ _ _

/-- In the memory `storeLog` a load directly after a store of the same width
at the same address returns the stored value truncated to the width. -/
theorem storeLog_loadAfterStore : LoadAfterStore storeLog where
  word m a v := by simp [storeLog, lastStore]
  half m a v := by simp [storeLog, lastStore]
  byte m a v := by simp [storeLog, lastStore]

/-- Witness of `store_load_roundtrip`: `r0 = 0xDEADBEEF`, `r1 = 0x03000000`,
immediate 1, the store opcode `0x6048` (`STR r0, [r1, #4]`) and the load
opcode `0x684A` (`LDR r2, [r1, #4]`): `r2` receives `0xDEADBEEF`, `0xBEEF`
and `0xEF` for the three widths. -/
theorem store_load_roundtrip_witness :
    (LoadAfterStore logEnv.memory ∧ (0x684A >>> 3) &&& 0x0007 = (0x6048 >>> 3) &&& 0x0007)
    ∧ ((_ThumbInstructionLDR1_ logEnv 1
          (_ThumbInstructionSTR1_ logEnv 1 (logCore [0xDEADBEEF, 0x03000000] []) 0x6048)
          0x684A).gprs (0x684A &&& 0x0007)
        = (logCore [0xDEADBEEF, 0x03000000] []).gprs (0x6048 &&& 0x0007)
      ∧ (_ThumbInstructionLDRH1_ logEnv 1
          (_ThumbInstructionSTRH1_ logEnv 1 (logCore [0xDEADBEEF, 0x03000000] []) 0x6048)
          0x684A).gprs (0x684A &&& 0x0007)
        = (logCore [0xDEADBEEF, 0x03000000] []).gprs (0x6048 &&& 0x0007) &&& 0xFFFF
      ∧ (_ThumbInstructionLDRB1_ logEnv 1
          (_ThumbInstructionSTRB1_ logEnv 1 (logCore [0xDEADBEEF, 0x03000000] []) 0x6048)
          0x684A).gprs (0x684A &&& 0x0007)
        = (logCore [0xDEADBEEF, 0x03000000] []).gprs (0x6048 &&& 0x0007) &&& 0xFF)
    ∧ [(_ThumbInstructionLDR1_ logEnv 1
          (_ThumbInstructionSTR1_ logEnv 1 (logCore [0xDEADBEEF, 0x03000000] []) 0x6048)
          0x684A).gprs 2,
        (_ThumbInstructionLDRH1_ logEnv 1
          (_ThumbInstructionSTRH1_ logEnv 1 (logCore [0xDEADBEEF, 0x03000000] []) 0x6048)
          0x684A).gprs 2,
        (_ThumbInstructionLDRB1_ logEnv 1
          (_ThumbInstructionSTRB1_ logEnv 1 (logCore [0xDEADBEEF, 0x03000000] []) 0x6048)
          0x684A).gprs 2] = [0xDEADBEEF, 0xBEEF, 0xEF] :=
  ⟨⟨storeLog_loadAfterStore, by decide⟩,
   store_load_roundtrip logEnv storeLog_loadAfterStore (logCore [0xDEADBEEF, 0x03000000] []) 1
     0x6048 0x684A (by decide),
   by decide⟩

/-! ## Branches: theorems -/

/-- The conversion of the opcode to `int8_t` is the sign extension of its low
eight bits. -/
theorem int8_eq_sext8 (opcode : Nat) : int8 opcode = sext8 (opcode &&& 0x00FF) := by
  have h : opcode &&& 0x00FF = opcode % 256 := Nat.and_pow_two_sub_one_eq_mod opcode 8
  rw [h]
  rfl

/-- A handler built with `DEFINE_CONDITIONAL_BRANCH_THUMB` does what the
specification says of a conditional branch, for the value of its predicate. -/
theorem DEFINE_CONDITIONAL_BRANCH_THUMB_post (env : Env M) (COND : ARMCore M → Bool)
    (cpu : ARMCore M) (opcode : Nat) :
    ConditionalBranchPost env (COND cpu) cpu opcode
      (DEFINE_CONDITIONAL_BRANCH_THUMB env COND cpu opcode) := by
  unfold ConditionalBranchPost DEFINE_CONDITIONAL_BRANCH_THUMB DEFINE_INSTRUCTION_THUMB
  by_cases h : COND cpu = true
  · simp only [h, if_true, int8_eq_sext8]
  · simp only [h, if_false]
    rfl

/-- C21: for every conditional branch and every state: if the predicate of the
condition over `(N, Z, C, V)` holds, the handler adds `(sign-extended imm8) * 2`
to the PC value it observes, mod `2^32`, and runs the PC-write ritual on the
result; if it does not hold, the handler leaves every register unchanged. The
predicates are `EQ = Z`, `NE = !Z`, `CS = C`, `CC = !C`, `MI = N`, `PL = !N`,
`VS = V`, `VC = !V`, `HI = C and !Z`, `LS = !C or Z`, `GE = (N = V)`,
`LT = (N != V)`, `GT = !Z and (N = V)`, `LE = Z or (N != V)`. -/
theorem conditional_branches (env : Env M) (cpu : ARMCore M) (opcode : Nat) :
    ConditionalBranchPost env cpu.cpsr.z cpu opcode (_ThumbInstructionBEQ env cpu opcode)
    ∧ ConditionalBranchPost env (!cpu.cpsr.z) cpu opcode (_ThumbInstructionBNE env cpu opcode)
    ∧ ConditionalBranchPost env cpu.cpsr.c cpu opcode (_ThumbInstructionBCS env cpu opcode)
    ∧ ConditionalBranchPost env (!cpu.cpsr.c) cpu opcode (_ThumbInstructionBCC env cpu opcode)
    ∧ ConditionalBranchPost env cpu.cpsr.n cpu opcode (_ThumbInstructionBMI env cpu opcode)
    ∧ ConditionalBranchPost env (!cpu.cpsr.n) cpu opcode (_ThumbInstructionBPL env cpu opcode)
    ∧ ConditionalBranchPost env cpu.cpsr.v cpu opcode (_ThumbInstructionBVS env cpu opcode)
    ∧ ConditionalBranchPost env (!cpu.cpsr.v) cpu opcode (_ThumbInstructionBVC env cpu opcode)
    ∧ ConditionalBranchPost env (cpu.cpsr.c && !cpu.cpsr.z) cpu opcode
        (_ThumbInstructionBHI env cpu opcode)
    ∧ ConditionalBranchPost env (!cpu.cpsr.c || cpu.cpsr.z) cpu opcode
        (_ThumbInstructionBLS env cpu opcode)
    ∧ ConditionalBranchPost env (cpu.cpsr.n == cpu.cpsr.v) cpu opcode
        (_ThumbInstructionBGE env cpu opcode)
    ∧ ConditionalBranchPost env (cpu.cpsr.n != cpu.cpsr.v) cpu opcode
        (_ThumbInstructionBLT env cpu opcode)
    ∧ ConditionalBranchPost env (!cpu.cpsr.z && (cpu.cpsr.n == cpu.cpsr.v)) cpu opcode
        (_ThumbInstructionBGT env cpu opcode)
    ∧ ConditionalBranchPost env (cpu.cpsr.z || (cpu.cpsr.n != cpu.cpsr.v)) cpu opcode
        (_ThumbInstructionBLE env cpu opcode) :=
  ⟨DEFINE_CONDITIONAL_BRANCH_THUMB_post env ARM_COND_EQ cpu opcode,
   DEFINE_CONDITIONAL_BRANCH_THUMB_post env ARM_COND_NE cpu opcode,
   DEFINE_CONDITIONAL_BRANCH_THUMB_post env ARM_COND_CS cpu opcode,
   DEFINE_CONDITIONAL_BRANCH_THUMB_post env ARM_COND_CC cpu opcode,
   DEFINE_CONDITIONAL_BRANCH_THUMB_post env ARM_COND_MI cpu opcode,
   DEFINE_CONDITIONAL_BRANCH_THUMB_post env ARM_COND_PL cpu opcode,
   DEFINE_CONDITIONAL_BRANCH_THUMB_post env ARM_COND_VS cpu opcode,
   DEFINE_CONDITIONAL_BRANCH_THUMB_post env ARM_COND_VC cpu opcode,
   DEFINE_CONDITIONAL_BRANCH_THUMB_post env ARM_COND_HI cpu opcode,
   DEFINE_CONDITIONAL_BRANCH_THUMB_post env ARM_COND_LS cpu opcode,
   DEFINE_CONDITIONAL_BRANCH_THUMB_post env ARM_COND_GE cpu opcode,
   DEFINE_CONDITIONAL_BRANCH_THUMB_post env ARM_COND_LT cpu opcode,
   DEFINE_CONDITIONAL_BRANCH_THUMB_post env ARM_COND_GT cpu opcode,
   DEFINE_CONDITIONAL_BRANCH_THUMB_post env ARM_COND_LE cpu opcode⟩

/-- An 11-bit field is below 2048. -/
theorem and_7FF_lt (x : Nat) : x &&& 0x07FF < 2048 :=
  Nat.lt_of_le_of_lt Nat.and_le_right (by decide)

/-- The `int16_t` holding the 11-bit field shifted left by 5 is 32 times the
sign extension of the field. -/
theorem int16_shift5 (x : Nat) (hx : x < 2048) : int16 (x <<< 5) = 32 * sext11 x := by
  unfold int16 sext11
  rw [Nat.shiftLeft_eq]
  split <;> split <;> omega

/-- The sign-filling right shift by 4 of an integer is the floor of its
division by 16. -/
theorem int_shiftRight_four (z : Int) : z >>> (4 : Int) = z / 16 := by
  cases z with
  | ofNat m =>
    show (m : Int) >>> ((4 : Nat) : Int) = _
    rw [Int.shiftRight_coe_nat, Nat.shiftRight_eq_div_pow]
    simp only [Int.ofNat_eq_coe]
    omega
  | negSucc m =>
    show (Int.negSucc m) >>> ((4 : Nat) : Int) = _
    rw [Int.shiftRight_negSucc, Nat.shiftRight_eq_div_pow, Int.negSucc_eq, Int.negSucc_eq]
    omega

/-- C22: for every B opcode with 11-bit field `imm11` and every PC value `p`
observed by the handler, the value assigned to the PC before the PC-write
ritual is `p + 2 * sext11(imm11)` mod `2^32`. -/
theorem B_target (env : Env M) (cpu : ARMCore M) (opcode : Nat) :
    _ThumbInstructionB env cpu opcode
      = DEFINE_INSTRUCTION_THUMB env (fun cpu opcode =>
          env.THUMB_WRITE_PC
            (setReg cpu ARM_PC
              (wrap32 ((cpu.gprs ARM_PC : Int) + 2 * sext11 (opcode &&& 0x07FF)))))
          cpu opcode := by
  have h : int16 ((opcode &&& 0x07FF) <<< 5) >>> 4 = 2 * sext11 (opcode &&& 0x07FF) := by
    rw [int16_shift5 _ (and_7FF_lt opcode)]
    rw [int_shiftRight_four]
    omega
  unfold _ThumbInstructionB DEFINE_INSTRUCTION_THUMB
  simp only [h]

/-- C23: for every BL1 opcode with 11-bit field `imm11` and every PC value `p`
observed by the handler, afterwards `LR = p + sext11(imm11) * 4096` mod
`2^32`, and the PC and the flags are unchanged by the handler. -/
theorem BL1_link (env : Env M) (cpu : ARMCore M) (opcode : Nat) :
    (_ThumbInstructionBL1 env cpu opcode).gprs ARM_LR
      = wrap32 ((cpu.gprs ARM_PC : Int) + sext11 (opcode &&& 0x07FF) * 4096)
    ∧ (_ThumbInstructionBL1 env cpu opcode).gprs ARM_PC = cpu.gprs ARM_PC
    ∧ (_ThumbInstructionBL1 env cpu opcode).cpsr = cpu.cpsr := by
  have h : int16 ((opcode &&& 0x07FF) <<< 5) * 128 = sext11 (opcode &&& 0x07FF) * 4096 := by
    rw [int16_shift5 _ (and_7FF_lt opcode)]
    omega
  unfold _ThumbInstructionBL1 DEFINE_INSTRUCTION_THUMB
  simp only [h, setReg]
  refine ⟨?_, ?_, trivial⟩
  · simp
  · simp [ARM_PC, ARM_LR]

/-- An even number with bit 0 set is its successor. -/
theorem or_one_of_even (x : Nat) (h : x % 2 = 0) : x ||| 1 = x + 1 := by
  have hd : (x ||| 1) / 2 = x / 2 := by
    rw [Nat.or_div_two]
    simp
  have hm : (x ||| 1) % 2 = 1 := Nat.or_mod_two_eq_one.2 (Or.inr rfl)
  omega

/-- C24: for every BL2 opcode with 11-bit field `imm11` executed from a
halfword-aligned instruction address `a` (the handler observes `PC = a + 4`)
with `LR = l` beforehand: the branch target assigned to the PC before the
PC-write ritual is `l + 2 * imm11` mod `2^32`, and LR is set to `(a + 2) | 1`;
if the ritual leaves LR as it is, `LR = (a + 2) | 1` afterwards. -/
theorem BL2_target_and_link (env : Env M) (cpu : ARMCore M) (opcode a : Nat)
    (heven : a % 2 = 0) (hpc : cpu.gprs ARM_PC = add32 a 4) :
    _ThumbInstructionBL2 env cpu opcode
      = DEFINE_INSTRUCTION_THUMB env (fun cpu opcode =>
          env.THUMB_WRITE_PC
            (setReg
              (setReg cpu ARM_PC (add32 (cpu.gprs ARM_LR) (2 * (opcode &&& 0x07FF))))
              ARM_LR (add32 a 2 ||| 1)))
          cpu opcode
    ∧ ((∀ c, (env.THUMB_WRITE_PC c).gprs ARM_LR = c.gprs ARM_LR) →
        (_ThumbInstructionBL2 env cpu opcode).gprs ARM_LR = add32 a 2 ||| 1) := by
  have himm : ((opcode &&& 0x07FF) <<< 1) % 65536 = 2 * (opcode &&& 0x07FF) := by
    have h := and_7FF_lt opcode
    rw [Nat.shiftLeft_eq]
    omega
  have hlr : sub32 (u32 (cpu.gprs ARM_PC)) 1 = add32 a 2 ||| 1 := by
    rw [or_one_of_even _ (by simp only [add32]; omega), hpc]
    simp only [sub32, u32, add32]
    omega
  unfold _ThumbInstructionBL2 DEFINE_INSTRUCTION_THUMB
  simp only [himm, hlr, true_and]
  intro hw
  rw [hw]
  simp [setReg]

/-- Masking with an even mask: bit 0 is cleared and the rest is masked with
half the mask. -/
theorem and_even_mask (v m : Nat) : v &&& (2 * m) = 2 * (v / 2 &&& m) := by
  have hm : (v &&& (2 * m)) % 2 = 0 := by
    rcases Nat.mod_two_eq_zero_or_one (v &&& (2 * m)) with h | h
    · exact h
    · exact absurd (Nat.and_mod_two_eq_one.1 h).2 (by omega)
  have hd : (v &&& (2 * m)) / 2 = v / 2 &&& m := by
    rw [Nat.and_div_two]
    congr 1
    omega
  omega

/-- The value `v & 2` is twice bit 1 of `v`. -/
theorem and_two_eq (v : Nat) : v &&& 2 = 2 * ((v / 2) % 2) := by
  rw [← Nat.and_one_is_mod]
  exact and_even_mask v 1

/-- The value `v & 0xFFFFFFFE` is the low 32 bits of `v` with bit 0 cleared. -/
theorem and_FFFFFFFE_eq (v : Nat) : v &&& 0xFFFFFFFE = 2 * ((v / 2) % 2147483648) := by
  rw [← Nat.and_pow_two_sub_one_eq_mod (v / 2) 31]
  exact and_even_mask v 0x7FFFFFFF

/-- The value `v & 0xFFFFFFFC` is the low 32 bits of `v` with bits 0 and 1
cleared. -/
theorem and_FFFFFFFC_eq (v : Nat) :
    v &&& 0xFFFFFFFC = 2 * (2 * ((v / 2 / 2) % 1073741824)) := by
  rw [← Nat.and_pow_two_sub_one_eq_mod (v / 2 / 2) 30]
  exact (and_even_mask v 0x7FFFFFFE).trans (congrArg (2 * ·) (and_even_mask (v / 2) 0x3FFFFFFF))

/-- The mask expression of the source, `v & 0xFFFFFFFE - misalign`, and the
expression of the specification, `(v & 0xFFFFFFFE) - misalign`, agree. -/
theorem BX_mask_eq (v : Nat) (rmIsPC : Bool) :
    v &&& sub32 0xFFFFFFFE (if rmIsPC = true then v &&& 0x00000002 else 0)
      = specBXTarget v rmIsPC := by
  unfold specBXTarget
  cases rmIsPC
  · simp [sub32]
  · simp only [if_true]
    have h2 := and_two_eq v
    rcases Nat.mod_two_eq_zero_or_one (v / 2) with h | h
    · rw [h] at h2
      rw [h2]
      simp [sub32]
    · rw [h] at h2
      rw [h2]
      have hs : sub32 0xFFFFFFFE (2 * 1) = 0xFFFFFFFC := by decide
      rw [hs, and_FFFFFFFC_eq, and_FFFFFFFE_eq]
      omega

/-- C25: for every BX opcode with register field `rm` (opcode bits 6..3) and
every state, the mode bit that the handler passes to `_ARMSetMode` is bit 0 of
the value `rm` held before the instruction, and the value written to the PC
has bit 0 cleared. With `setMode` for `_ARMSetMode` (1 = T, 0 = A),
`r7 = 0x08000000` in T mode and `BX r7` (opcode `0x4738`), the mode
afterwards is A and the PC is `0x08000000`. -/
theorem BX_mode_and_target (env : Env M) (cpu : ARMCore M) (opcode : Nat) :
    _ThumbInstructionBX env cpu opcode
      = DEFINE_INSTRUCTION_THUMB env (fun cpu opcode =>
          (fun c2 : ARMCore M =>
            if c2.executionMode = ExecutionMode.MODE_THUMB then env.THUMB_WRITE_PC c2
            else env.ARM_WRITE_PC c2)
          ((fun c1 : ARMCore M =>
            setReg c1 ARM_PC
              (c1.gprs ((opcode >>> 3) &&& 0xF)
                &&& sub32 0xFFFFFFFE
                  (if (opcode >>> 3) &&& 0xF = ARM_PC
                   then c1.gprs ((opcode >>> 3) &&& 0xF) &&& 0x00000002 else 0)))
            (env._ARMSetMode cpu (bit (cpu.gprs ((opcode >>> 3) &&& 0xF)) 0))))
          cpu opcode
    ∧ (∀ v : Nat, ∀ rmIsPC : Bool,
        bit (v &&& sub32 0xFFFFFFFE (if rmIsPC = true then v &&& 0x00000002 else 0)) 0 = 0)
    ∧ (_ThumbInstructionBX (modeEnv 0x4738)
          (sampleCore [0, 0, 0, 0, 0, 0, 0, 0x08000000] false) 0x4738).executionMode
        = ExecutionMode.MODE_ARM
    ∧ (_ThumbInstructionBX (modeEnv 0x4738)
          (sampleCore [0, 0, 0, 0, 0, 0, 0, 0x08000000] false) 0x4738).gprs ARM_PC
        = 0x08000000 := by
  refine ⟨?_, ?_, by decide, by decide⟩
  · have hb : ∀ x : Nat, x &&& 0x00000001 = bit x 0 := by
      intro x
      rw [Nat.and_one_is_mod]
      simp [bit]
    unfold _ThumbInstructionBX
    simp only [hb]
  · intro v rmIsPC
    rw [BX_mask_eq]
    unfold specBXTarget bit
    have h1 := and_FFFFFFFE_eq v
    have h2 := and_two_eq v
    cases rmIsPC
    · simp only [Bool.false_eq_true, if_false]
      omega
    · simp only [if_true]
      omega

/-- C27: for every BX opcode and every value `v` of register `rm`, the source
expression `v & 0xFFFFFFFE - misalign` equals `(v & 0xFFFFFFFE) - misalign`,
where `misalign = v & 2` when `rm` is the PC and 0 otherwise (the subtraction
does not go below zero); so the value that the handler assigns to the PC
before the PC-write ritual is `specBXTarget v (rm = 15)`. -/
theorem BX_target_refines (env : Env M) (cpu : ARMCore M) (opcode : Nat) :
    (∀ v : Nat, ∀ rmIsPC : Bool,
        v &&& sub32 0xFFFFFFFE (if rmIsPC = true then v &&& 0x00000002 else 0)
          = specBXTarget v rmIsPC
        ∧ (if rmIsPC = true then v &&& 0x00000002 else 0) ≤ v &&& 0xFFFFFFFE)
    ∧ _ThumbInstructionBX env cpu opcode
      = DEFINE_INSTRUCTION_THUMB env (fun cpu opcode =>
          (fun c2 : ARMCore M =>
            if c2.executionMode = ExecutionMode.MODE_THUMB then env.THUMB_WRITE_PC c2
            else env.ARM_WRITE_PC c2)
          ((fun c1 : ARMCore M =>
            setReg c1 ARM_PC
              (specBXTarget (c1.gprs ((opcode >>> 3) &&& 0xF))
                (decide ((opcode >>> 3) &&& 0xF = ARM_PC))))
            (env._ARMSetMode cpu (cpu.gprs ((opcode >>> 3) &&& 0xF) &&& 0x00000001))))
          cpu opcode := by
  refine ⟨fun v rmIsPC => ⟨BX_mask_eq v rmIsPC, ?_⟩, ?_⟩
  · have h1 := and_FFFFFFFE_eq v
    have h2 := and_two_eq v
    cases rmIsPC
    · simp
    · simp only [if_true]
      omega
  · unfold _ThumbInstructionBX
    simp only [← BX_mask_eq, decide_eq_true_eq]

/-- Witness of `BL2_target_and_link`: the BL2 half with `imm11 = 3` (opcode
`0xF803`) at address `0x08000100` with `LR = 0x08001000`: afterwards
`PC = 0x08001006` and `LR = 0x08000103`. -/
theorem BL2_target_and_link_witness :
    0x08000100 % 2 = 0
    ∧ (sampleCore [0, 0, 0, 0, 0, 0, 0, 0, 0, 0, 0, 0, 0, 0, 0x08001000, 0x08000104]
          false).gprs ARM_PC = add32 0x08000100 4
    ∧ List.map
        (_ThumbInstructionBL2 (sampleEnv 0xF803)
          (sampleCore [0, 0, 0, 0, 0, 0, 0, 0, 0, 0, 0, 0, 0, 0, 0x08001000, 0x08000104] false)
          0xF803).gprs [14, 15]
        = [0x08000103, 0x08001006] :=
  ⟨by decide, by decide,
   (congrArg (fun post => List.map post.gprs [14, 15])
     (BL2_target_and_link (sampleEnv 0xF803)
       (sampleCore [0, 0, 0, 0, 0, 0, 0, 0, 0, 0, 0, 0, 0, 0, 0x08001000, 0x08000104] false)
       0xF803 0x08000100 (by decide) (by decide)).1).trans (by decide)⟩

/-! ## Shifts by a register: LSR2 and ASR2 -/

/-- The claim that a shift count of 0 leaves all four flags unchanged fails:
`LSR r0, r1` (opcode `0x40C8`) and `ASR r0, r1` (opcode `0x4108`) with
`r0 = r1 = 0` and `Z = 0` beforehand have shift count 0 and set `Z`. -/
theorem shift_count_zero_sets_Z :
    (sampleCore [0, 0] false).gprs ((0x40C8 >>> 3) &&& 0x0007) &&& 0xFF = 0
    ∧ (sampleCore [0, 0] false).gprs ((0x4108 >>> 3) &&& 0x0007) &&& 0xFF = 0
    ∧ (sampleCore [0, 0] false).cpsr.z = false
    ∧ (_ThumbInstructionLSR2 (sampleEnv 0x40C8) (sampleCore [0, 0] false) 0x40C8).cpsr.z = true
    ∧ (_ThumbInstructionASR2 (sampleEnv 0x4108) (sampleCore [0, 0] false) 0x4108).cpsr.z
        = true := by
  decide

/-- C28, amended: for every LSR2 and ASR2 opcode and every state in which the
shift count (value of the shift register `& 0xFF`) is 0, the handler leaves
every register, `C` and `V` unchanged and applies the neutral pattern:
`N = bit31(rd)` and `Z = (rd = 0)`. -/
theorem shift_count_zero (env : Env M) (cpu : ARMCore M) (opcode : Nat)
    (hk : cpu.gprs ((opcode >>> 3) &&& 0x0007) &&& 0xFF = 0) :
    ((_ThumbInstructionLSR2 env cpu opcode).gprs = cpu.gprs
      ∧ NeutralPost cpu (opcode &&& 0x0007) (_ThumbInstructionLSR2 env cpu opcode))
    ∧ ((_ThumbInstructionASR2 env cpu opcode).gprs = cpu.gprs
      ∧ NeutralPost cpu (opcode &&& 0x0007) (_ThumbInstructionASR2 env cpu opcode)) := by
  simp [_ThumbInstructionLSR2, _ThumbInstructionASR2, DEFINE_DATA_FORM_5_INSTRUCTION_THUMB,
    DEFINE_INSTRUCTION_THUMB, THUMB_NEUTRAL_S, NeutralPost, hk, bitfield1_sign, bitfield1_lnot]

/-- Witness of `shift_count_zero`: `LSR r0, r1` (opcode `0x40C8`) with
`r0 = 5`, `r1 = 0x100` (count 0) and `C = 1`. -/
theorem shift_count_zero_witness :
    (sampleCore [5, 0x100] true).gprs ((0x40C8 >>> 3) &&& 0x0007) &&& 0xFF = 0
    ∧ (((_ThumbInstructionLSR2 (sampleEnv 0x40C8) (sampleCore [5, 0x100] true) 0x40C8).gprs
          = (sampleCore [5, 0x100] true).gprs
        ∧ NeutralPost (sampleCore [5, 0x100] true) (0x40C8 &&& 0x0007)
            (_ThumbInstructionLSR2 (sampleEnv 0x40C8) (sampleCore [5, 0x100] true) 0x40C8))
      ∧ ((_ThumbInstructionASR2 (sampleEnv 0x40C8) (sampleCore [5, 0x100] true) 0x40C8).gprs
          = (sampleCore [5, 0x100] true).gprs
        ∧ NeutralPost (sampleCore [5, 0x100] true) (0x40C8 &&& 0x0007)
            (_ThumbInstructionASR2 (sampleEnv 0x40C8) (sampleCore [5, 0x100] true) 0x40C8))) :=
  ⟨by decide,
   shift_count_zero (sampleEnv 0x40C8) (sampleCore [5, 0x100] true) 0x40C8 (by decide)⟩

/-- The code of LSR2 and ASR2 for a shift count `k` with `0 < k < 32`, in
full: `rd` is `x` shifted right by `k` (zero-fill for LSR2, sign-fill for
ASR2), `N` and `Z` from the new `rd`, `V` unchanged, and `C` is bit 0 of `x`
if `k = 1` and cleared otherwise. -/
theorem shift_small_count_code (env : Env M) (cpu : ARMCore M) (opcode : Nat)
    (h0 : 0 < cpu.gprs ((opcode >>> 3) &&& 0x0007) &&& 0xFF)
    (h32 : cpu.gprs ((opcode >>> 3) &&& 0x0007) &&& 0xFF < 32) :
    ((_ThumbInstructionLSR2 env cpu opcode).gprs (opcode &&& 0x0007)
        = (cpu.gprs (opcode &&& 0x0007) % 4294967296)
            >>> (cpu.gprs ((opcode >>> 3) &&& 0x0007) &&& 0xFF)
      ∧ (_ThumbInstructionLSR2 env cpu opcode).cpsr.c
        = (decide (cpu.gprs ((opcode >>> 3) &&& 0x0007) &&& 0xFF = 1)
            && decide (cpu.gprs (opcode &&& 0x0007) % 2 = 1))
      ∧ (_ThumbInstructionLSR2 env cpu opcode).cpsr.n
        = decide (bit ((_ThumbInstructionLSR2 env cpu opcode).gprs (opcode &&& 0x0007)) 31 = 1)
      ∧ (_ThumbInstructionLSR2 env cpu opcode).cpsr.z
        = decide ((_ThumbInstructionLSR2 env cpu opcode).gprs (opcode &&& 0x0007) = 0)
      ∧ (_ThumbInstructionLSR2 env cpu opcode).cpsr.v = cpu.cpsr.v)
    ∧ ((_ThumbInstructionASR2 env cpu opcode).gprs (opcode &&& 0x0007)
        = asr32 (cpu.gprs (opcode &&& 0x0007))
            (cpu.gprs ((opcode >>> 3) &&& 0x0007) &&& 0xFF)
      ∧ (_ThumbInstructionASR2 env cpu opcode).cpsr.c
        = (decide (cpu.gprs ((opcode >>> 3) &&& 0x0007) &&& 0xFF = 1)
            && decide (cpu.gprs (opcode &&& 0x0007) % 2 = 1))
      ∧ (_ThumbInstructionASR2 env cpu opcode).cpsr.n
        = decide (bit ((_ThumbInstructionASR2 env cpu opcode).gprs (opcode &&& 0x0007)) 31 = 1)
      ∧ (_ThumbInstructionASR2 env cpu opcode).cpsr.z
        = decide ((_ThumbInstructionASR2 env cpu opcode).gprs (opcode &&& 0x0007) = 0)
      ∧ (_ThumbInstructionASR2 env cpu opcode).cpsr.v = cpu.cpsr.v) := by
  have hne : cpu.gprs ((opcode >>> 3) &&& 0x0007) &&& 0xFF ≠ 0 := by omega
  have hj : ((cpu.gprs ((opcode >>> 3) &&& 0x0007) &&& 0xFF) - 1 = 0)
      = (cpu.gprs ((opcode >>> 3) &&& 0x0007) &&& 0xFF = 1) := by
    apply propext
    omega
  simp [_ThumbInstructionLSR2, _ThumbInstructionASR2, DEFINE_DATA_FORM_5_INSTRUCTION_THUMB,
    DEFINE_INSTRUCTION_THUMB, THUMB_NEUTRAL_S, setReg, setC, bitfield1_sign,
    bitfield1_lnot, bitfield1_and_mask, hne, hj, h32, u32]

/-- C29, at a failing input: `LSR r0, r1` (opcode `0x40C8`) and `ASR r0, r1`
(opcode `0x4108`) with `r0 = 2`, `r1 = 2` (shift count 2) and `C = 0`
beforehand. Bit `2 - 1` of `r0` is 1 and is the last bit shifted out, but the
handlers store `r0 & (1 << 1)` into the single-bit flag, which keeps bit 0 of
that value: `C = 0` afterwards (while `r0 = 0`, `Z = 1`, `N = 0` and `V` is
unchanged, as claimed). -/
theorem shift_register_carry_lost :
    (sampleCore [2, 2] false).gprs ((0x40C8 >>> 3) &&& 0x0007) &&& 0xFF = 2
    ∧ (sampleCore [2, 2] false).gprs ((0x4108 >>> 3) &&& 0x0007) &&& 0xFF = 2
    ∧ bit ((sampleCore [2, 2] false).gprs (0x40C8 &&& 0x0007)) (2 - 1) = 1
    ∧ (_ThumbInstructionLSR2 (sampleEnv 0x40C8) (sampleCore [2, 2] false) 0x40C8).gprs 0 = 0
    ∧ (_ThumbInstructionLSR2 (sampleEnv 0x40C8) (sampleCore [2, 2] false) 0x40C8).cpsr
        = { n := false, z := true, c := false, v := false }
    ∧ (_ThumbInstructionASR2 (sampleEnv 0x4108) (sampleCore [2, 2] false) 0x4108).gprs 0 = 0
    ∧ (_ThumbInstructionASR2 (sampleEnv 0x4108) (sampleCore [2, 2] false) 0x4108).cpsr
        = { n := false, z := true, c := false, v := false } := by
  decide

/-- C30: for every value `x` of `rd` and shift count `k` (value of the shift
register `& 0xFF`) with `k ≥ 32`: LSR2 leaves `rd = 0` with `C = bit31(x)`
when `k = 32` and `C = 0` when `k > 32`; ASR2 leaves `rd = 0xFFFFFFFF` if
`bit31(x) = 1` and 0 otherwise, with `C = bit31(x)`; in all cases
`N = bit31(rd)`, `Z = (rd = 0)`, and `V` is unchanged. -/
theorem shift_large_count (env : Env M) (cpu : ARMCore M) (opcode : Nat)
    (hk : 32 ≤ cpu.gprs ((opcode >>> 3) &&& 0x0007) &&& 0xFF) :
    ((_ThumbInstructionLSR2 env cpu opcode).gprs (opcode &&& 0x0007) = 0
      ∧ (_ThumbInstructionLSR2 env cpu opcode).cpsr.c
        = (decide (cpu.gprs ((opcode >>> 3) &&& 0x0007) &&& 0xFF = 32)
            && decide (bit (cpu.gprs (opcode &&& 0x0007)) 31 = 1))
      ∧ (_ThumbInstructionLSR2 env cpu opcode).cpsr.n
        = decide (bit ((_ThumbInstructionLSR2 env cpu opcode).gprs (opcode &&& 0x0007)) 31 = 1)
      ∧ (_ThumbInstructionLSR2 env cpu opcode).cpsr.z
        = decide ((_ThumbInstructionLSR2 env cpu opcode).gprs (opcode &&& 0x0007) = 0)
      ∧ (_ThumbInstructionLSR2 env cpu opcode).cpsr.v = cpu.cpsr.v)
    ∧ ((_ThumbInstructionASR2 env cpu opcode).gprs (opcode &&& 0x0007)
        = (if bit (cpu.gprs (opcode &&& 0x0007)) 31 = 1 then 0xFFFFFFFF else 0)
      ∧ (_ThumbInstructionASR2 env cpu opcode).cpsr.c
        = decide (bit (cpu.gprs (opcode &&& 0x0007)) 31 = 1)
      ∧ (_ThumbInstructionASR2 env cpu opcode).cpsr.n
        = decide (bit ((_ThumbInstructionASR2 env cpu opcode).gprs (opcode &&& 0x0007)) 31 = 1)
      ∧ (_ThumbInstructionASR2 env cpu opcode).cpsr.z
        = decide ((_ThumbInstructionASR2 env cpu opcode).gprs (opcode &&& 0x0007) = 0)
      ∧ (_ThumbInstructionASR2 env cpu opcode).cpsr.v = cpu.cpsr.v) := by
  have hne : cpu.gprs ((opcode >>> 3) &&& 0x0007) &&& 0xFF ≠ 0 := by omega
  have hlt : ¬ cpu.gprs ((opcode >>> 3) &&& 0x0007) &&& 0xFF < 32 := by omega
  have hgt : (32 < cpu.gprs ((opcode >>> 3) &&& 0x0007) &&& 0xFF)
      = ¬ (cpu.gprs ((opcode >>> 3) &&& 0x0007) &&& 0xFF = 32) := by
    apply propext
    omega
  have hb0 : bitfield1 0 = false := by decide
  refine ⟨?_, ?_⟩
  · by_cases h : cpu.gprs ((opcode >>> 3) &&& 0x0007) &&& 0xFF = 32
    · simp [_ThumbInstructionLSR2, DEFINE_DATA_FORM_5_INSTRUCTION_THUMB,
        DEFINE_INSTRUCTION_THUMB, THUMB_NEUTRAL_S, setReg, setC, bitfield1_sign,
        bitfield1_lnot, h]
    · simp [_ThumbInstructionLSR2, DEFINE_DATA_FORM_5_INSTRUCTION_THUMB,
        DEFINE_INSTRUCTION_THUMB, THUMB_NEUTRAL_S, setReg, setC, bitfield1_sign,
        bitfield1_lnot, h, hne, hlt, hgt, hb0]
  · by_cases hs : bit (cpu.gprs (opcode &&& 0x0007)) 31 = 1
    · simp [_ThumbInstructionASR2, DEFINE_DATA_FORM_5_INSTRUCTION_THUMB,
        DEFINE_INSTRUCTION_THUMB, THUMB_NEUTRAL_S, setReg, setC, bitfield1_sign,
        bitfield1_lnot, hs, hne, hlt]
    · simp [_ThumbInstructionASR2, DEFINE_DATA_FORM_5_INSTRUCTION_THUMB,
        DEFINE_INSTRUCTION_THUMB, THUMB_NEUTRAL_S, setReg, setC, bitfield1_sign,
        bitfield1_lnot, hs, hne, hlt]

/-- Witness of `shift_large_count`: `LSR r0, r1` and `ASR r0, r1` with
`r0 = 0x80000000` and `r1 = 32`: LSR2 gives `r0 = 0`, `C = 1`, `Z = 1`,
`N = 0`; ASR2 gives `r0 = 0xFFFFFFFF`, `C = 1`, `Z = 0`, `N = 1`. -/
theorem shift_large_count_witness :
    32 ≤ (sampleCore [0x80000000, 32] false).gprs ((0x40C8 >>> 3) &&& 0x0007) &&& 0xFF
    ∧ (_ThumbInstructionLSR2 (sampleEnv 0x40C8) (sampleCore [0x80000000, 32] false)
          0x40C8).gprs (0x40C8 &&& 0x0007) = 0
    ∧ (_ThumbInstructionLSR2 (sampleEnv 0x40C8) (sampleCore [0x80000000, 32] false)
          0x40C8).cpsr = { n := false, z := true, c := true, v := false }
    ∧ (_ThumbInstructionASR2 (sampleEnv 0x40C8) (sampleCore [0x80000000, 32] false)
          0x40C8).gprs (0x40C8 &&& 0x0007) = 0xFFFFFFFF
    ∧ (_ThumbInstructionASR2 (sampleEnv 0x40C8) (sampleCore [0x80000000, 32] false)
          0x40C8).cpsr = { n := true, z := false, c := true, v := false } :=
  ⟨by decide,
   (shift_large_count (sampleEnv 0x40C8) (sampleCore [0x80000000, 32] false) 0x40C8
     (by decide)).1.1,
   by decide,
   ((shift_large_count (sampleEnv 0x40C8) (sampleCore [0x80000000, 32] false) 0x40C8
     (by decide)).2.1).trans (by decide),
   by decide⟩

/-! ## Cycle accounting -/

/-- A handler built with `DEFINE_INSTRUCTION_THUMB` whose body leaves the
cycle counter as it is adds `1 + activePrefetchCycles16` to it, the field
being read after the body. -/
theorem DEFINE_INSTRUCTION_THUMB_cycles (env : Env M) (BODY : ARMCore M → Nat → ARMCore M)
    (cpu : ARMCore M) (opcode : Nat) (h : (BODY cpu opcode).cycles = cpu.cycles) :
    (DEFINE_INSTRUCTION_THUMB env BODY cpu opcode).cycles
      = cpu.cycles
        + (1 + env.memory.activePrefetchCycles16
            (DEFINE_INSTRUCTION_THUMB env BODY cpu opcode).memory) := by
  unfold DEFINE_INSTRUCTION_THUMB
  simp only [h]

/-- The loop of a block transfer whose body leaves the cycle counter as it is
leaves the cycle counter as it is, whatever the register list. -/
theorem transfer_loop_cycles (rs : Nat) (OP : Nat → Nat → Nat)
    (BODY : Nat → Transfer M → ARMCore M)
    (hbody : ∀ i t, (BODY i t).cycles = t.cpu.cycles)
    (t : Transfer M) :
    (LOOP_UP (fun m i t =>
        if rs &&& m ≠ 0 then { cpu := BODY i t, address := OP t.address 4 } else t) t).cpu.cycles
          = t.cpu.cycles
    ∧ (LOOP_DOWN (fun m i t =>
        if rs &&& m ≠ 0 then { cpu := BODY i t, address := OP t.address 4 } else t) t).cpu.cycles
          = t.cpu.cycles := by
  have hstep : ∀ (m i : Nat) (s : Transfer M), i ≤ 7 →
      s.cpu.cycles = t.cpu.cycles →
      (if rs &&& m ≠ 0 then ({ cpu := BODY i s, address := OP s.address 4 } : Transfer M)
        else s).cpu.cycles = t.cpu.cycles := by
    intro m i s _ hs
    split
    · show (BODY i s).cycles = _
      rw [hbody i s, hs]
    · exact hs
  constructor
  · exact loopUp_invariant (fun s => s.cpu.cycles = t.cpu.cycles) _
      (fun m i s hi hs => hstep m i s (by omega) hs) 9 0x01 0 t rfl
  · exact loopDown_invariant (fun s => s.cpu.cycles = t.cpu.cycles) _
      hstep 9 0x80 7 t (by omega) rfl

/-- A block-transfer handler whose loop body, pre-body, post-body and
write-back leave the cycle counter as it is adds `1 + activePrefetchCycles16`
to it. -/
theorem DEFINE_LOAD_STORE_MULTIPLE_EX_THUMB_cycles (env : Env M) (RS : Nat → Nat)
    (ADDRESS : ARMCore M → Nat → Nat)
    (BODY : Nat → Transfer M → ARMCore M) (OP : Nat → Nat → Nat)
    (PRE_BODY POST_BODY : Transfer M → Transfer M)
    (WRITEBACK : Nat → Nat → Transfer M → ARMCore M) (cpu : ARMCore M) (opcode : Nat)
    (hbody : ∀ i t, (BODY i t).cycles = t.cpu.cycles)
    (hpre : ∀ t, (PRE_BODY t).cpu.cycles = t.cpu.cycles)
    (hpost : ∀ t, (POST_BODY t).cpu.cycles = t.cpu.cycles)
    (hwb : ∀ rn rs t, (WRITEBACK rn rs t).cycles = t.cpu.cycles) :
    (DEFINE_LOAD_STORE_MULTIPLE_EX_THUMB env RS ADDRESS LOOP_UP BODY OP PRE_BODY POST_BODY
        WRITEBACK cpu opcode).cycles
      = cpu.cycles + (1 + env.memory.activePrefetchCycles16
          (DEFINE_LOAD_STORE_MULTIPLE_EX_THUMB env RS ADDRESS LOOP_UP BODY OP PRE_BODY POST_BODY
            WRITEBACK cpu opcode).memory)
    ∧ (DEFINE_LOAD_STORE_MULTIPLE_EX_THUMB env RS ADDRESS LOOP_DOWN BODY OP PRE_BODY POST_BODY
        WRITEBACK cpu opcode).cycles
      = cpu.cycles + (1 + env.memory.activePrefetchCycles16
          (DEFINE_LOAD_STORE_MULTIPLE_EX_THUMB env RS ADDRESS LOOP_DOWN BODY OP PRE_BODY
            POST_BODY WRITEBACK cpu opcode).memory) := by
  constructor
  · unfold DEFINE_LOAD_STORE_MULTIPLE_EX_THUMB
    apply DEFINE_INSTRUCTION_THUMB_cycles
    simp only []
    rw [hwb, hpost, (transfer_loop_cycles _ OP BODY hbody _).1, hpre]
  · unfold DEFINE_LOAD_STORE_MULTIPLE_EX_THUMB
    apply DEFINE_INSTRUCTION_THUMB_cycles
    simp only []
    rw [hwb, hpost, (transfer_loop_cycles _ OP BODY hbody _).2, hpre]

/-- The block transfers add `1 + activePrefetchCycles16` to the cycle counter,
whatever the register list; for POPR, if the PC-write ritual leaves the
counter as it is. -/
theorem block_transfer_cycles (env : Env M) (cpu : ARMCore M) (opcode k : Nat)
    (hT : ∀ c, (env.THUMB_WRITE_PC c).cycles = c.cycles) :
    (_ThumbInstructionLDMIA_R env k cpu opcode).cycles
        = cpu.cycles + (1 + env.memory.activePrefetchCycles16
            (_ThumbInstructionLDMIA_R env k cpu opcode).memory)
    ∧ (_ThumbInstructionSTMIA_R env k cpu opcode).cycles
        = cpu.cycles + (1 + env.memory.activePrefetchCycles16
            (_ThumbInstructionSTMIA_R env k cpu opcode).memory)
    ∧ (_ThumbInstructionPOP env cpu opcode).cycles
        = cpu.cycles + (1 + env.memory.activePrefetchCycles16
            (_ThumbInstructionPOP env cpu opcode).memory)
    ∧ (_ThumbInstructionPOPR env cpu opcode).cycles
        = cpu.cycles + (1 + env.memory.activePrefetchCycles16
            (_ThumbInstructionPOPR env cpu opcode).memory)
    ∧ (_ThumbInstructionPUSH env cpu opcode).cycles
        = cpu.cycles + (1 + env.memory.activePrefetchCycles16
            (_ThumbInstructionPUSH env cpu opcode).memory)
    ∧ (_ThumbInstructionPUSHR env cpu opcode).cycles
        = cpu.cycles + (1 + env.memory.activePrefetchCycles16
            (_ThumbInstructionPUSHR env cpu opcode).memory) := by
  refine ⟨?_, ?_, ?_, ?_, ?_, ?_⟩
  · unfold _ThumbInstructionLDMIA_R DEFINE_LOAD_STORE_MULTIPLE_THUMB
    refine (DEFINE_LOAD_STORE_MULTIPLE_EX_THUMB_cycles env _ _ _ _ _ _ _ cpu opcode
      ?_ ?_ ?_ ?_).1
    · intro i t
      rfl
    · intro t
      rfl
    · intro t
      rfl
    · intro rn rs t
      show (if _ then _ else _ : ARMCore M).cycles = _
      split <;> rfl
  · unfold _ThumbInstructionSTMIA_R DEFINE_LOAD_STORE_MULTIPLE_THUMB
    refine (DEFINE_LOAD_STORE_MULTIPLE_EX_THUMB_cycles env _ _ _ _ _ _ _ cpu opcode
      ?_ ?_ ?_ ?_).1
    · intro i t
      rfl
    · intro t
      rfl
    · intro t
      rfl
    · intro rn rs t
      rfl
  · unfold _ThumbInstructionPOP
    refine (DEFINE_LOAD_STORE_MULTIPLE_EX_THUMB_cycles env _ _ _ _ _ _ _ cpu opcode
      ?_ ?_ ?_ ?_).1
    · intro i t
      rfl
    · intro t
      rfl
    · intro t
      rfl
    · intro rn rs t
      rfl
  · unfold _ThumbInstructionPOPR
    refine (DEFINE_LOAD_STORE_MULTIPLE_EX_THUMB_cycles env _ _ _ _ _ _ _ cpu opcode
      ?_ ?_ ?_ ?_).1
    · intro i t
      rfl
    · intro t
      rfl
    · intro t
      rfl
    · intro rn rs t
      exact hT _
  · unfold _ThumbInstructionPUSH
    refine (DEFINE_LOAD_STORE_MULTIPLE_EX_THUMB_cycles env _ _ _ _ _ _ _ cpu opcode
      ?_ ?_ ?_ ?_).2
    · intro i t
      rfl
    · intro t
      rfl
    · intro t
      rfl
    · intro rn rs t
      rfl
  · unfold _ThumbInstructionPUSHR
    refine (DEFINE_LOAD_STORE_MULTIPLE_EX_THUMB_cycles env _ _ _ _ _ _ _ cpu opcode
      ?_ ?_ ?_ ?_).2
    · intro i t
      rfl
    · intro t
      rfl
    · intro t
      rfl
    · intro rn rs t
      rfl

/-- Every handler that is neither a stub nor SWI adds
`1 + activePrefetchCycles16` to the cycle counter, if the PC-write rituals and
`_ARMSetMode` leave the counter as it is. -/
theorem run_cycles (env : Env M)
    (hT : ∀ c, (env.THUMB_WRITE_PC c).cycles = c.cycles)
    (hA : ∀ c, (env.ARM_WRITE_PC c).cycles = c.cycles)
    (hM : ∀ c m, (env._ARMSetMode c m).cycles = c.cycles)
    (instruction : ThumbInstruction) (cpu : ARMCore M) (opcode : Nat)
    (hs : instruction.isStub = false) (hswi : instruction ≠ ThumbInstruction.SWI) :
    (instruction.run env cpu opcode).cycles
      = cpu.cycles
        + (1 + env.memory.activePrefetchCycles16 (instruction.run env cpu opcode).memory) := by
  cases instruction <;>
    simp only [ThumbInstruction.isStub, Bool.true_eq_false, ne_eq, not_true_eq_false] at hs hswi <;>
    simp only [ThumbInstruction.run]
  case LDMIA_R k => exact (block_transfer_cycles env cpu opcode k hT).1
  case STMIA_R k => exact (block_transfer_cycles env cpu opcode k hT).2.1
  case POP => exact (block_transfer_cycles env cpu opcode 0 hT).2.2.1
  case POPR => exact (block_transfer_cycles env cpu opcode 0 hT).2.2.2.1
  case PUSH => exact (block_transfer_cycles env cpu opcode 0 hT).2.2.2.2.1
  case PUSHR => exact (block_transfer_cycles env cpu opcode 0 hT).2.2.2.2.2
  all_goals
    simp only [_ThumbInstructionLSL1_, _ThumbInstructionLSR1_, _ThumbInstructionASR1_,
      _ThumbInstructionLDR1_, _ThumbInstructionLDRB1_, _ThumbInstructionLDRH1_,
      _ThumbInstructionSTR1_, _ThumbInstructionSTRB1_, _ThumbInstructionSTRH1_,
      _ThumbInstructionADD3_R, _ThumbInstructionSUB3_R, _ThumbInstructionADD1_,
      _ThumbInstructionSUB1_, _ThumbInstructionADD2_R, _ThumbInstructionCMP1_R,
      _ThumbInstructionMOV1_R, _ThumbInstructionSUB2_R, _ThumbInstructionAND,
      _ThumbInstructionEOR, _ThumbInstructionLSR2, _ThumbInstructionASR2,
      _ThumbInstructionNEG, _ThumbInstructionCMP2, _ThumbInstructionORR,
      _ThumbInstructionMUL, _ThumbInstructionBIC, _ThumbInstructionMVN,
      _ThumbInstructionADD4, _ThumbInstructionCMP3, _ThumbInstructionMOV3,
      _ThumbInstructionLDR3_R, _ThumbInstructionLDR4_R,
      _ThumbInstructionSTR3_R, _ThumbInstructionADD6_R, _ThumbInstructionLDRB2_R,
      _ThumbInstructionLDRH2_R, _ThumbInstructionLDRSB_R, _ThumbInstructionLDRSH_R,
      _ThumbInstructionBEQ, _ThumbInstructionBNE, _ThumbInstructionBCS, _ThumbInstructionBCC,
      _ThumbInstructionBMI, _ThumbInstructionBPL, _ThumbInstructionBVS, _ThumbInstructionBVC,
      _ThumbInstructionBLS, _ThumbInstructionBHI, _ThumbInstructionBGE, _ThumbInstructionBLT,
      _ThumbInstructionBGT, _ThumbInstructionBLE, _ThumbInstructionADD7, _ThumbInstructionSUB4,
      _ThumbInstructionB, _ThumbInstructionBL1, _ThumbInstructionBL2, _ThumbInstructionBX,
      DEFINE_IMMEDIATE_5_INSTRUCTION_EX_THUMB, DEFINE_DATA_FORM_1_INSTRUCTION_EX_THUMB,
      DEFINE_DATA_FORM_2_INSTRUCTION_EX_THUMB, DEFINE_DATA_FORM_3_INSTRUCTION_EX_THUMB,
      DEFINE_DATA_FORM_5_INSTRUCTION_THUMB, DEFINE_INSTRUCTION_WITH_HIGH_EX_THUMB,
      DEFINE_IMMEDIATE_WITH_REGISTER_EX_THUMB, DEFINE_LOAD_STORE_WITH_REGISTER_EX_THUMB,
      DEFINE_CONDITIONAL_BRANCH_THUMB]
    apply DEFINE_INSTRUCTION_THUMB_cycles
    simp [THUMB_NEUTRAL_S, THUMB_ADDITION, THUMB_ADDITION_S, THUMB_SUBTRACTION,
      THUMB_SUBTRACTION_S, setC, setReg, hT, hA, hM, apply_ite ARMCore.cycles]

/-- C26: if the PC-write rituals and `_ARMSetMode` leave the cycle counter as
it is, then for every handler that is neither a stub nor SWI and every state,
executing the handler increases the cycle counter by exactly
`1 + activePrefetchCycles16` (the field as it stands after the body),
whatever the operands and the register list of a block transfer; so when
`activePrefetchCycles16` is non-negative the counter increases by at least 1,
also across a `ThumbStep` that dispatches to such a handler. -/
theorem cycles_charged (env : Env M)
    (hT : ∀ c, (env.THUMB_WRITE_PC c).cycles = c.cycles)
    (hA : ∀ c, (env.ARM_WRITE_PC c).cycles = c.cycles)
    (hM : ∀ c m, (env._ARMSetMode c m).cycles = c.cycles) :
    (∀ (instruction : ThumbInstruction) (cpu : ARMCore M) (opcode : Nat),
      instruction.isStub = false → instruction ≠ ThumbInstruction.SWI →
        (instruction.run env cpu opcode).cycles
            = cpu.cycles
              + (1 + env.memory.activePrefetchCycles16 (instruction.run env cpu opcode).memory)
        ∧ (0 ≤ env.memory.activePrefetchCycles16 (instruction.run env cpu opcode).memory →
            cpu.cycles + 1 ≤ (instruction.run env cpu opcode).cycles))
    ∧ (∀ cpu : ARMCore M, ∃ instruction opcode pre,
        ThumbStep env cpu = some (instruction.run env pre opcode)
        ∧ pre.cycles = cpu.cycles
        ∧ (instruction.isStub = false → instruction ≠ ThumbInstruction.SWI →
            0 ≤ env.memory.activePrefetchCycles16 (instruction.run env pre opcode).memory →
              cpu.cycles + 1 ≤ (instruction.run env pre opcode).cycles)) := by
  have hrun : ∀ (instruction : ThumbInstruction) (cpu : ARMCore M) (opcode : Nat),
      instruction.isStub = false → instruction ≠ ThumbInstruction.SWI →
        (instruction.run env cpu opcode).cycles
            = cpu.cycles
              + (1 + env.memory.activePrefetchCycles16 (instruction.run env cpu opcode).memory)
        ∧ (0 ≤ env.memory.activePrefetchCycles16 (instruction.run env cpu opcode).memory →
            cpu.cycles + 1 ≤ (instruction.run env cpu opcode).cycles) := by
    intro instruction cpu opcode hs hswi
    have h := run_cycles env hT hA hM instruction cpu opcode hs hswi
    exact ⟨h, fun h0 => by omega⟩
  refine ⟨hrun, ?_⟩
  intro cpu
  have hlt : env.memory.activeRegion cpu.memory
      ((sub32 (u32 (cpu.gprs ARM_PC)) WORD_SIZE_THUMB &&& env.memory.activeMask cpu.memory)
        >>> 1) % 65536 < 65536 := Nat.mod_lt _ (by decide)
  refine ⟨specDecode (((env.memory.activeRegion cpu.memory
      ((sub32 (u32 (cpu.gprs ARM_PC)) WORD_SIZE_THUMB &&& env.memory.activeMask cpu.memory)
        >>> 1) % 65536) >>> 6) <<< 6),
    env.memory.activeRegion cpu.memory
      ((sub32 (u32 (cpu.gprs ARM_PC)) WORD_SIZE_THUMB &&& env.memory.activeMask cpu.memory)
        >>> 1) % 65536,
    setReg cpu ARM_PC (add32 (u32 (cpu.gprs ARM_PC)) WORD_SIZE_THUMB), ?_, rfl, ?_⟩
  · unfold ThumbStep
    have hm : (setReg cpu ARM_PC (add32 (u32 (cpu.gprs ARM_PC)) WORD_SIZE_THUMB)).memory
        = cpu.memory := rfl
    simp only [hm]
    rw [thumbTable_getElem? _ (opcode_index_lt _ hlt)]
  · intro hs hswi h0
    exact (hrun _ _ _ hs hswi).2 h0

/-- Witness of `cycles_charged`: over `sampleEnv`, whose rituals leave the CPU
record as it is and whose `activePrefetchCycles16` is 0, `PUSH {r0-r7}`
(opcode `0xB4FF`) takes the counter from 0 to 1. -/
theorem cycles_charged_witness :
    ((∀ c, ((sampleEnv 0xB4FF).THUMB_WRITE_PC c).cycles = c.cycles)
      ∧ (∀ c, ((sampleEnv 0xB4FF).ARM_WRITE_PC c).cycles = c.cycles)
      ∧ (∀ c m, ((sampleEnv 0xB4FF)._ARMSetMode c m).cycles = c.cycles))
    ∧ (_ThumbInstructionPUSH (sampleEnv 0xB4FF) (sampleCore [] false) 0xB4FF).cycles = 1 :=
  ⟨⟨fun _ => rfl, fun _ => rfl, fun _ _ => rfl⟩,
   (((cycles_charged (sampleEnv 0xB4FF) (fun _ => rfl) (fun _ => rfl) (fun _ _ => rfl)).1
      ThumbInstruction.PUSH (sampleCore [] false) 0xB4FF rfl
      (fun h => ThumbInstruction.noConfusion h)).1).trans (by decide)⟩

/-! ## High registers, comparisons and NEG -/

/-- The table entry of a 16-bit opcode is the handler that the decoder of the
specification names. -/
theorem thumbTable_opcode (opcode : Nat) (h : opcode < 65536) :
    _thumbTable[opcode >>> 6]? = some (specDecode opcode) := by
  rw [thumbTable_getElem? _ (opcode_index_lt _ h), specDecode_high_bits]

/-- Bit `k` of a word, by shift and mask. -/
theorem shiftRight_and_one (x k : Nat) : (x >>> k) &&& 1 = bit x k := by
  rw [Nat.and_one_is_mod, Nat.shiftRight_eq_div_pow]
  rfl

/-- A 3-bit register field extended by a high bit indexes the 16-register
file. -/
theorem high_register_lt (x b : Nat) (hb : b < 2) : (x &&& 0x0007) ||| 8 * b < 16 := by
  have h7 : x &&& 0x0007 < 2 ^ 4 := Nat.lt_of_le_of_lt Nat.and_le_right (by decide)
  have h8 : 8 * b < 2 ^ 4 := by omega
  exact Nat.or_lt_two_pow h7 h8

/-- The decoder of the specification on the high-register forms ADD4 and
MOV3. -/
theorem specDecode_high (opcode : Nat) :
    (opcode >>> 8 = 0x44 →
      specDecode opcode = ThumbInstruction.ADD4 (8 * bit opcode 7) (8 * bit opcode 6))
    ∧ (opcode >>> 8 = 0x46 →
      specDecode opcode = ThumbInstruction.MOV3 (8 * bit opcode 7) (8 * bit opcode 6)) := by
  constructor
  · intro h
    simp only [Nat.shiftRight_eq_div_pow] at h
    have e12 : opcode / 4096 = 4 := by omega
    have e11 : opcode / 2048 = 8 := by omega
    have e10 : opcode / 1024 % 2 = 1 := by omega
    have e8 : opcode / 256 = 68 := by omega
    simp [specDecode, e12, e11, e10, e8, bit, Nat.shiftRight_eq_div_pow]
  · intro h
    simp only [Nat.shiftRight_eq_div_pow] at h
    have e12 : opcode / 4096 = 4 := by omega
    have e11 : opcode / 2048 = 8 := by omega
    have e10 : opcode / 1024 % 2 = 1 := by omega
    have e8 : opcode / 256 = 70 := by omega
    simp [specDecode, e12, e11, e10, e8, bit, Nat.shiftRight_eq_div_pow]

/-- C31: for every 16-bit ADD4 opcode (`opcode >> 8 = 0x44`) and MOV3 opcode
(`opcode >> 8 = 0x46`) with `H1`, `H2` the opcode bits 7 and 6, the handler
found in the table works on the registers `rd = (opcode & 7) | 8 * H1` and
`rm = ((opcode >> 3) & 7) | 8 * H2` of the 16-register file: ADD4 sets `rd`
to `(rd + rm) mod 2^32`, MOV3 sets `rd` to `rm`; no other register changes
and the flags are unchanged. -/
theorem ADD4_MOV3_high (env : Env M) (cpu : ARMCore M) (opcode : Nat)
    (h : opcode < 65536) :
    ∃ instruction, _thumbTable[opcode >>> 6]? = some instruction
      ∧ (opcode &&& 0x0007) ||| 8 * bit opcode 7 < 16
      ∧ ((opcode >>> 3) &&& 0x0007) ||| 8 * bit opcode 6 < 16
      ∧ (opcode >>> 8 = 0x44 →
          (instruction.run env cpu opcode).gprs ((opcode &&& 0x0007) ||| 8 * bit opcode 7)
              = (cpu.gprs ((opcode &&& 0x0007) ||| 8 * bit opcode 7)
                  + cpu.gprs (((opcode >>> 3) &&& 0x0007) ||| 8 * bit opcode 6)) % 4294967296
          ∧ (∀ i, i ≠ (opcode &&& 0x0007) ||| 8 * bit opcode 7 →
              (instruction.run env cpu opcode).gprs i = cpu.gprs i)
          ∧ (instruction.run env cpu opcode).cpsr = cpu.cpsr)
      ∧ (opcode >>> 8 = 0x46 →
          (instruction.run env cpu opcode).gprs ((opcode &&& 0x0007) ||| 8 * bit opcode 7)
              = cpu.gprs (((opcode >>> 3) &&& 0x0007) ||| 8 * bit opcode 6)
          ∧ (∀ i, i ≠ (opcode &&& 0x0007) ||| 8 * bit opcode 7 →
              (instruction.run env cpu opcode).gprs i = cpu.gprs i)
          ∧ (instruction.run env cpu opcode).cpsr = cpu.cpsr) := by
  have hb7 : bit opcode 7 < 2 := Nat.mod_lt _ (by decide)
  have hb6 : bit opcode 6 < 2 := Nat.mod_lt _ (by decide)
  refine ⟨specDecode opcode, thumbTable_opcode opcode h, high_register_lt _ _ hb7,
    high_register_lt _ _ hb6, ?_, ?_⟩
  · intro hc
    rw [(specDecode_high opcode).1 hc]
    refine ⟨?_, ?_, rfl⟩
    · simp [ThumbInstruction.run, _ThumbInstructionADD4, DEFINE_INSTRUCTION_WITH_HIGH_EX_THUMB,
        DEFINE_INSTRUCTION_THUMB, setReg, add32]
    · intro i hi
      simp [ThumbInstruction.run, _ThumbInstructionADD4, DEFINE_INSTRUCTION_WITH_HIGH_EX_THUMB,
        DEFINE_INSTRUCTION_THUMB, setReg, hi]
  · intro hc
    rw [(specDecode_high opcode).2 hc]
    refine ⟨?_, ?_, rfl⟩
    · simp [ThumbInstruction.run, _ThumbInstructionMOV3, DEFINE_INSTRUCTION_WITH_HIGH_EX_THUMB,
        DEFINE_INSTRUCTION_THUMB, setReg]
    · intro i hi
      simp [ThumbInstruction.run, _ThumbInstructionMOV3, DEFINE_INSTRUCTION_WITH_HIGH_EX_THUMB,
        DEFINE_INSTRUCTION_THUMB, setReg, hi]

/-- Witness of `ADD4_MOV3_high`: `ADD r8, r9` (opcode `0x44C8`) with
`r8 = 0xFFFFFFFF` and `r9 = 2` is dispatched to the handler
`_ThumbInstructionADD411`, and `r8 = 1` afterwards. -/
theorem ADD4_MOV3_high_witness :
    0x44C8 < 65536
    ∧ ∃ instruction, _thumbTable[0x44C8 >>> 6]? = some instruction
      ∧ instruction = ThumbInstruction.ADD4 8 8
      ∧ (instruction.run (sampleEnv 0x44C8)
            (sampleCore [0, 0, 0, 0, 0, 0, 0, 0, 0xFFFFFFFF, 2] false) 0x44C8).gprs 8 = 1 := by
  obtain ⟨instruction, ht, -, -, hadd, -⟩ :=
    ADD4_MOV3_high (sampleEnv 0x44C8)
      (sampleCore [0, 0, 0, 0, 0, 0, 0, 0, 0xFFFFFFFF, 2] false) 0x44C8 (by decide)
  refine ⟨by decide, instruction, ht, ?_, (hadd (by decide)).1.trans (by decide)⟩
  have h2 := thumbTable_opcode 0x44C8 (by decide)
  rw [ht] at h2
  exact (Option.some.inj h2).trans (by decide)

/-- C32: for every CMP1, CMP2 and CMP3 opcode and every state, the handler
leaves all general-purpose registers (also `rd`), the memory and the execution
mode as they are: only the flags and the cycle counter change. Here `k` is
the constant of the specialisation of CMP1 and `h1`, `h2` are the
high-register extensions of CMP3. -/
theorem CMP_discards_difference (env : Env M) (cpu : ARMCore M) (opcode k h1 h2 : Nat) :
    ((_ThumbInstructionCMP1_R env k cpu opcode).gprs = cpu.gprs
      ∧ (_ThumbInstructionCMP1_R env k cpu opcode).memory = cpu.memory
      ∧ (_ThumbInstructionCMP1_R env k cpu opcode).executionMode = cpu.executionMode)
    ∧ ((_ThumbInstructionCMP2 env cpu opcode).gprs = cpu.gprs
      ∧ (_ThumbInstructionCMP2 env cpu opcode).memory = cpu.memory
      ∧ (_ThumbInstructionCMP2 env cpu opcode).executionMode = cpu.executionMode)
    ∧ ((_ThumbInstructionCMP3 env h1 h2 cpu opcode).gprs = cpu.gprs
      ∧ (_ThumbInstructionCMP3 env h1 h2 cpu opcode).memory = cpu.memory
      ∧ (_ThumbInstructionCMP3 env h1 h2 cpu opcode).executionMode = cpu.executionMode) :=
  ⟨⟨rfl, rfl, rfl⟩, ⟨rfl, rfl, rfl⟩, ⟨rfl, rfl, rfl⟩⟩

/-- C33: for every NEG opcode and every 32-bit value `x` of `rn` (also if
`rn = rd`): afterwards `rd = (0 - x) mod 2^32`, `N = bit31(rd)`, `Z = (x = 0)`,
`C = 1` iff `x = 0`, and `V = 1` iff `x = 0x80000000`. -/
theorem NEG_negates (env : Env M) (cpu : ARMCore M) (opcode : Nat)
    (hx : cpu.gprs ((opcode >>> 3) &&& 0x0007) < 4294967296) :
    (_ThumbInstructionNEG env cpu opcode).gprs (opcode &&& 0x0007)
        = wrap32 (0 - (cpu.gprs ((opcode >>> 3) &&& 0x0007) : Int))
    ∧ (_ThumbInstructionNEG env cpu opcode).cpsr.n
        = decide (bit ((_ThumbInstructionNEG env cpu opcode).gprs (opcode &&& 0x0007)) 31 = 1)
    ∧ (_ThumbInstructionNEG env cpu opcode).cpsr.z
        = decide (cpu.gprs ((opcode >>> 3) &&& 0x0007) = 0)
    ∧ (_ThumbInstructionNEG env cpu opcode).cpsr.c
        = decide (cpu.gprs ((opcode >>> 3) &&& 0x0007) = 0)
    ∧ (_ThumbInstructionNEG env cpu opcode).cpsr.v
        = decide (cpu.gprs ((opcode >>> 3) &&& 0x0007) = 0x80000000) := by
  have h := THUMB_SUBTRACTION_post cpu (opcode &&& 0x0007) 0
    (cpu.gprs ((opcode >>> 3) &&& 0x0007)) (by decide) hx
  have hg : (_ThumbInstructionNEG env cpu opcode).gprs
      = (THUMB_SUBTRACTION cpu (opcode &&& 0x0007) 0
          (cpu.gprs ((opcode >>> 3) &&& 0x0007))).gprs := rfl
  have hc : (_ThumbInstructionNEG env cpu opcode).cpsr
      = (THUMB_SUBTRACTION cpu (opcode &&& 0x0007) 0
          (cpu.gprs ((opcode >>> 3) &&& 0x0007))).cpsr := rfl
  obtain ⟨hd, hn, hz, hcc, hv⟩ := h
  rw [hg, hc, hd]
  refine ⟨sub32_eq_wrap32 _ _, hn, ?_, ?_, ?_⟩
  · rw [hz]
    apply decide_eq_decide.2
    simp only [sub32]
    omega
  · apply Bool.eq_iff_iff.2
    rw [hcc]
    simp only [decide_eq_true_eq]
    omega
  · apply Bool.eq_iff_iff.2
    rw [hv]
    simp only [decide_eq_true_eq, bit, sub32]
    omega

/-- Witness of `NEG_negates`: `NEG r0, r1` (opcode `0x4248`) with
`r1 = 0x80000000`: `r0 = 0x80000000`, `N = 1`, `Z = 0`, `C = 0`, `V = 1`. -/
theorem NEG_negates_witness :
    (sampleCore [0, 0x80000000] false).gprs ((0x4248 >>> 3) &&& 0x0007) < 4294967296
    ∧ (_ThumbInstructionNEG (sampleEnv 0x4248) (sampleCore [0, 0x80000000] false)
          0x4248).gprs (0x4248 &&& 0x0007) = 0x80000000
    ∧ (_ThumbInstructionNEG (sampleEnv 0x4248) (sampleCore [0, 0x80000000] false)
          0x4248).cpsr = { n := true, z := false, c := false, v := true } :=
  ⟨by decide,
   ((NEG_negates (sampleEnv 0x4248) (sampleCore [0, 0x80000000] false) 0x4248
     (by decide)).1).trans (by decide),
   by decide⟩

/-! ## Immediate-offset single transfers -/

/-- The decoder of the specification on the immediate-offset single
transfers: the class is opcode bits 15..11 and the constant of the
specialisation is opcode bits 10..6. -/
theorem specDecode_imm5 (opcode : Nat) :
    (opcode >>> 11 = 0b01100 →
      specDecode opcode = ThumbInstruction.STR1_ ((opcode >>> 6) &&& 0x1F))
    ∧ (opcode >>> 11 = 0b01101 →
      specDecode opcode = ThumbInstruction.LDR1_ ((opcode >>> 6) &&& 0x1F))
    ∧ (opcode >>> 11 = 0b01110 →
      specDecode opcode = ThumbInstruction.STRB1_ ((opcode >>> 6) &&& 0x1F))
    ∧ (opcode >>> 11 = 0b01111 →
      specDecode opcode = ThumbInstruction.LDRB1_ ((opcode >>> 6) &&& 0x1F))
    ∧ (opcode >>> 11 = 0b10000 →
      specDecode opcode = ThumbInstruction.STRH1_ ((opcode >>> 6) &&& 0x1F))
    ∧ (opcode >>> 11 = 0b10001 →
      specDecode opcode = ThumbInstruction.LDRH1_ ((opcode >>> 6) &&& 0x1F)) := by
  refine ⟨?_, ?_, ?_, ?_, ?_, ?_⟩ <;>
  · intro h
    simp only [Nat.shiftRight_eq_div_pow] at h
    have e12 : opcode / 4096 ≠ 13 := by omega
    simp [specDecode, e12, h, Nat.shiftRight_eq_div_pow]

/-- C34: for every 16-bit opcode of an immediate-offset single transfer, with
`b` the value of the base register (opcode bits 5..3) and `imm5` the opcode
bits 10..6, the handler found in the table calls the memory interface with
the effective address `b + 4 * imm5` for LDR1/STR1, `b + 2 * imm5` for
LDRH1/STRH1 and `b + imm5` for LDRB1/STRB1 (mod `2^32`); the loads use
`load32`, `loadU16` and `loadU8` and write the result to the register in
opcode bits 2..0; the stores use `store32`, `store16` and `store8` and pass
the value of that register; then the cycles are charged. -/
theorem immediate_offset_transfers (env : Env M) (cpu : ARMCore M) (opcode : Nat)
    (h : opcode < 65536) :
    ∃ instruction, _thumbTable[opcode >>> 6]? = some instruction
      ∧ (opcode >>> 11 = 0b01100 →
          instruction.run env cpu opcode
            = DEFINE_INSTRUCTION_THUMB env (fun cpu opcode =>
                specStore env.memory.store32
                  ((cpu.gprs ((opcode >>> 3) &&& 0x0007) + 4 * ((opcode >>> 6) &&& 0x1F))
                    % 4294967296)
                  (opcode &&& 0x0007) cpu) cpu opcode)
      ∧ (opcode >>> 11 = 0b01101 →
          instruction.run env cpu opcode
            = DEFINE_INSTRUCTION_THUMB env (fun cpu opcode =>
                specLoad env.memory.load32
                  ((cpu.gprs ((opcode >>> 3) &&& 0x0007) + 4 * ((opcode >>> 6) &&& 0x1F))
                    % 4294967296)
                  (opcode &&& 0x0007) cpu) cpu opcode)
      ∧ (opcode >>> 11 = 0b01110 →
          instruction.run env cpu opcode
            = DEFINE_INSTRUCTION_THUMB env (fun cpu opcode =>
                specStore env.memory.store8
                  ((cpu.gprs ((opcode >>> 3) &&& 0x0007) + ((opcode >>> 6) &&& 0x1F))
                    % 4294967296)
                  (opcode &&& 0x0007) cpu) cpu opcode)
      ∧ (opcode >>> 11 = 0b01111 →
          instruction.run env cpu opcode
            = DEFINE_INSTRUCTION_THUMB env (fun cpu opcode =>
                specLoad env.memory.loadU8
                  ((cpu.gprs ((opcode >>> 3) &&& 0x0007) + ((opcode >>> 6) &&& 0x1F))
                    % 4294967296)
                  (opcode &&& 0x0007) cpu) cpu opcode)
      ∧ (opcode >>> 11 = 0b10000 →
          instruction.run env cpu opcode
            = DEFINE_INSTRUCTION_THUMB env (fun cpu opcode =>
                specStore env.memory.store16
                  ((cpu.gprs ((opcode >>> 3) &&& 0x0007) + 2 * ((opcode >>> 6) &&& 0x1F))
                    % 4294967296)
                  (opcode &&& 0x0007) cpu) cpu opcode)
      ∧ (opcode >>> 11 = 0b10001 →
          instruction.run env cpu opcode
            = DEFINE_INSTRUCTION_THUMB env (fun cpu opcode =>
                specLoad env.memory.loadU16
                  ((cpu.gprs ((opcode >>> 3) &&& 0x0007) + 2 * ((opcode >>> 6) &&& 0x1F))
                    % 4294967296)
                  (opcode &&& 0x0007) cpu) cpu opcode) := by
  have e4 : ∀ x : Nat, 4 * x = x * 4 := fun x => Nat.mul_comm 4 x
  have e2 : ∀ x : Nat, 2 * x = x * 2 := fun x => Nat.mul_comm 2 x
  obtain ⟨h0, h1, h2, h3, h4, h5⟩ := specDecode_imm5 opcode
  refine ⟨specDecode opcode, thumbTable_opcode opcode h, ?_, ?_, ?_, ?_, ?_, ?_⟩
  · intro hc
    rw [h0 hc]
    simp only [e4]
    rfl
  · intro hc
    rw [h1 hc]
    simp only [e4]
    rfl
  · intro hc
    rw [h2 hc]
    rfl
  · intro hc
    rw [h3 hc]
    rfl
  · intro hc
    rw [h4 hc]
    simp only [e2]
    rfl
  · intro hc
    rw [h5 hc]
    simp only [e2]
    rfl

/-- Witness of `immediate_offset_transfers`: `STR r0, [r1, #4]` (opcode
`0x6048`) with `r0 = 0xDEADBEEF` and `r1 = 0x03000000` over the memory
`storeLog`: the handler found in the table records one 32-bit store of
`0xDEADBEEF` at `0x03000004`. -/
theorem immediate_offset_transfers_witness :
    0x6048 < 65536
    ∧ ∃ instruction, _thumbTable[0x6048 >>> 6]? = some instruction
      ∧ (instruction.run logEnv (logCore [0xDEADBEEF, 0x03000000] []) 0x6048).memory
        = [(32, 0x03000004, 0xDEADBEEF)] := by
  obtain ⟨instruction, ht, hstr, -⟩ :=
    immediate_offset_transfers logEnv (logCore [0xDEADBEEF, 0x03000000] []) 0x6048 (by decide)
  exact ⟨by decide, instruction, ht,
    (congrArg (fun post => post.memory) (hstr (by decide))).trans (by decide)⟩

/-! ## Immediate and register forms of the right shifts -/

/-- C35: for every value `x` and every `k` in 1..32, LSR1 (resp. ASR1) with
immediate `k mod 32` applied to `rm = x` produces the same `rd`, `N`, `Z` and
`C` as LSR2 (resp. ASR2) applied to `rd = x` with shift count `k`; for
`k = 32` the immediate is 0. -/
theorem shift_forms_agree (env : Env M) (c1 c2 : ARMCore M) (o1 o2 k : Nat)
    (hk1 : 1 ≤ k) (hk32 : k ≤ 32)
    (hx : c2.gprs (o2 &&& 0x0007) = c1.gprs ((o1 >>> 3) &&& 0x0007))
    (hcount : c2.gprs ((o2 >>> 3) &&& 0x0007) &&& 0xFF = k) :
    ((_ThumbInstructionLSR1_ env (k % 32) c1 o1).gprs (o1 &&& 0x0007)
        = (_ThumbInstructionLSR2 env c2 o2).gprs (o2 &&& 0x0007)
      ∧ (_ThumbInstructionLSR1_ env (k % 32) c1 o1).cpsr.n
        = (_ThumbInstructionLSR2 env c2 o2).cpsr.n
      ∧ (_ThumbInstructionLSR1_ env (k % 32) c1 o1).cpsr.z
        = (_ThumbInstructionLSR2 env c2 o2).cpsr.z
      ∧ (_ThumbInstructionLSR1_ env (k % 32) c1 o1).cpsr.c
        = (_ThumbInstructionLSR2 env c2 o2).cpsr.c)
    ∧ ((_ThumbInstructionASR1_ env (k % 32) c1 o1).gprs (o1 &&& 0x0007)
        = (_ThumbInstructionASR2 env c2 o2).gprs (o2 &&& 0x0007)
      ∧ (_ThumbInstructionASR1_ env (k % 32) c1 o1).cpsr.n
        = (_ThumbInstructionASR2 env c2 o2).cpsr.n
      ∧ (_ThumbInstructionASR1_ env (k % 32) c1 o1).cpsr.z
        = (_ThumbInstructionASR2 env c2 o2).cpsr.z
      ∧ (_ThumbInstructionASR1_ env (k % 32) c1 o1).cpsr.c
        = (_ThumbInstructionASR2 env c2 o2).cpsr.c) := by
  by_cases h32 : k = 32
  · subst h32
    have hm : 32 % 32 = 0 := rfl
    rw [hm]
    constructor
    · simp [_ThumbInstructionLSR1_, _ThumbInstructionLSR2,
        DEFINE_IMMEDIATE_5_INSTRUCTION_EX_THUMB, DEFINE_DATA_FORM_5_INSTRUCTION_THUMB,
        DEFINE_INSTRUCTION_THUMB, THUMB_NEUTRAL_S, setReg, setC, hx, hcount]
    · by_cases hs : bit (c1.gprs ((o1 >>> 3) &&& 0x0007)) 31 = 1
      · simp [_ThumbInstructionASR1_, _ThumbInstructionASR2,
          DEFINE_IMMEDIATE_5_INSTRUCTION_EX_THUMB, DEFINE_DATA_FORM_5_INSTRUCTION_THUMB,
          DEFINE_INSTRUCTION_THUMB, THUMB_NEUTRAL_S, setReg, setC, bitfield1_sign, hx, hcount,
          hs]
      · simp [_ThumbInstructionASR1_, _ThumbInstructionASR2,
          DEFINE_IMMEDIATE_5_INSTRUCTION_EX_THUMB, DEFINE_DATA_FORM_5_INSTRUCTION_THUMB,
          DEFINE_INSTRUCTION_THUMB, THUMB_NEUTRAL_S, setReg, setC, bitfield1_sign, hx, hcount,
          hs]
  · have hm : k % 32 = k := Nat.mod_eq_of_lt (by omega)
    have hne : k ≠ 0 := by omega
    have hlt : k < 32 := by omega
    rw [hm]
    constructor
    · simp [_ThumbInstructionLSR1_, _ThumbInstructionLSR2,
        DEFINE_IMMEDIATE_5_INSTRUCTION_EX_THUMB, DEFINE_DATA_FORM_5_INSTRUCTION_THUMB,
        DEFINE_INSTRUCTION_THUMB, THUMB_NEUTRAL_S, setReg, setC, hx, hcount, hne, hlt]
    · simp [_ThumbInstructionASR1_, _ThumbInstructionASR2,
        DEFINE_IMMEDIATE_5_INSTRUCTION_EX_THUMB, DEFINE_DATA_FORM_5_INSTRUCTION_THUMB,
        DEFINE_INSTRUCTION_THUMB, THUMB_NEUTRAL_S, setReg, setC, hx, hcount, hne, hlt]

/-- Witness of `shift_forms_agree` for `k = 32`: `LSR r0, r1, #32` (opcode
`0x0808`, immediate field 0) and `ASR r0, r1, #32` (opcode `0x1008`) with
`r1 = 0x80000000`, against `LSR r0, r1` (opcode `0x40C8`) and `ASR r0, r1`
(opcode `0x4108`) with `r0 = 0x80000000` and `r1 = 32`: both LSR forms give
`r0 = 0` and `C = 1`. -/
theorem shift_forms_agree_witness :
    (1 ≤ 32 ∧ 32 ≤ 32
      ∧ (sampleCore [0x80000000, 32] false).gprs (0x40C8 &&& 0x0007)
        = (sampleCore [0, 0x80000000] false).gprs ((0x0808 >>> 3) &&& 0x0007)
      ∧ (sampleCore [0x80000000, 32] false).gprs ((0x40C8 >>> 3) &&& 0x0007) &&& 0xFF = 32)
    ∧ (_ThumbInstructionLSR1_ (sampleEnv 0x0808) (32 % 32) (sampleCore [0, 0x80000000] false)
          0x0808).gprs (0x0808 &&& 0x0007)
        = (_ThumbInstructionLSR2 (sampleEnv 0x0808) (sampleCore [0x80000000, 32] false)
          0x40C8).gprs (0x40C8 &&& 0x0007)
    ∧ (_ThumbInstructionLSR2 (sampleEnv 0x0808) (sampleCore [0x80000000, 32] false)
          0x40C8).gprs (0x40C8 &&& 0x0007) = 0
    ∧ (_ThumbInstructionLSR2 (sampleEnv 0x0808) (sampleCore [0x80000000, 32] false)
          0x40C8).cpsr.c = true :=
  ⟨⟨by decide, by decide, by decide, by decide⟩,
   (shift_forms_agree (sampleEnv 0x0808) (sampleCore [0, 0x80000000] false)
     (sampleCore [0x80000000, 32] false) 0x0808 0x40C8 32
     (by decide) (by decide) (by decide) (by decide)).1.1,
   by decide, by decide⟩

/-! ## PUSHR followed by POPR -/

/-- The memory and the SP after PUSHR: LR stored at `s - 4`, the listed
registers below it by descending stores from `s - 8`, and the SP lowered by
`4 * (|L| + 1)`. -/
theorem PUSHR_code (env : Env M) (cpu : ARMCore M) (opcode : Nat) :
    (_ThumbInstructionPUSHR env cpu opcode).memory
      = storesDown env.memory cpu.gprs (listedDown (opcode &&& 0x00FF))
          (sub32 (cpu.gprs ARM_SP) 8)
          (env.memory.store32 cpu.memory (sub32 (cpu.gprs ARM_SP) 4) (cpu.gprs ARM_LR))
    ∧ (_ThumbInstructionPUSHR env cpu opcode).gprs ARM_SP
      = sub32 (cpu.gprs ARM_SP) (4 * ((listedDown (opcode &&& 0x00FF)).length + 1)) := by
  have hu : u32 (sub32 (cpu.gprs ARM_SP) 4) = sub32 (cpu.gprs ARM_SP) 4 := by
    simp only [u32, sub32]
    omega
  have h8 : sub32 (sub32 (cpu.gprs ARM_SP) 4) 4 = sub32 (cpu.gprs ARM_SP) 8 := by
    simp only [sub32]
    omega
  have h := store_fold_down env (listedDown (opcode &&& 0x00FF))
    { cpu := { cpu with memory :=
                env.memory.store32 cpu.memory (sub32 (cpu.gprs ARM_SP) 4) (cpu.gprs ARM_LR) }
      address := sub32 (cpu.gprs ARM_SP) 8 }
  unfold _ThumbInstructionPUSHR
  rw [DEFINE_LOAD_STORE_MULTIPLE_EX_THUMB_down]
  simp only [DEFINE_INSTRUCTION_THUMB, id, hu, h8, setReg, h.1]
  refine ⟨trivial, ?_⟩
  have h2 := h.2
  simp only [u32, sub32, add32] at h2 ⊢
  simp only [if_true]
  omega

/-- The state after POPR from a 32-bit stack pointer `s`: the ascending loads
of the listed registers from `s`, the PC loaded from the next slot with bit 0
cleared, the SP raised by `4 * (|L| + 1)`, the PC-write ritual, and the cycles
charged. -/
theorem POPR_code (env : Env M) (cpu : ARMCore M) (opcode : Nat)
    (hs : cpu.gprs ARM_SP < 4294967296) :
    _ThumbInstructionPOPR env cpu opcode
      = DEFINE_INSTRUCTION_THUMB env (fun cpu opcode =>
          env.THUMB_WRITE_PC
            (setReg
              (setReg
                { loadsUp env.memory (listedUp (opcode &&& 0x00FF)) (cpu.gprs ARM_SP) cpu with
                  memory := (env.memory.load32
                    (loadsUp env.memory (listedUp (opcode &&& 0x00FF)) (cpu.gprs ARM_SP) cpu).memory
                    (add32 (cpu.gprs ARM_SP) (4 * (listedUp (opcode &&& 0x00FF)).length))).2 }
                ARM_PC
                ((env.memory.load32
                    (loadsUp env.memory (listedUp (opcode &&& 0x00FF)) (cpu.gprs ARM_SP) cpu).memory
                    (add32 (cpu.gprs ARM_SP) (4 * (listedUp (opcode &&& 0x00FF)).length))).1
                  &&& 0xFFFFFFFE))
              ARM_SP
              (add32 (cpu.gprs ARM_SP) (4 * ((listedUp (opcode &&& 0x00FF)).length + 1)))))
          cpu opcode := by
  have hu : u32 (cpu.gprs ARM_SP) = cpu.gprs ARM_SP := Nat.mod_eq_of_lt hs
  have h := load_fold_up env (listedUp (opcode &&& 0x00FF))
    { cpu := cpu, address := cpu.gprs ARM_SP } hs
  have h4 : add32 (add32 (cpu.gprs ARM_SP) (4 * (listedUp (opcode &&& 0x00FF)).length)) 4
      = add32 (cpu.gprs ARM_SP) (4 * ((listedUp (opcode &&& 0x00FF)).length + 1)) := by
    simp only [add32]
    omega
  simp only [] at h
  unfold _ThumbInstructionPOPR
  rw [DEFINE_LOAD_STORE_MULTIPLE_EX_THUMB_up]
  simp only [DEFINE_INSTRUCTION_THUMB, id, hu, h.1, h.2, h4]

/-- C36: over a memory in which a 32-bit load returns the value last stored at
its address: for every register list `L` and every state with a 32-bit stack
pointer `s` and link register `l`, PUSHR with list `L`, then any change of the
CPU record that leaves the SP and the memory as PUSHR left them, then POPR
with the same list `L`: the state `pre` that POPR has built when it runs the
PC-write ritual (loads of the listed registers, load of the PC with bit 0
cleared, SP raised) has every register of `L` and the SP restored and the PC
equal to `l` with bit 0 cleared; if the ritual writes no register other than the PC, the
registers of `L` and the SP are restored after POPR. -/
theorem PUSHR_POPR_roundtrip (env : Env M) (hmem : LastStored32 env.memory)
    (cpu changed : ARMCore M) (push pop : Nat)
    (hL : pop &&& 0x00FF = push &&& 0x00FF)
    (hs : cpu.gprs ARM_SP < 4294967296)
    (hm : changed.memory = (_ThumbInstructionPUSHR env cpu push).memory)
    (hsp : changed.gprs ARM_SP = (_ThumbInstructionPUSHR env cpu push).gprs ARM_SP) :
    ∃ pre : ARMCore M,
      pre = setReg
          (setReg
            { loadsUp env.memory (listedUp (pop &&& 0x00FF)) (changed.gprs ARM_SP) changed with
              memory := (env.memory.load32
                (loadsUp env.memory (listedUp (pop &&& 0x00FF)) (changed.gprs ARM_SP)
                  changed).memory
                (add32 (changed.gprs ARM_SP) (4 * (listedUp (pop &&& 0x00FF)).length))).2 }
            ARM_PC
            ((env.memory.load32
                (loadsUp env.memory (listedUp (pop &&& 0x00FF)) (changed.gprs ARM_SP)
                  changed).memory
                (add32 (changed.gprs ARM_SP) (4 * (listedUp (pop &&& 0x00FF)).length))).1
              &&& 0xFFFFFFFE))
          ARM_SP
          (add32 (changed.gprs ARM_SP) (4 * ((listedUp (pop &&& 0x00FF)).length + 1)))
      ∧ _ThumbInstructionPOPR env changed pop
        = DEFINE_INSTRUCTION_THUMB env (fun _ _ => env.THUMB_WRITE_PC pre) changed pop
      ∧ (∀ i, i ∈ listedUp (push &&& 0x00FF) → pre.gprs i = cpu.gprs i)
      ∧ pre.gprs ARM_SP = cpu.gprs ARM_SP
      ∧ pre.gprs ARM_PC = cpu.gprs ARM_LR &&& 0xFFFFFFFE
      ∧ ((∀ c i, i ≠ ARM_PC → (env.THUMB_WRITE_PC c).gprs i = c.gprs i) →
          (∀ i, i ∈ listedUp (push &&& 0x00FF) →
            (_ThumbInstructionPOPR env changed pop).gprs i = cpu.gprs i)
          ∧ (_ThumbInstructionPOPR env changed pop).gprs ARM_SP = cpu.gprs ARM_SP) := by
  rw [(PUSHR_code env cpu push).1] at hm
  rw [(PUSHR_code env cpu push).2] at hsp
  have hlen := listedUp_length_le (push &&& 0x00FF)
  have hrev := listedDown_eq_reverse (push &&& 0x00FF)
  have hdl : (listedDown (push &&& 0x00FF)).length = (listedUp (push &&& 0x00FF)).length := by
    rw [hrev, List.length_reverse]
  have hs2 : changed.gprs ARM_SP < 4294967296 := by
    rw [hsp]
    exact Nat.mod_lt _ (by decide)
  have hpcsp : ARM_PC ≠ ARM_SP := by decide
  have hregs : ∀ i, i ∈ listedUp (push &&& 0x00FF) →
      (loadsUp env.memory (listedUp (push &&& 0x00FF)) (changed.gprs ARM_SP) changed).gprs i
        = cpu.gprs i := by
    intro i hi
    obtain ⟨j, hj⟩ := List.mem_iff_getElem?.1 hi
    obtain ⟨hjlt, _⟩ := List.getElem?_eq_some_iff.1 hj
    rw [loadsUp_gprs env.memory hmem _ (listedUp_nodup _) _ _ hs2 j i hj, hm, hsp]
    have hk : (listedDown (push &&& 0x00FF))[(listedUp (push &&& 0x00FF)).length - 1 - j]?
        = some i := by
      rw [hrev, List.getElem?_reverse (by omega)]
      have hidx : (listedUp (push &&& 0x00FF)).length - 1
          - ((listedUp (push &&& 0x00FF)).length - 1 - j) = j := by omega
      rw [hidx, hj]
    have haddr : add32 (sub32 (cpu.gprs ARM_SP)
          (4 * ((listedDown (push &&& 0x00FF)).length + 1))) (4 * j)
        = sub32 (sub32 (cpu.gprs ARM_SP) 8)
            (4 * ((listedUp (push &&& 0x00FF)).length - 1 - j)) := by
      rw [hdl]
      simp only [add32, sub32]
      omega
    rw [haddr]
    exact storesDown_load env.memory hmem cpu.gprs _ _ _ (Nat.mod_lt _ (by decide))
      (by omega) _ i hk
  have hpc : (env.memory.load32
        (loadsUp env.memory (listedUp (push &&& 0x00FF)) (changed.gprs ARM_SP) changed).memory
        (add32 (changed.gprs ARM_SP) (4 * (listedUp (push &&& 0x00FF)).length))).1
      = cpu.gprs ARM_LR := by
    have haddr : add32 (sub32 (cpu.gprs ARM_SP)
          (4 * ((listedDown (push &&& 0x00FF)).length + 1)))
          (4 * (listedUp (push &&& 0x00FF)).length)
        = sub32 (cpu.gprs ARM_SP) 4 := by
      rw [hdl]
      simp only [add32, sub32]
      omega
    have hother := storesDown_load_other env.memory hmem cpu.gprs
      (listedDown (push &&& 0x00FF)) (sub32 (cpu.gprs ARM_SP) 8)
      (env.memory.store32 cpu.memory (sub32 (cpu.gprs ARM_SP) 4) (cpu.gprs ARM_LR))
      (sub32 (cpu.gprs ARM_SP) 4) (Nat.mod_lt _ (by decide))
      (by
        intro j hj
        rw [hdl] at hj
        simp only [sub32]
        omega)
    rw [loadsUp_memory env.memory hmem, hm, hsp, haddr, hother, hmem.load_same]
  have hspv : add32 (changed.gprs ARM_SP) (4 * ((listedUp (push &&& 0x00FF)).length + 1))
      = cpu.gprs ARM_SP := by
    rw [hsp, hdl]
    simp only [add32, sub32]
    omega
  rw [POPR_code env changed pop hs2]
  simp only [DEFINE_INSTRUCTION_THUMB, hL]
  refine ⟨_, rfl, rfl, ?_, ?_, ?_, ?_⟩
  · intro i hi
    have hi7 := listedUp_le _ i hi
    have hne : i ≠ ARM_SP := by
      unfold ARM_SP
      omega
    have hne2 : i ≠ ARM_PC := by
      unfold ARM_PC
      omega
    rw [setReg_gprs_ne _ _ _ _ hne, setReg_gprs_ne _ _ _ _ hne2]
    exact hregs i hi
  · simp only [setReg, if_true]
    exact hspv
  · rw [setReg_gprs_ne _ _ _ _ hpcsp]
    simp only [setReg, if_true]
    rw [hpc]
  · intro hw
    constructor
    · intro i hi
      have hi7 := listedUp_le _ i hi
      have hne : i ≠ ARM_SP := by
        unfold ARM_SP
        omega
      have hne2 : i ≠ ARM_PC := by
        unfold ARM_PC
        omega
      show (env.THUMB_WRITE_PC _).gprs i = _
      rw [hw _ _ hne2, setReg_gprs_ne _ _ _ _ hne, setReg_gprs_ne _ _ _ _ hne2]
      exact hregs i hi
    · show (env.THUMB_WRITE_PC _).gprs ARM_SP = _
      rw [hw _ _ (Ne.symm hpcsp)]
      simp only [setReg, if_true]
      exact hspv

/-- Witness of `PUSHR_POPR_roundtrip`: `SP = 0x03000400`, `r0 = 0x1111`,
`r1 = 0x2222`, `LR = 0x08000123`, `PUSH {r0, r1, lr}` (opcode `0xB503`), then
`r0`, `r1` and LR zeroed, then `POP {r0, r1, pc}` (opcode `0xBD03`) over the
memory `storeLog`, with a PC-write ritual that leaves the CPU record as it is:
afterwards `r0 = 0x1111`, `r1 = 0x2222`, `SP = 0x03000400` and
`PC = 0x08000122`. -/
theorem PUSHR_POPR_roundtrip_witness :
    (LastStored32 logEnv.memory
      ∧ 0xBD03 &&& 0x00FF = 0xB503 &&& 0x00FF
      ∧ (logCore [0x1111, 0x2222, 0, 0, 0, 0, 0, 0, 0, 0, 0, 0, 0, 0x03000400, 0x08000123]
          []).gprs ARM_SP < 4294967296
      ∧ (logCore [0, 0, 0, 0, 0, 0, 0, 0, 0, 0, 0, 0, 0, 0x030003F4]
          [(32, 0x030003F4, 0x1111), (32, 0x030003F8, 0x2222),
            (32, 0x030003FC, 0x08000123)]).memory
        = (_ThumbInstructionPUSHR logEnv
            (logCore [0x1111, 0x2222, 0, 0, 0, 0, 0, 0, 0, 0, 0, 0, 0, 0x03000400, 0x08000123]
              [])
            0xB503).memory
      ∧ (logCore [0, 0, 0, 0, 0, 0, 0, 0, 0, 0, 0, 0, 0, 0x030003F4]
          [(32, 0x030003F4, 0x1111), (32, 0x030003F8, 0x2222),
            (32, 0x030003FC, 0x08000123)]).gprs ARM_SP
        = (_ThumbInstructionPUSHR logEnv
            (logCore [0x1111, 0x2222, 0, 0, 0, 0, 0, 0, 0, 0, 0, 0, 0, 0x03000400, 0x08000123]
              [])
            0xB503).gprs ARM_SP)
    ∧ List.map
        (_ThumbInstructionPOPR logEnv
          (logCore [0, 0, 0, 0, 0, 0, 0, 0, 0, 0, 0, 0, 0, 0x030003F4]
            [(32, 0x030003F4, 0x1111), (32, 0x030003F8, 0x2222),
              (32, 0x030003FC, 0x08000123)])
          0xBD03).gprs [0, 1, 13, 15]
        = [0x1111, 0x2222, 0x03000400, 0x08000122] := by
  obtain ⟨pre, _, heq, _, _, hpc, hfin⟩ :=
    PUSHR_POPR_roundtrip logEnv storeLog_lastStored32
      (logCore [0x1111, 0x2222, 0, 0, 0, 0, 0, 0, 0, 0, 0, 0, 0, 0x03000400, 0x08000123] [])
      (logCore [0, 0, 0, 0, 0, 0, 0, 0, 0, 0, 0, 0, 0, 0x030003F4]
        [(32, 0x030003F4, 0x1111), (32, 0x030003F8, 0x2222), (32, 0x030003FC, 0x08000123)])
      0xB503 0xBD03 (by decide) (by decide) (by decide) (by decide)
  obtain ⟨hregs, hsp⟩ := hfin (fun _ _ _ => rfl)
  have h15 : (_ThumbInstructionPOPR logEnv
      (logCore [0, 0, 0, 0, 0, 0, 0, 0, 0, 0, 0, 0, 0, 0x030003F4]
        [(32, 0x030003F4, 0x1111), (32, 0x030003F8, 0x2222), (32, 0x030003FC, 0x08000123)])
      0xBD03).gprs ARM_PC = pre.gprs ARM_PC := by
    rw [heq]
    rfl
  refine ⟨⟨storeLog_lastStored32, by decide, by decide, by decide, by decide⟩, ?_⟩
  simp only [List.map_cons, List.map_nil]
  rw [hregs 0 (by decide), hregs 1 (by decide)]
  have h13 : (13 : Nat) = ARM_SP := rfl
  have h15b : (15 : Nat) = ARM_PC := rfl
  rw [h13, h15b, hsp, h15, hpc]
  decide

end Thumb
